import Mathlib

/-!
Shallow embedding of the authoritative simulation core of the
"fence-fighters-online" repository (file `src/game/core.js`), together with
proofs settling the frozen claims about it.

Modelling conventions:
* JS numbers are modelled as rationals (`ℚ`).  All arithmetic in the source is
  exact rational arithmetic except `Math.hypot`, `Math.atan2`, `Math.cos`,
  `Math.sin` and `Math.random`; those are modelled by an explicit oracle
  structure `Env` (see below).  Every concrete run of the JS program
  corresponds to some `Env` (record the values the library calls returned,
  keyed as described at each field), so a theorem quantified over all `Env`
  covers every run.
* `Math.random()` draws are keyed by the id of the entity whose creation or
  death triggered the draw; ids are fresh at each draw site, so every run's
  draw sequence is represented.
* The source's `this.players` array is created once as
  `[new Player(1,"left"), new Player(2,"right")]` and never re-assigned
  (except wholesale on restart); it is embedded as the two fields `p1`, `p2`
  of `GState`, and `for (const p of this.players)` loops process `p1` then
  `p2` in that order.
* Dynamically added JS marker properties (`_dead`, `_exploded`, `_taken`)
  are embedded as `Bool` fields initialised to `false`.
-/

namespace FF

/-- Arena side, the two halves of the arena separated by the fence. -/
inductive Side where
  | left
  | right
deriving DecidableEq, Repr

/-- Match phase: the `this.state` string of `GameCore`. -/
inductive Phase where
  | weaponSelect
  | playing
  | shop
  | gameOver
deriving DecidableEq, Repr

/-- Value of `this.winner`. -/
inductive Winner where
  | left
  | right
  | draw
deriving DecidableEq, Repr

/-- The four selectable weapons of `WEAPON_CONFIG`. -/
inductive WeaponType where
  | knife
  | axe
  | spear
  | bow
deriving DecidableEq, Repr

/-- The four normal (sendable) monster types of `SEND_MOB_COST`. -/
inductive MobType where
  | slime
  | fast
  | tank
  | spitter
deriving DecidableEq, Repr

/-- Monster type strings: the four normal types plus `boss<tier>` strings. -/
inductive MonsterType where
  | slime
  | fast
  | tank
  | spitter
  | boss (tier : ℕ)
deriving DecidableEq, Repr

def MobType.toMonsterType : MobType → MonsterType
  | .slime => .slime
  | .fast => .fast
  | .tank => .tank
  | .spitter => .spitter

/-- Whether a type string `startsWith("boss")`. -/
def MonsterType.isBoss : MonsterType → Bool
  | .boss _ => true
  | _ => false

-- -----------------------------------------------------
-- Config constants (from the top of core.js)
-- -----------------------------------------------------

def SCREEN_WIDTH : ℚ := 1000
def SCREEN_HEIGHT : ℚ := 600
def FENCE_X : ℚ := SCREEN_WIDTH / 2
def ARENA_PADDING : ℚ := 40

def PLAYER_SPEED : ℚ := 300
def PLAYER_MAX_HP : ℚ := 100
def HEART_HEAL : ℚ := 25
def GOLD_PER_PICKUP : ℚ := 3

def GREEN_POTION_DROP_CHANCE : ℚ := 0.06
def ENRAGE_DURATION : ℚ := 12.0
def ENRAGE_DAMAGE_MULT : ℚ := 1.15
def ENRAGE_ATTACK_SPEED_MULT : ℚ := 1.75

def WAVE_TIME : ℚ := 30.0
def SHOP_TIME : ℚ := 18.0

def BASE_TARGET : ℤ := 18
def TARGET_SCALE : ℚ := 1.32

def BASE_SPAWN_INTERVAL : ℚ := 0.95
def MIN_SPAWN_INTERVAL : ℚ := 0.25
def SPAWN_INTERVAL_DECAY : ℚ := 0.045

def MAX_MONSTERS : ℕ := 70

def MONSTER_BASE_HP : ℚ := 60
def MONSTER_HP_SCALE : ℚ := 1.12
def MONSTER_BASE_SPEED : ℚ := 90
def MONSTER_SPEED_SCALE : ℚ := 1.06

def GOLD_DROP_CHANCE : ℚ := 0.55
def HEART_DROP_CHANCE : ℚ := 0.08

def UPGRADE_COST : ℚ := 10

def SEND_MOB_COST : MobType → ℚ
  | .slime => 10
  | .fast => 14
  | .tank => 18
  | .spitter => 16

def SEND_MOB_AMOUNT : MobType → ℕ
  | .slime => 4
  | .fast => 3
  | .tank => 2
  | .spitter => 2

def SEND_BOSS_COST : ℚ := 100

/-- `bossTierForRound`: `1 + Math.floor((round - 1) / 10)`.  `round ≥ 1`
always holds in reachable states, where natural subtraction and division
agree with the JS arithmetic. -/
def bossTierForRound (round : ℕ) : ℕ := 1 + (round - 1) / 10

def bossTypeForRound (round : ℕ) : MonsterType := .boss (bossTierForRound round)

def isBossRound (round : ℕ) : Bool := round % 5 = 0

def HEAL_COST : ℚ := 8
def HEAL_AMOUNT : ℚ := 30

def GRENADE_COST : ℚ := 25
def GRENADE_MAX_PER_ROUND : ℕ := 2
def GRENADE_FUSE : ℚ := 1.2
def GRENADE_RADIUS : ℚ := 240
def GRENADE_DAMAGE : ℚ := 100

def PICKUP_RADIUS : ℚ := 32

/-- Per-weapon config of `WEAPON_CONFIG`: (damage, cooldown, bulletSpeed). -/
def weaponDamageCfg : WeaponType → ℚ
  | .knife => 10
  | .axe => 18
  | .spear => 14
  | .bow => 8

def weaponCooldownCfg : WeaponType → ℚ
  | .knife => 0.35
  | .axe => 0.65
  | .spear => 0.45
  | .bow => 0.55

def weaponBulletSpeedCfg : WeaponType → ℚ
  | .knife => 520
  | .axe => 460
  | .spear => 580
  | .bow => 780

def BULLET_LIFETIME : ℚ := 1.7

def SPITTER_RANGE : ℚ := 420
def SPITTER_COOLDOWN : ℚ := 1.25
def SPITTER_COOLDOWN_JITTER : ℚ := 0.35
def SPITTER_PROJECTILE_SPEED : ℚ := 420
def SPITTER_PROJECTILE_DAMAGE : ℚ := 10
def ENEMY_BULLET_LIFETIME : ℚ := 2.2

/-- The helper `clamp(value, min, max) = Math.max(min, Math.min(max, value))`. -/
def clamp (value minV maxV : ℚ) : ℚ := max minV (min maxV value)

/-- JS `Math.round` on the (always positive, here) quantities it is applied
to: `⌊q + 1/2⌋`. -/
def roundQ (q : ℚ) : ℤ := ⌊q + (1 : ℚ) / 2⌋

/-- `pierceMap = { knife: 0, axe: 2, spear: 999, bow: 1 }`, looked up with
`?? 0` (so an unset weapon yields 0). -/
def pierceOf : Option WeaponType → ℤ
  | some .knife => 0
  | some .axe => 2
  | some .spear => 999
  | some .bow => 1
  | none => 0

-- -----------------------------------------------------
-- Oracle for Math.random / Math.hypot / trig
-- -----------------------------------------------------

/-- Oracle for the non-rational library calls of the source.  `hyp` models
`Math.hypot`; the `ℕ → ℚ` fields model `Math.random()` draws keyed by the
fresh entity id current at the draw site, so any concrete run of the
program is represented by some `Env`:
* `typeRoll`, `warnX`, `warnY`: the three draws of `spawnWarningOnSide`,
  keyed by the new warning's id.
* `shotCos`, `shotSin`: the value of `cos`/`sin` of the randomly spread
  firing angle in `Player.shoot`, keyed by the new bullet's id.
* `spitInit`: the draw of the `Monster` constructor for spitters, keyed by
  the new monster's id.
* `spitJitter`: the cooldown re-randomisation after a spitter fires, keyed
  by the new enemy bullet's id.
* `goldRoll`, `heartRoll`, `potionRoll`: the three loot rolls on a kill,
  keyed by the killed monster's id.
* `grenX`, `grenY`: the two `randRange` draws placing a deployed grenade,
  keyed by the new grenade's id. -/
structure Env where
  hyp : ℚ → ℚ → ℚ
  typeRoll : ℕ → ℚ
  warnX : ℕ → ℚ
  warnY : ℕ → ℚ
  shotCos : ℕ → ℚ
  shotSin : ℕ → ℚ
  spitInit : ℕ → ℚ
  spitJitter : ℕ → ℚ
  goldRoll : ℕ → ℚ
  heartRoll : ℕ → ℚ
  potionRoll : ℕ → ℚ
  grenX : ℕ → ℚ
  grenY : ℕ → ℚ

/-- Per-player directional intent for one tick (`{up, down, left, right}`);
a missing entry of the JS `inputs` record is the all-`false` value. -/
structure Input where
  up : Bool
  down : Bool
  left : Bool
  right : Bool
deriving DecidableEq, Repr

-- -----------------------------------------------------
-- Core data classes
-- -----------------------------------------------------

structure Player where
  id : ℕ
  side : Side
  width : ℚ
  height : ℚ
  maxHp : ℚ
  hp : ℚ
  gold : ℚ
  score : ℚ
  monstersKilled : ℕ
  weaponType : Option WeaponType
  weaponChosen : Bool
  weaponLevel : ℕ
  weaponTimer : ℚ
  enrageTimer : ℚ
  grenadesBoughtThisRound : ℕ
  weaponDamage : ℚ
  weaponCooldown : ℚ
  bulletSpeed : ℚ
  aimDx : ℚ
  aimDy : ℚ
  x : ℚ
  y : ℚ
deriving DecidableEq, Repr

/-- The `Player` constructor (including `resetPosition`). -/
def mkPlayer (id : ℕ) (side : Side) : Player where
  id := id
  side := side
  width := 32
  height := 32
  maxHp := PLAYER_MAX_HP
  hp := PLAYER_MAX_HP
  gold := 0
  score := 0
  monstersKilled := 0
  weaponType := none
  weaponChosen := false
  weaponLevel := 1
  weaponTimer := 0
  enrageTimer := 0
  grenadesBoughtThisRound := 0
  weaponDamage := 10
  weaponCooldown := 0.35
  bulletSpeed := 520
  aimDx := if side = Side.left then 1 else -1
  aimDy := 0
  x := if side = Side.left then SCREEN_WIDTH * 0.25 else SCREEN_WIDTH * 0.75
  y := SCREEN_HEIGHT * 0.65

def Player.isAlive (p : Player) : Bool := 0 < p.hp

/-- `setWeapon`: no-op when the weapon type string is not a key of
`WEAPON_CONFIG` (modelled by `none`). -/
def Player.setWeapon (p : Player) (wt : Option WeaponType) : Player :=
  match wt with
  | none => p
  | some w =>
    { p with
      weaponType := some w
      weaponChosen := true
      weaponLevel := 1
      weaponDamage := weaponDamageCfg w
      weaponCooldown := weaponCooldownCfg w
      bulletSpeed := weaponBulletSpeedCfg w }

/-- `upgradeWeapon`.  The JS reads `WEAPON_CONFIG[this.weaponType]`, which
would throw for an unset weapon; that situation is unreachable (upgrades
only happen in SHOP, where a weapon has been chosen), and the `none` branch
leaves the player unchanged. -/
def Player.upgradeWeapon (p : Player) : Player :=
  match p.weaponType with
  | none => p
  | some w =>
    let lvl := min (p.weaponLevel + 1) 5
    { p with
      weaponLevel := lvl
      weaponDamage := (roundDown (weaponDamageCfg w * (1 + 0.4 * ((lvl : ℚ) - 1))) : ℚ)
      weaponCooldown := max 0.15 (weaponCooldownCfg w * (0.9 : ℚ) ^ (lvl - 1))
      bulletSpeed := weaponBulletSpeedCfg w * (1 + 0.05 * ((lvl : ℚ) - 1)) }
where
  /-- JS `Math.floor`. -/
  roundDown (q : ℚ) : ℤ := ⌊q⌋

def Player.takeDamage (p : Player) (amount : ℚ) : Player :=
  { p with hp := max 0 (p.hp - amount) }

def Player.heal (p : Player) (amount : ℚ) : Player :=
  { p with hp := clamp (p.hp + amount) 0 p.maxHp }

/-- `Player.update(dt)`: tick down the weapon cooldown and the enrage buff. -/
def Player.update (p : Player) (dt : ℚ) : Player :=
  let p := if 0 < p.weaponTimer then { p with weaponTimer := p.weaponTimer - dt } else p
  if 0 < p.enrageTimer then { p with enrageTimer := max 0 (p.enrageTimer - dt) } else p

def Player.isEnraged (p : Player) : Bool := 0 < p.enrageTimer

def Player.applyEnrage (p : Player) (durationSeconds : ℚ) : Player :=
  { p with enrageTimer := max p.enrageTimer durationSeconds }

def Player.canShoot (p : Player) : Bool := p.weaponTimer ≤ 0 && p.isAlive

/-- `updateAim(targetX, targetY)`: aim at the target unless it is (almost)
on top of the player. -/
def Player.updateAim (env : Env) (p : Player) (targetX targetY : ℚ) : Player :=
  let dx := targetX - p.x
  let dy := targetY - p.y
  let len := env.hyp dx dy
  if 0.0001 < len then { p with aimDx := dx / len, aimDy := dy / len } else p

structure Monster where
  id : ℕ
  side : Side
  type : MonsterType
  x : ℚ
  y : ℚ
  hp : ℚ
  speed : ℚ
  radius : ℚ
  shotTimer : ℚ
deriving DecidableEq, Repr

/-- The `Monster` constructor.  The spitter's initial `shotTimer` draw
`0.4 + Math.random() * 0.6` is taken from `env.spitInit` keyed by the new
monster's id. -/
def mkMonster (env : Env) (id : ℕ) (side : Side) (type : MonsterType)
    (x y hp speed : ℚ) : Monster where
  id := id
  side := side
  type := type
  x := x
  y := y
  hp := hp
  speed := speed
  radius := if type.isBoss then 60 else 34
  shotTimer := if type = MonsterType.spitter then 0.4 + env.spitInit id * 0.6 else 0

def Monster.isAlive (m : Monster) : Bool := 0 < m.hp

def Monster.takeDamage (m : Monster) (amount : ℚ) : Monster :=
  { m with hp := max 0 (m.hp - amount) }

structure Bullet where
  id : ℕ
  ownerId : ℕ
  side : Side
  x : ℚ
  y : ℚ
  vx : ℚ
  vy : ℚ
  damage : ℚ
  weaponType : Option WeaponType
  lifetime : ℚ
  pierce : ℤ
  dead : Bool
deriving DecidableEq, Repr

def mkBullet (id ownerId : ℕ) (side : Side) (x y vx vy damage : ℚ)
    (weaponType : Option WeaponType) : Bullet where
  id := id
  ownerId := ownerId
  side := side
  x := x
  y := y
  vx := vx
  vy := vy
  damage := damage
  weaponType := weaponType
  lifetime := BULLET_LIFETIME
  pierce := pierceOf weaponType
  dead := false

/-- `Player.shoot(bulletId)`: sets the cooldown and returns a bullet.  The
bullet's direction `(cos angle, sin angle)` — the aim angle plus a random
spread offset — is taken from the oracle keyed by the bullet id. -/
def Player.shoot (env : Env) (p : Player) (bulletId : ℕ) : Player × Bullet :=
  let atkSpeedMult := if p.isEnraged then ENRAGE_ATTACK_SPEED_MULT else 1.0
  let p' := { p with weaponTimer := p.weaponCooldown / atkSpeedMult }
  let dx := env.shotCos bulletId
  let dy := env.shotSin bulletId
  let speed := p.bulletSpeed
  let dmgMult := if p.isEnraged then ENRAGE_DAMAGE_MULT else 1.0
  let damage := p.weaponDamage * dmgMult
  let startX := p.x + dx * 20
  let startY := p.y + dy * 20
  (p', mkBullet bulletId p.id p.side startX startY (dx * speed) (dy * speed)
    damage p.weaponType)

structure EnemyBullet where
  id : ℕ
  side : Side
  x : ℚ
  y : ℚ
  vx : ℚ
  vy : ℚ
  damage : ℚ
  lifetime : ℚ
  dead : Bool
deriving DecidableEq, Repr

structure Grenade where
  id : ℕ
  side : Side
  x : ℚ
  y : ℚ
  timer : ℚ
  radius : ℚ
  damage : ℚ
  exploded : Bool
deriving DecidableEq, Repr

def mkGrenade (id : ℕ) (side : Side) (x y : ℚ) : Grenade where
  id := id
  side := side
  x := x
  y := y
  timer := GRENADE_FUSE
  radius := GRENADE_RADIUS
  damage := GRENADE_DAMAGE
  exploded := false

structure GoldDrop where
  id : ℕ
  x : ℚ
  y : ℚ
  amount : ℚ
  taken : Bool
deriving DecidableEq, Repr

structure HeartPickup where
  id : ℕ
  x : ℚ
  y : ℚ
  healAmount : ℚ
  taken : Bool
deriving DecidableEq, Repr

structure GreenPotionPickup where
  id : ℕ
  x : ℚ
  y : ℚ
  taken : Bool
deriving DecidableEq, Repr

structure SpawnWarning where
  id : ℕ
  side : Side
  type : MonsterType
  round : ℕ
  total : ℚ
  timer : ℚ
  x : ℚ
  y : ℚ
deriving DecidableEq, Repr

/-- Per-side stored data (`{ left: ..., right: ... }` objects). -/
structure SideMap (α : Type) where
  left : α
  right : α
deriving DecidableEq, Repr

def SideMap.get {α} (m : SideMap α) : Side → α
  | .left => m.left
  | .right => m.right

def SideMap.set {α} (m : SideMap α) : Side → α → SideMap α
  | .left, a => { m with left := a }
  | .right, a => { m with right := a }

/-- Pending "send mobs" pack counts per type (`this.pendingPacks[side]`). -/
structure Packs where
  slime : ℕ
  fast : ℕ
  tank : ℕ
  spitter : ℕ
deriving DecidableEq, Repr

def Packs.zero : Packs := ⟨0, 0, 0, 0⟩

def Packs.get (pk : Packs) : MobType → ℕ
  | .slime => pk.slime
  | .fast => pk.fast
  | .tank => pk.tank
  | .spitter => pk.spitter

def Packs.inc (pk : Packs) : MobType → Packs
  | .slime => { pk with slime := pk.slime + 1 }
  | .fast => { pk with fast := pk.fast + 1 }
  | .tank => { pk with tank := pk.tank + 1 }
  | .spitter => { pk with spitter := pk.spitter + 1 }

-- -----------------------------------------------------
-- GameCore state
-- -----------------------------------------------------

structure GState where
  p1 : Player
  p2 : Player
  monsters : List Monster
  bullets : List Bullet
  enemyBullets : List EnemyBullet
  grenades : List Grenade
  goldDrops : List GoldDrop
  hearts : List HeartPickup
  greenPotions : List GreenPotionPickup
  spawnWarnings : List SpawnWarning
  nextMonsterId : ℕ
  nextBulletId : ℕ
  nextEnemyBulletId : ℕ
  nextGrenadeId : ℕ
  nextGoldId : ℕ
  nextHeartId : ℕ
  nextGreenPotionId : ℕ
  nextSpawnWarnId : ℕ
  state : Phase
  winner : Option Winner
  round : ℕ
  waveLeft : ℚ
  shopLeft : ℚ
  spawnInterval : ℚ
  normalTarget : ℤ
  baseTarget : ℤ
  baseSpawnedLeft : ℤ
  baseSpawnedRight : ℤ
  spawnCdLeft : ℚ
  spawnCdRight : ℚ
  pendingPacks : SideMap Packs
  pendingBosses : SideMap (List MonsterType)
  pendingGrenades : SideMap ℕ
  extraPlanLeft : List MonsterType
  extraPlanRight : List MonsterType
  extraPlanSpawnedLeft : ℕ
  extraPlanSpawnedRight : ℕ
  extraSpawnCdLeft : ℚ
  extraSpawnCdRight : ℚ
  leftReady : Bool
  rightReady : Bool
  forcedBaseType : Option MonsterType
deriving DecidableEq, Repr

/-- The `GameCore` constructor.  `forcedBaseType` starts unset (the JS field
`_forcedBaseType` does not exist until `startNewRound` first assigns it). -/
def initState : GState where
  p1 := mkPlayer 1 Side.left
  p2 := mkPlayer 2 Side.right
  monsters := []
  bullets := []
  enemyBullets := []
  grenades := []
  goldDrops := []
  hearts := []
  greenPotions := []
  spawnWarnings := []
  nextMonsterId := 1
  nextBulletId := 1
  nextEnemyBulletId := 1
  nextGrenadeId := 1
  nextGoldId := 1
  nextHeartId := 1
  nextGreenPotionId := 1
  nextSpawnWarnId := 1
  state := Phase.weaponSelect
  winner := none
  round := 1
  waveLeft := WAVE_TIME
  shopLeft := SHOP_TIME
  spawnInterval := 1.8
  normalTarget := BASE_TARGET
  baseTarget := BASE_TARGET
  baseSpawnedLeft := 0
  baseSpawnedRight := 0
  spawnCdLeft := 0
  spawnCdRight := 0
  pendingPacks := ⟨Packs.zero, Packs.zero⟩
  pendingBosses := ⟨[], []⟩
  pendingGrenades := ⟨0, 0⟩
  extraPlanLeft := []
  extraPlanRight := []
  extraPlanSpawnedLeft := 0
  extraPlanSpawnedRight := 0
  extraSpawnCdLeft := 0
  extraSpawnCdRight := 0
  leftReady := false
  rightReady := false
  forcedBaseType := none

/-- `getPlayer(id)`: first element of `[p1, p2]` whose id matches. -/
def GState.getPlayer (s : GState) (id : ℕ) : Option Player :=
  if s.p1.id = id then some s.p1
  else if s.p2.id = id then some s.p2
  else none

/-- Write back a mutation of the player found by `getPlayer`. -/
def GState.updatePlayer (s : GState) (id : ℕ) (f : Player → Player) : GState :=
  if s.p1.id = id then { s with p1 := f s.p1 }
  else if s.p2.id = id then { s with p2 := f s.p2 }
  else s

/-- `players.find(pl => pl.side === side)`. -/
def GState.playerOnSide (s : GState) (side : Side) : Option Player :=
  if s.p1.side = side then some s.p1
  else if s.p2.side = side then some s.p2
  else none

-- -----------------------------------------------------
-- Server-driven actions
-- -----------------------------------------------------

/-- `handleWeaponChoice(playerId, weaponType)`; an unrecognised weapon type
string is `none`. -/
def handleWeaponChoice (playerId : ℕ) (wt : Option WeaponType) (s : GState) :
    GState :=
  if s.state ≠ Phase.weaponSelect then s
  else if (s.getPlayer playerId).isNone then s
  else s.updatePlayer playerId (fun p => p.setWeapon wt)

/-- Shop action strings, after resolving the backwards-compatible aliases
(`"upgrade" ↦ "upgrade_weapon"`, `"send_mobs" ↦ "send:slime"`).  `send t`
covers `"send:<t>"` for the four known mob types, `sendUnknown` covers
`"send:<anything else>"` (its cost lookup fails), and `other` covers every
remaining string (including `"ready"`, which `handleShopAction` does not
recognise — the ready signal has its own entry point `handleReady`). -/
inductive ShopAction where
  | upgradeWeapon
  | heal
  | send (mob : MobType)
  | sendUnknown
  | sendBoss
  | sendGrenade
  | startRound
  | other
deriving DecidableEq, Repr

/-- `queueSendPack(side, mobType)` (the membership test in the source always
succeeds for the four known mob types). -/
def GState.queueSendPack (s : GState) (side : Side) (mob : MobType) : GState :=
  { s with pendingPacks := s.pendingPacks.set side ((s.pendingPacks.get side).inc mob) }

/-- `handleShopAction(playerId, action)`. -/
def handleShopAction (playerId : ℕ) (action : ShopAction) (s : GState) :
    GState :=
  if s.state ≠ Phase.shop then s
  else match s.getPlayer playerId with
  | none => s
  | some p =>
    let opponentSide := if p.side = Side.left then Side.right else Side.left
    match action with
    | .upgradeWeapon =>
      if UPGRADE_COST ≤ p.gold then
        s.updatePlayer playerId
          (fun q => Player.upgradeWeapon { q with gold := q.gold - UPGRADE_COST })
      else s
    | .heal =>
      if HEAL_COST ≤ p.gold then
        s.updatePlayer playerId
          (fun q => Player.heal { q with gold := q.gold - HEAL_COST } HEAL_AMOUNT)
      else s
    | .send mob =>
      let cost := SEND_MOB_COST mob
      if p.gold < cost then s
      else
        let s := s.updatePlayer playerId (fun q => { q with gold := q.gold - cost })
        s.queueSendPack opponentSide mob
    | .sendUnknown => s
    | .sendBoss =>
      if p.gold < SEND_BOSS_COST then s
      else
        let s := s.updatePlayer playerId
          (fun q => { q with gold := q.gold - SEND_BOSS_COST })
        let pb := s.pendingBosses.set opponentSide
          (s.pendingBosses.get opponentSide ++ [bossTypeForRound s.round])
        { s with pendingBosses := pb }
    | .sendGrenade =>
      if GRENADE_MAX_PER_ROUND ≤ p.grenadesBoughtThisRound then s
      else if p.gold < GRENADE_COST then s
      else
        let s := s.updatePlayer playerId (fun q =>
          { q with gold := q.gold - GRENADE_COST,
                   grenadesBoughtThisRound := q.grenadesBoughtThisRound + 1 })
        let pg := s.pendingGrenades.set opponentSide
          (s.pendingGrenades.get opponentSide + 1)
        { s with pendingGrenades := pg }
    | .startRound =>
      if p.side = Side.left then { s with leftReady := true }
      else { s with rightReady := true }
    | .other => s

/-- `handleReady(playerId)`. -/
def handleReady (playerId : ℕ) (s : GState) : GState :=
  if s.state ≠ Phase.shop then s
  else match s.getPlayer playerId with
  | none => s
  | some p =>
    if p.side = Side.left then { s with leftReady := true }
    else { s with rightReady := true }

/-- `handleRestart`: `resetMatch` builds a fresh core and `Object.assign`s
it over `this`.  The fresh core has no own `_forcedBaseType` property, so
the old value survives the assign; everything else is reset. -/
def handleRestart (s : GState) : GState :=
  if s.state ≠ Phase.gameOver then s
  else { initState with forcedBaseType := s.forcedBaseType }

-- -----------------------------------------------------
-- Spawning / utilities
-- -----------------------------------------------------

/-- `nearestMonster(side)`: the living same-side monster nearest (by squared
distance, exactly as the source computes it) to the player on `side`. -/
def GState.nearestMonster (s : GState) (side : Side) : Option Monster :=
  match s.playerOnSide side with
  | none => none
  | some p =>
    let upd := fun (best : Option (Monster × ℚ)) (m : Monster) =>
      if ¬ m.isAlive then best
      else if m.side ≠ side then best
      else
        let d2 := (m.x - p.x) * (m.x - p.x) + (m.y - p.y) * (m.y - p.y)
        match best with
        | none => some (m, d2)
        | some (_, bd) => if d2 < bd then some (m, d2) else best
    (s.monsters.foldl upd none).map Prod.fst

/-- `spawnWarningOnSide(side, forcedType)`: weighted random type selection
(weights 0.6 / 0.2 / 0.15 / 0.05, defaulting to slime), then a new
`SpawnWarning` at a random position in the side's padded x-range and the
upper 40% of the arena, telegraphing for 2 seconds. -/
def spawnWarningOnSide (env : Env) (side : Side) (forcedType : Option MonsterType)
    (s : GState) : GState :=
  let wid := s.nextSpawnWarnId
  let r := env.typeRoll wid
  let rolled : MonsterType :=
    if r ≤ 0.6 then .slime
    else if r ≤ 0.6 + 0.2 then .fast
    else if r ≤ 0.6 + 0.2 + 0.15 then .tank
    else if r ≤ 0.6 + 0.2 + 0.15 + 0.05 then .spitter
    else .slime
  let typ : MonsterType := match forcedType with | some t => t | none => rolled
  let xMin := if side = Side.left then ARENA_PADDING else FENCE_X + ARENA_PADDING
  let xMax := if side = Side.left then FENCE_X - ARENA_PADDING
    else SCREEN_WIDTH - ARENA_PADDING
  let x := xMin + env.warnX wid * (xMax - xMin)
  let y := ARENA_PADDING + env.warnY wid * (SCREEN_HEIGHT * 0.4 - ARENA_PADDING)
  let w : SpawnWarning := ⟨wid, side, typ, s.round, 2.0, 2.0, x, y⟩
  { s with spawnWarnings := s.spawnWarnings ++ [w], nextSpawnWarnId := wid + 1 }

/-- `spawnMonsterFromWarning(warn)`: materialise the telegraphed monster
with round-scaled, type-multiplied hp and speed.  (`warn.round ≥ 1` in all
reachable states, where natural subtraction in the exponents agrees with
the JS arithmetic.) -/
def spawnMonsterFromWarning (env : Env) (warn : SpawnWarning) (s : GState) :
    GState :=
  let hpBase := MONSTER_BASE_HP * MONSTER_HP_SCALE ^ (warn.round - 1)
  let speedBase := MONSTER_BASE_SPEED * MONSTER_SPEED_SCALE ^ (warn.round - 1)
  let hpMult : ℚ := match warn.type with
    | .boss t => let tier := if t = 0 then 1 else t
                 8.0 + ((tier : ℚ) - 1) * 6.0
    | .fast => 0.7
    | .tank => 2.2
    | .spitter => 1.1
    | .slime => 1.0
  let speedMult : ℚ := match warn.type with
    | .boss t => let tier := if t = 0 then 1 else t
                 0.55 + ((tier : ℚ) - 1) * 0.05
    | .fast => 1.5
    | .tank => 0.7
    | .spitter => 0.8
    | .slime => 1.0
  let hp := max 10 ((roundQ (hpBase * hpMult) : ℚ))
  let speed := max 50 (speedBase * speedMult)
  let m := mkMonster env s.nextMonsterId warn.side warn.type warn.x warn.y hp speed
  { s with monsters := s.monsters ++ [m], nextMonsterId := s.nextMonsterId + 1 }

/-- `spawnBaseMonster(side)`: baseline spawn (forced to the boss type on
boss rounds), a no-op once the global monster cap is reached. -/
def spawnBaseMonster (env : Env) (side : Side) (s : GState) : GState :=
  if MAX_MONSTERS ≤ s.monsters.length then s
  else
    let s := spawnWarningOnSide env side s.forcedBaseType s
    if side = Side.left then { s with baseSpawnedLeft := s.baseSpawnedLeft + 1 }
    else { s with baseSpawnedRight := s.baseSpawnedRight + 1 }

-- -----------------------------------------------------
-- startNewRound
-- -----------------------------------------------------

/-- Grenade deployment loop of `startNewRound`: deploy `n` grenades on
`side`, each at an oracle-drawn position within the side's padded range. -/
def deployGrenadesLoop (env : Env) (side : Side) : ℕ → GState → GState
  | 0, s => s
  | n + 1, s =>
    let gid := s.nextGrenadeId
    let xMin := if side = Side.left then ARENA_PADDING else FENCE_X + ARENA_PADDING
    let xMax := if side = Side.left then FENCE_X - ARENA_PADDING
      else SCREEN_WIDTH - ARENA_PADDING
    let x := xMin + env.grenX gid * (xMax - xMin)
    let y := ARENA_PADDING + env.grenY gid * ((SCREEN_HEIGHT - ARENA_PADDING) - ARENA_PADDING)
    deployGrenadesLoop env side n
      { s with grenades := s.grenades ++ [mkGrenade gid side x y],
               nextGrenadeId := gid + 1 }

def deployGrenadesSide (env : Env) (side : Side) (s : GState) : GState :=
  let s := deployGrenadesLoop env side (s.pendingGrenades.get side) s
  { s with pendingGrenades := s.pendingGrenades.set side 0 }

/-- `buildPlan(side)`: queued bosses first, then each purchased pack
flattened (`Object.entries` iterates the insertion order slime, fast, tank,
spitter); the pending queues for that side are consumed. -/
def buildPlan (side : Side) (s : GState) : List MonsterType × GState :=
  let bosses := s.pendingBosses.get side
  let packs := s.pendingPacks.get side
  let plan := bosses
    ++ List.replicate (packs.slime * SEND_MOB_AMOUNT .slime) MonsterType.slime
    ++ List.replicate (packs.fast * SEND_MOB_AMOUNT .fast) MonsterType.fast
    ++ List.replicate (packs.tank * SEND_MOB_AMOUNT .tank) MonsterType.tank
    ++ List.replicate (packs.spitter * SEND_MOB_AMOUNT .spitter) MonsterType.spitter
  let s := { s with pendingBosses := s.pendingBosses.set side [] }
  let s := { s with pendingPacks := s.pendingPacks.set side Packs.zero }
  (plan, s)

/-- `startNewRound()`: enter PLAYING, clear the wave-scoped entity lists
(the source does not clear the green-potion list), deploy queued grenades,
convert queued packs and bosses into the per-wave spawn plans, and reset
targets, spawn interval and cooldowns for the (possibly boss) round. -/
def startNewRound (env : Env) (s : GState) : GState :=
  let s := { s with
    state := Phase.playing
    winner := none
    waveLeft := WAVE_TIME
    monsters := []
    bullets := []
    enemyBullets := []
    grenades := []
    goldDrops := []
    hearts := []
    spawnWarnings := [] }
  let s := deployGrenadesSide env Side.left s
  let s := deployGrenadesSide env Side.right s
  let bossRound := isBossRound s.round
  let (planL, s) := buildPlan Side.left s
  let (planR, s) := buildPlan Side.right s
  let s := { s with
    extraPlanLeft := planL
    extraPlanRight := planR
    extraPlanSpawnedLeft := 0
    extraPlanSpawnedRight := 0
    extraSpawnCdLeft := 0.35
    extraSpawnCdRight := 0.35 }
  let normalTarget := if bossRound then s.normalTarget
    else roundQ ((s.normalTarget : ℚ) * TARGET_SCALE)
  let factor := max 0 (1 - ((s.round : ℚ) - 1) * SPAWN_INTERVAL_DECAY)
  let interval := MIN_SPAWN_INTERVAL
    + factor * (BASE_SPAWN_INTERVAL - MIN_SPAWN_INTERVAL)
  { s with
    normalTarget := normalTarget
    baseTarget := if bossRound then 1 else normalTarget
    baseSpawnedLeft := 0
    baseSpawnedRight := 0
    spawnInterval := if bossRound then 1.6 else max MIN_SPAWN_INTERVAL interval
    spawnCdLeft := if bossRound then 0.2 else 0.25
    spawnCdRight := if bossRound then 0.2 else 0.25
    forcedBaseType := if bossRound then some (bossTypeForRound s.round) else none }

-- -----------------------------------------------------
-- updateWeaponSelect
-- -----------------------------------------------------

def updateWeaponSelect (env : Env) (dt : ℚ) (s : GState) : GState :=
  let s := { s with p1 := s.p1.update dt, p2 := s.p2.update dt }
  let leftChosen := (decide (s.p1.side = Side.left) && s.p1.weaponChosen)
    || (decide (s.p2.side = Side.left) && s.p2.weaponChosen)
  let rightChosen := (decide (s.p1.side = Side.right) && s.p1.weaponChosen)
    || (decide (s.p2.side = Side.right) && s.p2.weaponChosen)
  if leftChosen && rightChosen then startNewRound env s else s

-- -----------------------------------------------------
-- updatePlaying, phase by phase (in source order)
-- -----------------------------------------------------

/-- Wave-timer block at the top of `updatePlaying`: when the wave countdown
crosses zero, enter SHOP, reset the shop timer, the ready flags and the
per-shop grenade purchase counters. -/
def waveTimerPhase (dt : ℚ) (s : GState) : GState :=
  if 0 < s.waveLeft then
    let w := s.waveLeft - dt
    if w ≤ 0 then
      { s with waveLeft := 0, state := Phase.shop, shopLeft := SHOP_TIME,
               leftReady := false, rightReady := false,
               p1 := { s.p1 with grenadesBoughtThisRound := 0 },
               p2 := { s.p2 with grenadesBoughtThisRound := 0 } }
    else { s with waveLeft := w }
  else s

/-- Cooldown tick, movement integration and clamping of one player. -/
def movePlayer (env : Env) (dt : ℚ) (inp : Input) (p : Player) : Player :=
  let p := p.update dt
  let dx : ℚ := (if inp.right then 1 else 0) - (if inp.left then 1 else 0)
  let dy : ℚ := (if inp.down then 1 else 0) - (if inp.up then 1 else 0)
  let len := env.hyp dx dy
  let p :=
    if 0 < len then
      { p with x := p.x + dx / len * PLAYER_SPEED * dt,
               y := p.y + dy / len * PLAYER_SPEED * dt }
    else p
  let minX := if p.side = Side.left then ARENA_PADDING + p.width / 2
    else FENCE_X + ARENA_PADDING + p.width / 2
  let maxX := if p.side = Side.left then FENCE_X - ARENA_PADDING - p.width / 2
    else SCREEN_WIDTH - ARENA_PADDING - p.width / 2
  let minY := ARENA_PADDING + p.height / 2
  let maxY := SCREEN_HEIGHT - ARENA_PADDING - p.height / 2
  { p with x := clamp p.x minX maxX, y := clamp p.y minY maxY }

/-- Aim-and-fire part of the player loop: aim at the nearest living monster
on the player's side and shoot when the cooldown allows; with no target,
aim toward the centerline and never fire.  Returns the updated player, the
spawned bullet (if any) and the next bullet id. -/
def aimShoot (env : Env) (s : GState) (p : Player) : Player × Option Bullet × ℕ :=
  match s.nearestMonster p.side with
  | some target =>
    let p := p.updateAim env target.x target.y
    if p.canShoot then
      let pb := p.shoot env s.nextBulletId
      (pb.1, some pb.2, s.nextBulletId + 1)
    else (p, none, s.nextBulletId)
  | none =>
    let fallbackX := if p.side = Side.left then FENCE_X - 20 else FENCE_X + 20
    (p.updateAim env fallbackX p.y, none, s.nextBulletId)

/-- Player loop of `updatePlaying` (processes `p1` then `p2`). -/
def playersPhase (env : Env) (dt : ℚ) (inputs : ℕ → Input) (s : GState) : GState :=
  let s := { s with p1 := movePlayer env dt (inputs s.p1.id) s.p1 }
  let asp1 := aimShoot env s s.p1
  let s := { s with p1 := asp1.1, bullets := s.bullets ++ asp1.2.1.toList,
                    nextBulletId := asp1.2.2 }
  let s := { s with p2 := movePlayer env dt (inputs s.p2.id) s.p2 }
  let asp2 := aimShoot env s s.p2
  { s with p2 := asp2.1, bullets := s.bullets ++ asp2.2.1.toList,
           nextBulletId := asp2.2.2 }

/-- Baseline spawning for the left side. -/
def baselineSpawnLeft (env : Env) (dt : ℚ) (s : GState) : GState :=
  if s.baseSpawnedLeft < s.baseTarget then
    let cd := s.spawnCdLeft - dt
    if cd ≤ 0 then
      let s := spawnBaseMonster env Side.left { s with spawnCdLeft := cd }
      { s with spawnCdLeft := s.spawnInterval }
    else { s with spawnCdLeft := cd }
  else s

/-- Baseline spawning for the right side. -/
def baselineSpawnRight (env : Env) (dt : ℚ) (s : GState) : GState :=
  if s.baseSpawnedRight < s.baseTarget then
    let cd := s.spawnCdRight - dt
    if cd ≤ 0 then
      let s := spawnBaseMonster env Side.right { s with spawnCdRight := cd }
      { s with spawnCdRight := s.spawnInterval }
    else { s with spawnCdRight := cd }
  else s

/-- `spawnExtraForSide(side)`: spawn the next monster of the side's
reinforcement plan, subject to the global cap and the extra-spawn cadence. -/
def spawnExtraForSide (env : Env) (dt : ℚ) (side : Side) (s : GState) : GState :=
  if MAX_MONSTERS ≤ s.monsters.length then s
  else
    let plan := if side = Side.left then s.extraPlanLeft else s.extraPlanRight
    let spawned := if side = Side.left then s.extraPlanSpawnedLeft
      else s.extraPlanSpawnedRight
    if plan.length ≤ spawned then s
    else
      let cd0 := (if side = Side.left then s.extraSpawnCdLeft else s.extraSpawnCdRight) - dt
      let s := if side = Side.left then { s with extraSpawnCdLeft := cd0 }
        else { s with extraSpawnCdRight := cd0 }
      if 0 < cd0 then s
      else
        let mobType := plan.getD spawned MonsterType.slime
        let s := spawnWarningOnSide env side (some mobType) s
        let s := if side = Side.left
          then { s with extraPlanSpawnedLeft := s.extraPlanSpawnedLeft + 1 }
          else { s with extraPlanSpawnedRight := s.extraPlanSpawnedRight + 1 }
        let cd1 := max 0.25 (s.spawnInterval * 0.6)
        if side = Side.left then { s with extraSpawnCdLeft := cd1 }
        else { s with extraSpawnCdRight := cd1 }

/-- Wave-spawning block (baseline then extra, left then right), active only
while the wave timer is still positive. -/
def spawnPhase (env : Env) (dt : ℚ) (s : GState) : GState :=
  if 0 < s.waveLeft then
    let s := baselineSpawnLeft env dt s
    let s := baselineSpawnRight env dt s
    let s := spawnExtraForSide env dt Side.left s
    spawnExtraForSide env dt Side.right s
  else s

/-- Spawn-warning countdown: expired warnings (in list order) materialise
into monsters. -/
def warningsPhase (env : Env) (dt : ℚ) (s : GState) : GState :=
  let ws := s.spawnWarnings.map (fun w => { w with timer := w.timer - dt })
  let expired := ws.filter (fun w => decide (w.timer ≤ 0))
  let s := { s with spawnWarnings := ws.filter (fun w => !decide (w.timer ≤ 0)) }
  expired.foldl (fun s w => spawnMonsterFromWarning env w s) s

/-- Movement-and-clamp of a single monster toward the nearest living
same-side player; with no such player the monster holds position (and is
not clamped that tick). -/
def moveMonster (env : Env) (dt : ℚ) (p1 p2 : Player) (m : Monster) : Monster :=
  if ¬ m.isAlive then m
  else
    let cands := (if decide (p1.side = m.side) && p1.isAlive then [p1] else [])
      ++ (if decide (p2.side = m.side) && p2.isAlive then [p2] else [])
    match cands with
    | [] => m
    | a :: rest =>
      let target := match rest with
        | [] => a
        | b :: _ =>
          let da := env.hyp (a.x - m.x) (a.y - m.y)
          let db := env.hyp (b.x - m.x) (b.y - m.y)
          if db < da then b else a
      let dx := target.x - m.x
      let dy := target.y - m.y
      let dist0 := env.hyp dx dy
      let dist := if dist0 = 0 then 1 else dist0
      let m := { m with x := m.x + dx / dist * m.speed * dt,
                        y := m.y + dy / dist * m.speed * dt }
      let minX := if m.side = Side.left then ARENA_PADDING + m.radius
        else FENCE_X + ARENA_PADDING + m.radius
      let maxX := if m.side = Side.left then FENCE_X - ARENA_PADDING - m.radius
        else SCREEN_WIDTH - ARENA_PADDING - m.radius
      let minY := ARENA_PADDING + m.radius
      let maxY := SCREEN_HEIGHT - ARENA_PADDING - m.radius
      { m with x := clamp m.x minX maxX, y := clamp m.y minY maxY }

def monstersMovePhase (env : Env) (dt : ℚ) (s : GState) : GState :=
  { s with monsters := s.monsters.map (moveMonster env dt s.p1 s.p2) }

/-- One iteration of the spitter loop: a living spitter with a living
same-side player ticks its cooldown and, when the nearest such player is in
range and the cooldown has elapsed, fires a blob at them and re-randomises
its cooldown. -/
def spitterStep (env : Env) (dt : ℚ) (p1 p2 : Player)
    (acc : List Monster × List EnemyBullet × ℕ) (m : Monster) :
    List Monster × List EnemyBullet × ℕ :=
  let (ms, ebs, nid) := acc
  if ¬ m.isAlive then (ms ++ [m], ebs, nid)
  else if m.type ≠ MonsterType.spitter then (ms ++ [m], ebs, nid)
  else
    let cands := (if decide (p1.side = m.side) && p1.isAlive then [p1] else [])
      ++ (if decide (p2.side = m.side) && p2.isAlive then [p2] else [])
    match cands with
    | [] => (ms ++ [m], ebs, nid)
    | a :: rest =>
      let tb : Player × ℚ := match rest with
        | [] => (a, env.hyp (a.x - m.x) (a.y - m.y))
        | b :: _ =>
          let da := env.hyp (a.x - m.x) (a.y - m.y)
          let db := env.hyp (b.x - m.x) (b.y - m.y)
          if db < da then (b, db) else (a, da)
      let target := tb.1
      let bestDist := tb.2
      let m := { m with shotTimer := m.shotTimer - dt }
      if bestDist ≤ SPITTER_RANGE ∧ m.shotTimer ≤ 0 then
        let dx := target.x - m.x
        let dy := target.y - m.y
        let dist0 := env.hyp dx dy
        let dist := if dist0 = 0 then 1 else dist0
        let vx := dx / dist * SPITTER_PROJECTILE_SPEED
        let vy := dy / dist * SPITTER_PROJECTILE_SPEED
        let startX := m.x + dx / dist * (m.radius + 6)
        let startY := m.y + dy / dist * (m.radius + 6)
        let eb : EnemyBullet := ⟨nid, m.side, startX, startY, vx, vy,
          SPITTER_PROJECTILE_DAMAGE, ENEMY_BULLET_LIFETIME, false⟩
        let m := { m with shotTimer := SPITTER_COOLDOWN
          + env.spitJitter nid * SPITTER_COOLDOWN_JITTER }
        (ms ++ [m], ebs ++ [eb], nid + 1)
      else (ms ++ [m], ebs, nid)

def spittersPhase (env : Env) (dt : ℚ) (s : GState) : GState :=
  let r := s.monsters.foldl (spitterStep env dt s.p1 s.p2)
    ([], [], s.nextEnemyBulletId)
  { s with monsters := r.1, enemyBullets := s.enemyBullets ++ r.2.1,
           nextEnemyBulletId := r.2.2 }

def enemyBulletsMovePhase (dt : ℚ) (s : GState) : GState :=
  { s with enemyBullets := s.enemyBullets.map (fun eb =>
      { eb with x := eb.x + eb.vx * dt, y := eb.y + eb.vy * dt,
                lifetime := eb.lifetime - dt }) }

/-- One enemy bullet against the two players (inner loop with `break` on
the first hit; a blob never hits the opposite half's player). -/
def enemyBulletHit (env : Env) (acc : Player × Player × List EnemyBullet)
    (eb : EnemyBullet) : Player × Player × List EnemyBullet :=
  let (p1, p2, out) := acc
  if eb.dead then (p1, p2, out ++ [eb])
  else
    let hit1 := p1.isAlive && decide (p1.side = eb.side)
      && decide (env.hyp (p1.x - eb.x) (p1.y - eb.y) ≤ 18)
    if hit1 then (p1.takeDamage eb.damage, p2, out ++ [{ eb with dead := true }])
    else
      let hit2 := p2.isAlive && decide (p2.side = eb.side)
        && decide (env.hyp (p2.x - eb.x) (p2.y - eb.y) ≤ 18)
      if hit2 then (p1, p2.takeDamage eb.damage, out ++ [{ eb with dead := true }])
      else (p1, p2, out ++ [eb])

def enemyBulletsHitPhase (env : Env) (s : GState) : GState :=
  let r := s.enemyBullets.foldl (enemyBulletHit env) (s.p1, s.p2, [])
  { s with p1 := r.1, p2 := r.2.1, enemyBullets := r.2.2 }

/-- Cull enemy bullets: dead, expired, out of the padded bounding box, or
on the wrong side of (near) the fence. -/
def enemyBulletsFilterPhase (s : GState) : GState :=
  { s with enemyBullets := s.enemyBullets.filter (fun eb =>
      !eb.dead && decide (0 < eb.lifetime)
      && (if eb.side = Side.left then decide (eb.x ≤ FENCE_X - 6)
          else decide (FENCE_X + 6 ≤ eb.x))
      && decide (-50 ≤ eb.x) && decide (eb.x ≤ SCREEN_WIDTH + 50)
      && decide (-50 ≤ eb.y) && decide (eb.y ≤ SCREEN_HEIGHT + 50)) }

/-- Explosion damage of one grenade to one monster: linear-falloff damage
subtracted directly from `hp` (no floor at zero), same side and in range
only.  CAUTION: this collapses core.js:1134 `if (m.hp <= 0) m.isAlive =
false;` into a no-op.  `Monster.isAlive` is a getter-only accessor and
class bodies are strict-mode code, so in the program that assignment
throws a `TypeError` whenever the blast kills the monster, aborting the
explosion loop and the tick; `grenadeHitMonsterE` below embeds the throw
faithfully, and agrees with this function exactly on blasts that kill
nobody (see C8). -/
def grenadeHitMonster (env : Env) (g : Grenade) (m : Monster) : Monster :=
  if ¬ m.isAlive then m
  else if m.side ≠ g.side then m
  else
    let d := env.hyp (m.x - g.x) (m.y - g.y)
    if d ≤ g.radius then
      let t := 1 - d / g.radius
      { m with hp := m.hp - g.damage * (0.6 + 0.6 * t) }
    else m

/-- Explosion damage of one grenade to one player (same side, in range). -/
def grenadeHitPlayer (env : Env) (g : Grenade) (p : Player) : Player :=
  if ¬ p.isAlive then p
  else if p.side ≠ g.side then p
  else
    let d := env.hyp (p.x - g.x) (p.y - g.y)
    if d ≤ g.radius then
      let t := 1 - d / g.radius
      p.takeDamage (g.damage * (0.4 + 0.6 * t))
    else p

/-- Faithful per-monster explosion step, including core.js:1134
`if (m.hp <= 0) m.isAlive = false;`: `Monster.isAlive` is a getter-only
accessor and class bodies are strict-mode code, so when the blast damage
kills the monster this assignment throws a `TypeError` (the `hp`
assignment has already landed when it fires).  `Except.error ()` models
the throw. -/
def grenadeHitMonsterE (env : Env) (g : Grenade) (m : Monster) :
    Except Unit Monster :=
  if ¬ m.isAlive then Except.ok m
  else if m.side ≠ g.side then Except.ok m
  else
    let d := env.hyp (m.x - g.x) (m.y - g.y)
    if d ≤ g.radius then
      let t := 1 - d / g.radius
      let hp2 := m.hp - g.damage * (0.6 + 0.6 * t)
      if hp2 ≤ 0 then Except.error ()
      else Except.ok { m with hp := hp2 }
    else Except.ok m

/-- The explosion's `for (const m of this.monsters)` loop with the throw
propagated: the first `TypeError` aborts the loop, so monsters after the
killed one take no damage, the code after the loop (including the
`_exploded` cull) never runs, and the uncaught exception kills the tick
in the server loop. -/
def grenadeMonstersE (env : Env) (g : Grenade) :
    List Monster → Except Unit (List Monster)
  | [] => Except.ok []
  | m :: ms =>
    match grenadeHitMonsterE env g m with
    | Except.error e => Except.error e
    | Except.ok m2 =>
      match grenadeMonstersE env g ms with
      | Except.error e => Except.error e
      | Except.ok ms2 => Except.ok (m2 :: ms2)

/-- One iteration of the grenade loop: tick the fuse; on expiry explode
exactly once (the `_exploded` marker), damaging same-side players then
same-side monsters within the radius.  The monster map collapses the
core.js:1134 throw (see `grenadeHitMonster`); it is exact on every tick
whose blasts kill no monster, the only ticks the program completes. -/
def grenadeStep (env : Env) (dt : ℚ)
    (acc : Player × Player × List Monster × List Grenade) (g : Grenade) :
    Player × Player × List Monster × List Grenade :=
  let (p1, p2, ms, out) := acc
  let g := { g with timer := g.timer - dt }
  if g.timer ≤ 0 ∧ g.exploded = false then
    let g := { g with exploded := true }
    let p1 := grenadeHitPlayer env g p1
    let p2 := grenadeHitPlayer env g p2
    let ms := ms.map (grenadeHitMonster env g)
    (p1, p2, ms, out ++ [g])
  else (p1, p2, ms, out ++ [g])

def grenadesPhase (env : Env) (dt : ℚ) (s : GState) : GState :=
  let r := s.grenades.foldl (grenadeStep env dt) (s.p1, s.p2, s.monsters, [])
  { s with p1 := r.1, p2 := r.2.1, monsters := r.2.2.1, grenades := r.2.2.2 }

def grenadesFilterPhase (s : GState) : GState :=
  { s with grenades := s.grenades.filter (fun g => !g.exploded) }

/-- Player-bullet integration and culling. -/
def bulletsMovePhase (dt : ℚ) (s : GState) : GState :=
  let bs := s.bullets.map (fun b =>
    { b with x := b.x + b.vx * dt, y := b.y + b.vy * dt,
             lifetime := b.lifetime - dt })
  { s with bullets := bs.filter (fun b =>
      decide (0 < b.lifetime) && decide (-50 ≤ b.x)
      && decide (b.x ≤ SCREEN_WIDTH + 50)
      && decide (-50 ≤ b.y) && decide (b.y ≤ SCREEN_HEIGHT + 50)) }

/-- Mutable context threaded through the bullet–monster collision loop:
the players (for kill credit) and the loot lists with their id counters. -/
structure HitCtx where
  p1 : Player
  p2 : Player
  goldDrops : List GoldDrop
  hearts : List HeartPickup
  greenPotions : List GreenPotionPickup
  nextGoldId : ℕ
  nextHeartId : ℕ
  nextGreenPotionId : ℕ
deriving DecidableEq, Repr

def HitCtx.updateOwner (ctx : HitCtx) (ownerId : ℕ) (f : Player → Player) :
    HitCtx :=
  if ctx.p1.id = ownerId then { ctx with p1 := f ctx.p1 }
  else if ctx.p2.id = ownerId then { ctx with p2 := f ctx.p2 }
  else ctx

def HitCtx.hasOwner (ctx : HitCtx) (ownerId : ℕ) : Bool :=
  decide (ctx.p1.id = ownerId) || decide (ctx.p2.id = ownerId)

/-- Kill credit and the three independent loot rolls when a bullet kills a
monster (rolls keyed by the killed monster's id, drops at its position). -/
def killRewards (env : Env) (ownerId : ℕ) (m : Monster) (ctx : HitCtx) : HitCtx :=
  if ¬ ctx.hasOwner ownerId then ctx
  else
    let ctx := ctx.updateOwner ownerId (fun ow =>
      { ow with monstersKilled := ow.monstersKilled + 1, score := ow.score + 15 })
    let ctx := if env.goldRoll m.id < GOLD_DROP_CHANCE then
        let drop : GoldDrop := ⟨ctx.nextGoldId, m.x, m.y, GOLD_PER_PICKUP, false⟩
        { ctx with goldDrops := ctx.goldDrops ++ [drop],
                   nextGoldId := ctx.nextGoldId + 1 }
      else ctx
    let ctx := if env.heartRoll m.id < HEART_DROP_CHANCE then
        let drop : HeartPickup := ⟨ctx.nextHeartId, m.x, m.y, HEART_HEAL, false⟩
        { ctx with hearts := ctx.hearts ++ [drop],
                   nextHeartId := ctx.nextHeartId + 1 }
      else ctx
    if env.potionRoll m.id < GREEN_POTION_DROP_CHANCE then
      let drop : GreenPotionPickup := ⟨ctx.nextGreenPotionId, m.x, m.y, false⟩
      { ctx with greenPotions := ctx.greenPotions ++ [drop],
                 nextGreenPotionId := ctx.nextGreenPotionId + 1 }
    else ctx

/-- One bullet tested against one monster (inner loop body of the
bullet–monster collision block): a living same-side monster within
`radius + 5` takes the bullet's damage once; a resulting death triggers
kill credit and loot rolls. -/
def bulletHitMonster (env : Env) (b : Bullet)
    (acc : List Monster × ℕ × HitCtx) (m : Monster) : List Monster × ℕ × HitCtx :=
  let (ms, hits, ctx) := acc
  if ¬ m.isAlive then (ms ++ [m], hits, ctx)
  else if m.side ≠ b.side then (ms ++ [m], hits, ctx)
  else
    let dist := env.hyp (m.x - b.x) (m.y - b.y)
    if dist ≤ m.radius + 5 then
      let m' := m.takeDamage b.damage
      let ctx := if ¬ m'.isAlive then killRewards env b.ownerId m' ctx else ctx
      (ms ++ [m'], hits + 1, ctx)
    else (ms ++ [m], hits, ctx)

/-- One iteration of the outer bullet loop: collide `b` with every monster,
then resolve pierce — a bullet that hit at least one monster this tick is
destroyed if its pierce was already exhausted, otherwise its pierce drops
by the number of monsters hit this tick. -/
def bulletStep (env : Env) (acc : List Monster × List Bullet × HitCtx)
    (b : Bullet) : List Monster × List Bullet × HitCtx :=
  let (ms, out, ctx) := acc
  if b.dead then (ms, out ++ [b], ctx)
  else
    let r := ms.foldl (bulletHitMonster env b) ([], 0, ctx)
    let hits := r.2.1
    let b' := if 0 < hits then
        (if b.pierce ≤ 0 then { b with dead := true }
         else { b with pierce := b.pierce - hits })
      else b
    (r.1, out ++ [b'], r.2.2)

def bulletsHitPhase (env : Env) (s : GState) : GState :=
  let ctx : HitCtx := ⟨s.p1, s.p2, s.goldDrops, s.hearts, s.greenPotions,
    s.nextGoldId, s.nextHeartId, s.nextGreenPotionId⟩
  let r := s.bullets.foldl (bulletStep env) (s.monsters, [], ctx)
  let ctx := r.2.2
  { s with monsters := r.1, bullets := r.2.1.filter (fun b => !b.dead),
           p1 := ctx.p1, p2 := ctx.p2, goldDrops := ctx.goldDrops,
           hearts := ctx.hearts, greenPotions := ctx.greenPotions,
           nextGoldId := ctx.nextGoldId, nextHeartId := ctx.nextHeartId,
           nextGreenPotionId := ctx.nextGreenPotionId }

/-- Contact resolution between one monster and the players: a contact hit
deals 12 to the player and 9999 to the monster (no monster survives a
melee clash). -/
def contactStep (env : Env) (acc : Player × Player × List Monster) (m : Monster) :
    Player × Player × List Monster :=
  let (p1, p2, ms) := acc
  if ¬ m.isAlive then (p1, p2, ms ++ [m])
  else
    let touch1 := p1.isAlive && decide (p1.side = m.side)
      && decide (env.hyp (p1.x - m.x) (p1.y - m.y) ≤ m.radius + 18)
    let pm1 : Player × Monster :=
      if touch1 then (p1.takeDamage 12, m.takeDamage 9999) else (p1, m)
    let p1 := pm1.1
    let m := pm1.2
    let touch2 := p2.isAlive && decide (p2.side = m.side)
      && decide (env.hyp (p2.x - m.x) (p2.y - m.y) ≤ m.radius + 18)
    let pm2 : Player × Monster :=
      if touch2 then (p2.takeDamage 12, m.takeDamage 9999) else (p2, m)
    (p1, pm2.1, ms ++ [pm2.2])

def contactPhase (env : Env) (s : GState) : GState :=
  let r := s.monsters.foldl (contactStep env) (s.p1, s.p2, [])
  { s with p1 := r.1, p2 := r.2.1,
           monsters := r.2.2.filter (fun m => m.isAlive) }

/-- Gold collection body: within range, add the amount and mark taken. -/
def pickupGold (env : Env) (acc : Player × List GoldDrop) (g : GoldDrop) :
    Player × List GoldDrop :=
  if env.hyp (acc.1.x - g.x) (acc.1.y - g.y) ≤ PICKUP_RADIUS then
    ({ acc.1 with gold := acc.1.gold + g.amount },
     acc.2 ++ [{ g with taken := true }])
  else (acc.1, acc.2 ++ [g])

/-- Heart collection body: within range, heal and mark taken. -/
def pickupHeart (env : Env) (acc : Player × List HeartPickup) (h : HeartPickup) :
    Player × List HeartPickup :=
  if env.hyp (acc.1.x - h.x) (acc.1.y - h.y) ≤ PICKUP_RADIUS then
    (acc.1.heal h.healAmount, acc.2 ++ [{ h with taken := true }])
  else (acc.1, acc.2 ++ [h])

/-- Potion collection body: within range, apply the enrage buff and mark
taken. -/
def pickupPotion (env : Env) (acc : Player × List GreenPotionPickup)
    (gp : GreenPotionPickup) : Player × List GreenPotionPickup :=
  if env.hyp (acc.1.x - gp.x) (acc.1.y - gp.y) ≤ PICKUP_RADIUS then
    (acc.1.applyEnrage ENRAGE_DURATION, acc.2 ++ [{ gp with taken := true }])
  else (acc.1, acc.2 ++ [gp])

/-- One player collecting gold, hearts and potions within `PICKUP_RADIUS`
(a dead player collects nothing; collected pickups are marked taken). -/
def collectPickups (env : Env) (p : Player)
    (gs : List GoldDrop) (hs : List HeartPickup) (pots : List GreenPotionPickup) :
    Player × List GoldDrop × List HeartPickup × List GreenPotionPickup :=
  if ¬ p.isAlive then (p, gs, hs, pots)
  else
    let rg := gs.foldl (pickupGold env) (p, [])
    let rh := hs.foldl (pickupHeart env) (rg.1, [])
    let rp := pots.foldl (pickupPotion env) (rh.1, [])
    (rp.1, rg.2, rh.2, rp.2)

def pickupsPhase (env : Env) (s : GState) : GState :=
  let r1 := collectPickups env s.p1 s.goldDrops s.hearts s.greenPotions
  let r2 := collectPickups env s.p2 r1.2.1 r1.2.2.1 r1.2.2.2
  { s with p1 := r1.1, p2 := r2.1,
           goldDrops := r2.2.1.filter (fun g => !g.taken),
           hearts := r2.2.2.1.filter (fun h => !h.taken),
           greenPotions := r2.2.2.2.filter (fun gp => !gp.taken) }

/-- `players.find(p => p.side === side && p.isAlive)` is occupied. -/
def GState.alivePlayerOnSide (s : GState) (side : Side) : Bool :=
  (decide (s.p1.side = side) && s.p1.isAlive)
  || (decide (s.p2.side = side) && s.p2.isAlive)

/-- End-of-tick game-over check, which runs regardless of any SHOP
transition earlier in the same tick. -/
def gameOverPhase (s : GState) : GState :=
  let aliveLeft := s.alivePlayerOnSide Side.left
  let aliveRight := s.alivePlayerOnSide Side.right
  if !aliveLeft || !aliveRight then
    { s with state := Phase.gameOver,
             winner := if aliveLeft && !aliveRight then some Winner.left
               else if aliveRight && !aliveLeft then some Winner.right
               else some Winner.draw }
  else s

/-- `updatePlaying(dt, inputs)`: the phases above, in source order. -/
def updatePlaying (env : Env) (dt : ℚ) (inputs : ℕ → Input) (s : GState) :
    GState :=
  let s := waveTimerPhase dt s
  let s := playersPhase env dt inputs s
  let s := spawnPhase env dt s
  let s := warningsPhase env dt s
  let s := monstersMovePhase env dt s
  let s := spittersPhase env dt s
  let s := enemyBulletsMovePhase dt s
  let s := enemyBulletsHitPhase env s
  let s := enemyBulletsFilterPhase s
  let s := grenadesPhase env dt s
  let s := grenadesFilterPhase s
  let s := bulletsMovePhase dt s
  let s := bulletsHitPhase env s
  let s := contactPhase env s
  let s := pickupsPhase env s
  gameOverPhase s

/-- The phases of `updatePlaying` strictly between the wave-timer block and
the end-of-tick game-over check, as one function
(`updatePlaying = gameOverPhase ∘ midPhases ∘ waveTimerPhase`
definitionally). -/
def midPhases (env : Env) (dt : ℚ) (inputs : ℕ → Input) (s : GState) : GState :=
  pickupsPhase env (contactPhase env (bulletsHitPhase env (bulletsMovePhase dt
    (grenadesFilterPhase (grenadesPhase env dt (enemyBulletsFilterPhase
      (enemyBulletsHitPhase env (enemyBulletsMovePhase dt (spittersPhase env dt
        (monstersMovePhase env dt (warningsPhase env dt (spawnPhase env dt
          (playersPhase env dt inputs s)))))))))))))

/-- `updateShop(dt)`: tick the shop countdown; on expiry, or once both
players are ready, advance the round and start the next wave. -/
def updateShop (env : Env) (dt : ℚ) (s : GState) : GState :=
  let s := { s with shopLeft := s.shopLeft - dt }
  if s.shopLeft ≤ 0 then
    startNewRound env
      { s with shopLeft := 0, state := Phase.playing, round := s.round + 1 }
  else if s.leftReady && s.rightReady then
    startNewRound env { s with state := Phase.playing, round := s.round + 1 }
  else s

/-- `step(dt, inputs)`: dispatch on the current phase; a GAME_OVER tick
does nothing. -/
def step (env : Env) (dt : ℚ) (inputs : ℕ → Input) (s : GState) : GState :=
  match s.state with
  | .weaponSelect => updateWeaponSelect env dt s
  | .playing => updatePlaying env dt inputs s
  | .shop => updateShop env dt s
  | .gameOver => s

-- -----------------------------------------------------
-- Reachability and invariant statements
-- -----------------------------------------------------

/-- Reachable states of the core: the freshly constructed state, closed
under ticks (with nonnegative dt, as driven by the server loop) and the
four external action entry points. -/
inductive Reachable : GState → Prop
  | init : Reachable initState
  | tick {s} (env : Env) (dt : ℚ) (inputs : ℕ → Input) (hdt : 0 ≤ dt)
      (h : Reachable s) : Reachable (step env dt inputs s)
  | weapon {s} (playerId : ℕ) (wt : Option WeaponType) (h : Reachable s) :
      Reachable (handleWeaponChoice playerId wt s)
  | shopAct {s} (playerId : ℕ) (a : ShopAction) (h : Reachable s) :
      Reachable (handleShopAction playerId a s)
  | readySig {s} (playerId : ℕ) (h : Reachable s) :
      Reachable (handleReady playerId s)
  | restart {s} (h : Reachable s) : Reachable (handleRestart s)

/-- Lower x-bound of a player's half (padding plus half-width). -/
def pMinX (p : Player) : ℚ :=
  if p.side = Side.left then ARENA_PADDING + p.width / 2
  else FENCE_X + ARENA_PADDING + p.width / 2

/-- Upper x-bound of a player's half. -/
def pMaxX (p : Player) : ℚ :=
  if p.side = Side.left then FENCE_X - ARENA_PADDING - p.width / 2
  else SCREEN_WIDTH - ARENA_PADDING - p.width / 2

/-- A player is inside its half's padded bounds. -/
def inBoundsP (p : Player) : Prop :=
  pMinX p ≤ p.x ∧ p.x ≤ pMaxX p
  ∧ ARENA_PADDING + p.height / 2 ≤ p.y
  ∧ p.y ≤ SCREEN_HEIGHT - ARENA_PADDING - p.height / 2

/-- Lower x-bound of a monster's half (padding plus radius). -/
def mMinX (m : Monster) : ℚ :=
  if m.side = Side.left then ARENA_PADDING + m.radius
  else FENCE_X + ARENA_PADDING + m.radius

/-- Upper x-bound of a monster's half. -/
def mMaxX (m : Monster) : ℚ :=
  if m.side = Side.left then FENCE_X - ARENA_PADDING - m.radius
  else SCREEN_WIDTH - ARENA_PADDING - m.radius

/-- A monster is inside its half's padded bounds. -/
def inBoundsM (m : Monster) : Prop :=
  mMinX m ≤ m.x ∧ m.x ≤ mMaxX m
  ∧ ARENA_PADDING + m.radius ≤ m.y
  ∧ m.y ≤ SCREEN_HEIGHT - ARENA_PADDING - m.radius

/-- Per-tick pierce law of the bullet–monster block, iterated over a run of
ticks with given per-tick hit counts: the total number of monster hits a
bullet delivers before it is destroyed (or the run ends).  Each hitting
tick with exhausted pierce destroys the bullet after its `h` hits;
otherwise pierce drops by `h`. -/
def pierceRun : ℤ → List ℕ → ℕ
  | _, [] => 0
  | p, h :: rest =>
    if h = 0 then pierceRun p rest
    else if p ≤ 0 then h
    else h + pierceRun (p - h) rest

/-- Oracle whose random draws are all 0 except the loot rolls (1, so no
loot drops), with distance 0 everywhere; used to instantiate theorems at
concrete inputs. -/
def zeroEnv : Env where
  hyp := fun _ _ => 0
  typeRoll := fun _ => 0
  warnX := fun _ => 0
  warnY := fun _ => 0
  shotCos := fun _ => 0
  shotSin := fun _ => 0
  spitInit := fun _ => 0
  spitJitter := fun _ => 0
  goldRoll := fun _ => 1
  heartRoll := fun _ => 1
  potionRoll := fun _ => 1
  grenX := fun _ => 0
  grenY := fun _ => 0

/-- A `Math.hypot` model that agrees with the true Euclidean norm on
axis-aligned arguments and returns a large constant otherwise; concrete
counterexample states below only exercise axis-aligned (or clearly
far-apart) distances, so their outcomes match a real run. -/
def axisHyp (a b : ℚ) : ℚ :=
  if a = 0 then |b| else if b = 0 then |a| else 999

/-- `zeroEnv` with the axis-aligned distance model. -/
def axisEnv : Env := { zeroEnv with hyp := axisHyp }

/-- The all-false input record (no movement for anybody). -/
def noInput : ℕ → Input := fun _ => ⟨false, false, false, false⟩

/-- Cost table of the purchase actions (the actions C1 ranges over);
`none` for the non-purchase actions. -/
def actionCost : ShopAction → Option ℚ
  | .upgradeWeapon => some UPGRADE_COST
  | .heal => some HEAL_COST
  | .send m => some (SEND_MOB_COST m)
  | .sendBoss => some SEND_BOSS_COST
  | .sendGrenade => some GRENADE_COST
  | .sendUnknown => none
  | .startRound => none
  | .other => none

/-- Hp range invariant of a player. -/
def POk (p : Player) : Prop := 0 ≤ p.hp ∧ p.hp ≤ p.maxHp

/-- The collision test of the bullet–monster block: living, same side,
within `radius + 5`. -/
def bulletCollides (env : Env) (b : Bullet) (m : Monster) : Bool :=
  m.isAlive && decide (m.side = b.side)
    && decide (env.hyp (m.x - b.x) (m.y - b.y) ≤ m.radius + 5)

/-- The per-monster effect of one bullet in the collision block. -/
def bulletHitUpd (env : Env) (b : Bullet) (m : Monster) : Monster :=
  if bulletCollides env b m then m.takeDamage b.damage else m

/-- End-of-tick pierce resolution for one bullet that hit `hits` monsters
this tick (the `if (hits > 0)` block of the collision loop). -/
def bulletAfterTick (b : Bullet) (hits : ℕ) : Bullet :=
  if 0 < hits then
    (if b.pierce ≤ 0 then { b with dead := true }
     else { b with pierce := b.pierce - hits })
  else b

/-- Fields of the game state that the mid-tick phases leave untouched once
the wave timer has fired; used to carry the SHOP transition to the end of
the tick. -/
def ShopFrame (s t : GState) : Prop :=
  t.state = s.state ∧ t.shopLeft = s.shopLeft
  ∧ t.leftReady = s.leftReady ∧ t.rightReady = s.rightReady
  ∧ t.p1.side = s.p1.side ∧ t.p2.side = s.p2.side

/-- Inductive invariant of the core, established for every reachable state.
`alive` says a match that is not over has two live players; `weapons` says
nobody reaches PLAYING or SHOP without a chosen weapon; `bIds` says bullet
ids are below the id counter (so freshly spawned bullets are recognisable);
the remaining fields record hp ranges, gold nonnegativity, arena bounds and
the fixed stats of spawned entities. -/
structure Inv (s : GState) : Prop where
  sideL : s.p1.side = Side.left
  sideR : s.p2.side = Side.right
  id1 : s.p1.id = 1
  id2 : s.p2.id = 2
  dims1 : s.p1.width = 32 ∧ s.p1.height = 32
  dims2 : s.p2.width = 32 ∧ s.p2.height = 32
  hp1 : POk s.p1
  hp2 : POk s.p2
  alive : s.state ≠ Phase.gameOver → 0 < s.p1.hp ∧ 0 < s.p2.hp
  gold1 : 0 ≤ s.p1.gold
  gold2 : 0 ≤ s.p2.gold
  weapons : s.state = Phase.playing ∨ s.state = Phase.shop →
    s.p1.weaponChosen = true ∧ s.p2.weaponChosen = true
  pB1 : inBoundsP s.p1
  pB2 : inBoundsP s.p2
  mAlive : ∀ m ∈ s.monsters, 0 < m.hp
  mRad : ∀ m ∈ s.monsters, m.radius = 34 ∨ m.radius = 60
  mB : ∀ m ∈ s.monsters, inBoundsM m
  bIds : ∀ b ∈ s.bullets, b.id < s.nextBulletId
  dropAmt : ∀ g ∈ s.goldDrops, 0 ≤ g.amount
  gren : ∀ g ∈ s.grenades, g.radius = GRENADE_RADIUS ∧ g.damage = GRENADE_DAMAGE
  ebDmg : ∀ e ∈ s.enemyBullets, 0 ≤ e.damage

/-- Player fields relevant to the invariants other than hp and gold;
`PCore p q` says `q` agrees with `p` on all of them. -/
def PCore (p q : Player) : Prop :=
  q.id = p.id ∧ q.side = p.side ∧ q.width = p.width ∧ q.height = p.height
  ∧ q.maxHp = p.maxHp ∧ q.weaponChosen = p.weaponChosen ∧ q.x = p.x ∧ q.y = p.y

/-- Monster geometry facts tracked across the mid-tick phases: a legal
radius and a position inside the monster's half. -/
def MQ (m : Monster) : Prop :=
  (m.radius = 34 ∨ m.radius = 60) ∧ inBoundsM m

/-- A grenade carrying the configured blast stats. -/
def GOk (g : Grenade) : Prop :=
  g.radius = GRENADE_RADIUS ∧ g.damage = GRENADE_DAMAGE

/-- Fields untouched by the spawning block (everything the invariant
tracks except the warning list and the spawn bookkeeping). -/
def SpFrame (s t : GState) : Prop :=
  t.p1 = s.p1 ∧ t.p2 = s.p2 ∧ t.monsters = s.monsters ∧ t.bullets = s.bullets
  ∧ t.enemyBullets = s.enemyBullets ∧ t.grenades = s.grenades
  ∧ t.goldDrops = s.goldDrops ∧ t.hearts = s.hearts
  ∧ t.greenPotions = s.greenPotions ∧ t.nextBulletId = s.nextBulletId
  ∧ t.state = s.state ∧ t.waveLeft = s.waveLeft

/-- Bookkeeping for the C3 counterexample: a mid-tick state with no
monsters, enemy bullets, grenades, hearts or spawn warnings, an expired
wave timer, and a given left-player hp. -/
def CexInv (h0 : ℚ) (s : GState) : Prop :=
  s.monsters = [] ∧ s.enemyBullets = [] ∧ s.grenades = [] ∧ s.hearts = []
  ∧ s.spawnWarnings = [] ∧ s.waveLeft = 0 ∧ s.p1.hp = h0

-- -----------------------------------------------------
-- Concrete instances used by witnesses and counterexamples
-- -----------------------------------------------------

/-- A SHOP state with default players. -/
def shopState : GState := { initState with state := Phase.shop }

/-- SHOP state where player 1 has plenty of gold but has already bought the
maximum number of grenades this shop phase. -/
def grenCapState : GState :=
  { initState with
    state := Phase.shop
    p1 := { initState.p1 with gold := 100, grenadesBoughtThisRound := 2 } }

/-- SHOP state where player 1 has 20 gold. -/
def shopGold20 : GState :=
  { initState with
    state := Phase.shop
    p1 := { initState.p1 with gold := 20, weaponChosen := true,
                               weaponType := some WeaponType.knife } }

/-- A knife bullet (pierce 0) sitting at (200, 300) on the left side. -/
def bC2 : Bullet := mkBullet 1 1 Side.left 200 300 0 0 10 (some WeaponType.knife)

/-- A slime 20 units above the C2 bullet (axis-aligned distance 20 ≤ 39). -/
def mC2a : Monster := ⟨1, Side.left, MonsterType.slime, 200, 320, 50, 90, 34, 0⟩

/-- A slime 20 units below the C2 bullet. -/
def mC2b : Monster := ⟨2, Side.left, MonsterType.slime, 200, 280, 50, 90, 34, 0⟩

/-- Loot context for the C2 scenario. -/
def ctxC2 : HitCtx := ⟨initState.p1, initState.p2, [], [], [], 1, 1, 1⟩

/-- A left-side grenade at (100, 300) whose fuse has elapsed. -/
def gC8 : Grenade := ⟨1, Side.left, 100, 300, 0, GRENADE_RADIUS, GRENADE_DAMAGE, false⟩

/-- A monster at axis-aligned distance 180 from `gC8` (180 < radius 240). -/
def mC8a : Monster := ⟨2, Side.left, MonsterType.slime, 280, 300, 1000, 90, 34, 0⟩

/-- A second monster also at distance 180 (and 120 < 180 < 240). -/
def mC8b : Monster := ⟨3, Side.left, MonsterType.slime, 100, 120, 500, 90, 34, 0⟩

/-- A monster at axis-aligned distance 60 from `gC8` (used by the C8
witness; its 1000 hp survives the blast). -/
def mC8w : Monster := ⟨4, Side.left, MonsterType.slime, 160, 300, 1000, 90, 34, 0⟩

/-- A 50-hp monster at axis-aligned distance 180 from `gC8`: the 75 blast
damage kills it, so the faithful explosion loop throws on reaching it. -/
def mC8k : Monster := ⟨5, Side.left, MonsterType.slime, 280, 300, 50, 90, 34, 0⟩

/-- A PLAYING state at the last instant of the wave (`waveLeft = 0.01`)
in which the left player's hp is 0: the end-of-tick game-over check runs
after the SHOP transition and overwrites it, so this tick ends in
GAME_OVER, not SHOP. -/
def sC3 : GState :=
  { initState with
    state := Phase.playing
    waveLeft := 1/100
    shopLeft := 3
    leftReady := true
    rightReady := true
    p1 := { initState.p1 with hp := 0, weaponChosen := true,
                              weaponType := some WeaponType.knife }
    p2 := { initState.p2 with weaponChosen := true,
                              weaponType := some WeaponType.axe } }

/-- The same wave-end-with-lethal-contact scenario, as a separate instance
used to witness the C9 theorem (the game-over overwrite branch). -/
def sC9w : GState :=
  { initState with
    state := Phase.playing
    waveLeft := 1/100
    shopLeft := 3
    leftReady := true
    rightReady := true
    p1 := { initState.p1 with hp := 5, weaponTimer := 5, x := 200, y := 300,
                               weaponChosen := true,
                               weaponType := some WeaponType.knife }
    p2 := { initState.p2 with weaponTimer := 5, weaponChosen := true,
                               weaponType := some WeaponType.axe }
    monsters := [⟨1, Side.left, MonsterType.slime, 200, 300, 50, 90, 34, 0⟩] }

/-- A PLAYING state (no entities, cooldowns idle) used to witness C3. -/
def sC3w : GState :=
  { initState with
    state := Phase.playing
    waveLeft := 1/100
    shopLeft := 3
    leftReady := true
    rightReady := true
    baseSpawnedLeft := 18
    baseSpawnedRight := 18
    p1 := { initState.p1 with weaponChosen := true,
                               weaponType := some WeaponType.knife }
    p2 := { initState.p2 with weaponChosen := true,
                               weaponType := some WeaponType.axe } }

/-- A GAME_OVER state with assorted leftover entities. -/
def sC10 : GState :=
  { initState with
    state := Phase.gameOver
    winner := some Winner.right
    p1 := { initState.p1 with hp := 0 }
    monsters := [⟨7, Side.left, MonsterType.tank, 200, 300, 40, 60, 34, 0⟩]
    waveLeft := 12
    round := 3 }

-- =====================================================
-- Theorems
-- =====================================================

-- Generic helpers ------------------------------------------------------

theorem foldl_preserve {α β : Type _} {P : β → Prop} {f : β → α → β} :
    ∀ {l : List α} {b : β}, (∀ b' a, a ∈ l → P b' → P (f b' a)) → P b →
      P (l.foldl f b) := by
  intro l
  induction l with
  | nil => intro b _ hb; exact hb
  | cons x xs ih =>
    intro b h hb
    exact ih (fun b' a ha => h b' a (List.mem_cons_of_mem _ ha))
      (h b x (List.mem_cons_self _ _) hb)

theorem clamp_mem {x a b : ℚ} (h : a ≤ b) : a ≤ clamp x a b ∧ clamp x a b ≤ b := by
  unfold clamp
  exact ⟨le_max_left _ _, max_le h (min_le_left _ _)⟩

theorem shopFrame_rfl {s : GState} : ShopFrame s s := by
  unfold ShopFrame; exact ⟨rfl, rfl, rfl, rfl, rfl, rfl⟩

theorem shopFrame_trans {s t u : GState} (h1 : ShopFrame s t)
    (h2 : ShopFrame t u) : ShopFrame s u := by
  obtain ⟨w1, w2, w3, w4, w5, w6⟩ := h1
  obtain ⟨v1, v2, v3, v4, v5, v6⟩ := h2
  exact ⟨v1.trans w1, v2.trans w2, v3.trans w3, v4.trans w4, v5.trans w5,
    v6.trans w6⟩

-- Projection-through-ite helpers (used pervasively for frame reasoning) --

@[simp] theorem ite_gstate_state (c : Prop) [Decidable c] (a b : GState) :
    (ite c a b).state = ite c a.state b.state := apply_ite _ c a b

@[simp] theorem ite_gstate_shopLeft (c : Prop) [Decidable c] (a b : GState) :
    (ite c a b).shopLeft = ite c a.shopLeft b.shopLeft := apply_ite _ c a b

@[simp] theorem ite_gstate_waveLeft (c : Prop) [Decidable c] (a b : GState) :
    (ite c a b).waveLeft = ite c a.waveLeft b.waveLeft := apply_ite _ c a b

@[simp] theorem ite_gstate_leftReady (c : Prop) [Decidable c] (a b : GState) :
    (ite c a b).leftReady = ite c a.leftReady b.leftReady := apply_ite _ c a b

@[simp] theorem ite_gstate_rightReady (c : Prop) [Decidable c] (a b : GState) :
    (ite c a b).rightReady = ite c a.rightReady b.rightReady := apply_ite _ c a b

@[simp] theorem ite_gstate_winner (c : Prop) [Decidable c] (a b : GState) :
    (ite c a b).winner = ite c a.winner b.winner := apply_ite _ c a b

@[simp] theorem ite_gstate_p1 (c : Prop) [Decidable c] (a b : GState) :
    (ite c a b).p1 = ite c a.p1 b.p1 := apply_ite _ c a b

@[simp] theorem ite_gstate_p2 (c : Prop) [Decidable c] (a b : GState) :
    (ite c a b).p2 = ite c a.p2 b.p2 := apply_ite _ c a b

@[simp] theorem ite_gstate_monsters (c : Prop) [Decidable c] (a b : GState) :
    (ite c a b).monsters = ite c a.monsters b.monsters := apply_ite _ c a b

@[simp] theorem ite_gstate_bullets (c : Prop) [Decidable c] (a b : GState) :
    (ite c a b).bullets = ite c a.bullets b.bullets := apply_ite _ c a b

@[simp] theorem ite_gstate_nextBulletId (c : Prop) [Decidable c] (a b : GState) :
    (ite c a b).nextBulletId = ite c a.nextBulletId b.nextBulletId :=
  apply_ite _ c a b

@[simp] theorem ite_gstate_grenades (c : Prop) [Decidable c] (a b : GState) :
    (ite c a b).grenades = ite c a.grenades b.grenades := apply_ite _ c a b

@[simp] theorem ite_gstate_goldDrops (c : Prop) [Decidable c] (a b : GState) :
    (ite c a b).goldDrops = ite c a.goldDrops b.goldDrops := apply_ite _ c a b

@[simp] theorem ite_gstate_enemyBullets (c : Prop) [Decidable c] (a b : GState) :
    (ite c a b).enemyBullets = ite c a.enemyBullets b.enemyBullets :=
  apply_ite _ c a b

@[simp] theorem ite_player_side (c : Prop) [Decidable c] (a b : Player) :
    (ite c a b).side = ite c a.side b.side := apply_ite _ c a b

@[simp] theorem ite_player_id (c : Prop) [Decidable c] (a b : Player) :
    (ite c a b).id = ite c a.id b.id := apply_ite _ c a b

@[simp] theorem ite_player_hp (c : Prop) [Decidable c] (a b : Player) :
    (ite c a b).hp = ite c a.hp b.hp := apply_ite _ c a b

@[simp] theorem ite_player_maxHp (c : Prop) [Decidable c] (a b : Player) :
    (ite c a b).maxHp = ite c a.maxHp b.maxHp := apply_ite _ c a b

@[simp] theorem ite_player_gold (c : Prop) [Decidable c] (a b : Player) :
    (ite c a b).gold = ite c a.gold b.gold := apply_ite _ c a b

@[simp] theorem ite_player_x (c : Prop) [Decidable c] (a b : Player) :
    (ite c a b).x = ite c a.x b.x := apply_ite _ c a b

@[simp] theorem ite_player_y (c : Prop) [Decidable c] (a b : Player) :
    (ite c a b).y = ite c a.y b.y := apply_ite _ c a b

@[simp] theorem ite_player_width (c : Prop) [Decidable c] (a b : Player) :
    (ite c a b).width = ite c a.width b.width := apply_ite _ c a b

@[simp] theorem ite_player_height (c : Prop) [Decidable c] (a b : Player) :
    (ite c a b).height = ite c a.height b.height := apply_ite _ c a b

@[simp] theorem ite_player_weaponChosen (c : Prop) [Decidable c] (a b : Player) :
    (ite c a b).weaponChosen = ite c a.weaponChosen b.weaponChosen :=
  apply_ite _ c a b

@[simp] theorem ite_monster_side (c : Prop) [Decidable c] (a b : Monster) :
    (ite c a b).side = ite c a.side b.side := apply_ite _ c a b

@[simp] theorem ite_monster_hp (c : Prop) [Decidable c] (a b : Monster) :
    (ite c a b).hp = ite c a.hp b.hp := apply_ite _ c a b

@[simp] theorem ite_monster_x (c : Prop) [Decidable c] (a b : Monster) :
    (ite c a b).x = ite c a.x b.x := apply_ite _ c a b

@[simp] theorem ite_monster_y (c : Prop) [Decidable c] (a b : Monster) :
    (ite c a b).y = ite c a.y b.y := apply_ite _ c a b

@[simp] theorem ite_monster_radius (c : Prop) [Decidable c] (a b : Monster) :
    (ite c a b).radius = ite c a.radius b.radius := apply_ite _ c a b

-- Frame lemmas for the player primitives -------------------------------

theorem takeDamage_side (p : Player) (a : ℚ) : (p.takeDamage a).side = p.side := rfl

theorem heal_side (p : Player) (a : ℚ) : (p.heal a).side = p.side := rfl

theorem applyEnrage_side (p : Player) (a : ℚ) : (p.applyEnrage a).side = p.side := rfl

theorem update_side (p : Player) (dt : ℚ) : (p.update dt).side = p.side := by
  simp [Player.update]

theorem updateAim_side (env : Env) (p : Player) (tx ty : ℚ) :
    (p.updateAim env tx ty).side = p.side := by
  simp [Player.updateAim]

theorem shoot_fst_side (env : Env) (p : Player) (bid : ℕ) :
    (p.shoot env bid).1.side = p.side := rfl

theorem movePlayer_side (env : Env) (dt : ℚ) (inp : Input) (p : Player) :
    (movePlayer env dt inp p).side = p.side := by
  simp [movePlayer, update_side]

theorem aimShoot_fst_side (env : Env) (s : GState) (p : Player) :
    (aimShoot env s p).1.side = p.side := by
  unfold aimShoot
  cases s.nearestMonster p.side with
  | none => simp [updateAim_side]
  | some t =>
    by_cases h : (p.updateAim env t.x t.y).canShoot
    · simp [h, shoot_fst_side, updateAim_side]
    · simp [h, updateAim_side]

-- Per-phase ShopFrame lemmas ------------------------------------------

theorem playersPhase_frame (env : Env) (dt : ℚ) (inputs : ℕ → Input)
    (s : GState) : ShopFrame s (playersPhase env dt inputs s) := by
  unfold ShopFrame playersPhase
  refine ⟨rfl, rfl, rfl, rfl, ?_, ?_⟩
  · simp [aimShoot_fst_side, movePlayer_side]
  · simp [aimShoot_fst_side, movePlayer_side]

theorem spawnPhase_frame (env : Env) (dt : ℚ) (s : GState) :
    ShopFrame s (spawnPhase env dt s) := by
  unfold ShopFrame
  refine ⟨?_, ?_, ?_, ?_, ?_, ?_⟩ <;>
    simp [spawnPhase, baselineSpawnLeft, baselineSpawnRight, spawnExtraForSide,
      spawnBaseMonster, spawnWarningOnSide]

theorem warningsPhase_frame (env : Env) (dt : ℚ) (s : GState) :
    ShopFrame s (warningsPhase env dt s) := by
  have key : ∀ (l : List SpawnWarning) (t : GState),
      ShopFrame t (l.foldl (fun s w => spawnMonsterFromWarning env w s) t) := by
    intro l
    induction l with
    | nil => intro t; exact shopFrame_rfl
    | cons w ws ih =>
      intro t
      refine shopFrame_trans ?_ (ih _)
      unfold ShopFrame spawnMonsterFromWarning
      exact ⟨rfl, rfl, rfl, rfl, rfl, rfl⟩
  unfold warningsPhase
  refine shopFrame_trans ?_ (key _ _)
  unfold ShopFrame
  exact ⟨rfl, rfl, rfl, rfl, rfl, rfl⟩

theorem monstersMovePhase_frame (env : Env) (dt : ℚ) (s : GState) :
    ShopFrame s (monstersMovePhase env dt s) := by
  unfold ShopFrame monstersMovePhase
  exact ⟨rfl, rfl, rfl, rfl, rfl, rfl⟩

theorem spittersPhase_frame (env : Env) (dt : ℚ) (s : GState) :
    ShopFrame s (spittersPhase env dt s) := by
  unfold ShopFrame spittersPhase
  exact ⟨rfl, rfl, rfl, rfl, rfl, rfl⟩

theorem enemyBulletsMovePhase_frame (dt : ℚ) (s : GState) :
    ShopFrame s (enemyBulletsMovePhase dt s) := by
  unfold ShopFrame enemyBulletsMovePhase
  exact ⟨rfl, rfl, rfl, rfl, rfl, rfl⟩

theorem enemyBulletHit_sides (env : Env)
    (acc : Player × Player × List EnemyBullet) (eb : EnemyBullet) :
    (enemyBulletHit env acc eb).1.side = acc.1.side
    ∧ (enemyBulletHit env acc eb).2.1.side = acc.2.1.side := by
  rcases acc with ⟨p1, p2, out⟩
  unfold enemyBulletHit
  dsimp only
  split_ifs <;> simp [Player.takeDamage]

theorem enemyBulletsHitPhase_frame (env : Env) (s : GState) :
    ShopFrame s (enemyBulletsHitPhase env s) := by
  unfold ShopFrame enemyBulletsHitPhase
  have h := foldl_preserve
    (P := fun (acc : Player × Player × List EnemyBullet) =>
      acc.1.side = s.p1.side ∧ acc.2.1.side = s.p2.side)
    (f := enemyBulletHit env) (l := s.enemyBullets) (b := (s.p1, s.p2, []))
    (fun acc eb _ hacc => ⟨(enemyBulletHit_sides env acc eb).1.trans hacc.1,
      (enemyBulletHit_sides env acc eb).2.trans hacc.2⟩) ⟨rfl, rfl⟩
  exact ⟨rfl, rfl, rfl, rfl, h.1, h.2⟩

theorem enemyBulletsFilterPhase_frame (s : GState) :
    ShopFrame s (enemyBulletsFilterPhase s) := by
  unfold ShopFrame enemyBulletsFilterPhase
  exact ⟨rfl, rfl, rfl, rfl, rfl, rfl⟩

theorem grenadeHitPlayer_side (env : Env) (g : Grenade) (p : Player) :
    (grenadeHitPlayer env g p).side = p.side := by
  unfold grenadeHitPlayer
  split_ifs <;> simp [Player.takeDamage]

theorem grenadeStep_sides (env : Env) (dt : ℚ)
    (acc : Player × Player × List Monster × List Grenade) (g : Grenade) :
    (grenadeStep env dt acc g).1.side = acc.1.side
    ∧ (grenadeStep env dt acc g).2.1.side = acc.2.1.side := by
  rcases acc with ⟨p1, p2, ms, out⟩
  unfold grenadeStep
  dsimp only
  split_ifs <;> simp [grenadeHitPlayer_side]

theorem grenadesPhase_frame (env : Env) (dt : ℚ) (s : GState) :
    ShopFrame s (grenadesPhase env dt s) := by
  unfold ShopFrame grenadesPhase
  have h := foldl_preserve
    (P := fun (acc : Player × Player × List Monster × List Grenade) =>
      acc.1.side = s.p1.side ∧ acc.2.1.side = s.p2.side)
    (f := grenadeStep env dt) (l := s.grenades)
    (b := (s.p1, s.p2, s.monsters, []))
    (fun acc g _ hacc => ⟨(grenadeStep_sides env dt acc g).1.trans hacc.1,
      (grenadeStep_sides env dt acc g).2.trans hacc.2⟩) ⟨rfl, rfl⟩
  exact ⟨rfl, rfl, rfl, rfl, h.1, h.2⟩

theorem grenadesFilterPhase_frame (s : GState) :
    ShopFrame s (grenadesFilterPhase s) := by
  unfold ShopFrame grenadesFilterPhase
  exact ⟨rfl, rfl, rfl, rfl, rfl, rfl⟩

theorem bulletsMovePhase_frame (dt : ℚ) (s : GState) :
    ShopFrame s (bulletsMovePhase dt s) := by
  unfold ShopFrame bulletsMovePhase
  exact ⟨rfl, rfl, rfl, rfl, rfl, rfl⟩

theorem killRewards_sides (env : Env) (oid : ℕ) (m : Monster) (ctx : HitCtx) :
    (killRewards env oid m ctx).p1.side = ctx.p1.side
    ∧ (killRewards env oid m ctx).p2.side = ctx.p2.side := by
  unfold killRewards HitCtx.updateOwner
  split_ifs <;> simp

theorem bulletHitMonster_ctx_sides (env : Env) (b : Bullet)
    (acc : List Monster × ℕ × HitCtx) (m : Monster) :
    (bulletHitMonster env b acc m).2.2.p1.side = acc.2.2.p1.side
    ∧ (bulletHitMonster env b acc m).2.2.p2.side = acc.2.2.p2.side := by
  rcases acc with ⟨ms, hits, ctx⟩
  unfold bulletHitMonster
  dsimp only
  split_ifs <;> simp [killRewards_sides]

theorem bulletStep_ctx_sides (env : Env)
    (acc : List Monster × List Bullet × HitCtx) (b : Bullet) :
    (bulletStep env acc b).2.2.p1.side = acc.2.2.p1.side
    ∧ (bulletStep env acc b).2.2.p2.side = acc.2.2.p2.side := by
  rcases acc with ⟨ms, out, ctx⟩
  have h2 := foldl_preserve
    (P := fun (a : List Monster × ℕ × HitCtx) =>
      a.2.2.p1.side = ctx.p1.side ∧ a.2.2.p2.side = ctx.p2.side)
    (f := bulletHitMonster env b) (l := ms) (b := ([], 0, ctx))
    (fun a m _ ha => ⟨(bulletHitMonster_ctx_sides env b a m).1.trans ha.1,
      (bulletHitMonster_ctx_sides env b a m).2.trans ha.2⟩) ⟨rfl, rfl⟩
  unfold bulletStep
  dsimp only
  split_ifs <;> first
  | exact ⟨rfl, rfl⟩
  | exact h2

theorem bulletsHitPhase_frame (env : Env) (s : GState) :
    ShopFrame s (bulletsHitPhase env s) := by
  unfold ShopFrame bulletsHitPhase
  have h := foldl_preserve
    (P := fun (acc : List Monster × List Bullet × HitCtx) =>
      acc.2.2.p1.side = s.p1.side ∧ acc.2.2.p2.side = s.p2.side)
    (f := bulletStep env) (l := s.bullets)
    (b := (s.monsters, [], ⟨s.p1, s.p2, s.goldDrops, s.hearts, s.greenPotions,
      s.nextGoldId, s.nextHeartId, s.nextGreenPotionId⟩))
    (fun acc b _ hacc => ⟨(bulletStep_ctx_sides env acc b).1.trans hacc.1,
      (bulletStep_ctx_sides env acc b).2.trans hacc.2⟩) ⟨rfl, rfl⟩
  exact ⟨rfl, rfl, rfl, rfl, h.1, h.2⟩

theorem contactStep_sides (env : Env)
    (acc : Player × Player × List Monster) (m : Monster) :
    (contactStep env acc m).1.side = acc.1.side
    ∧ (contactStep env acc m).2.1.side = acc.2.1.side := by
  rcases acc with ⟨p1, p2, ms⟩
  unfold contactStep
  dsimp only
  split_ifs <;> simp [Player.takeDamage]

theorem contactPhase_frame (env : Env) (s : GState) :
    ShopFrame s (contactPhase env s) := by
  unfold ShopFrame contactPhase
  have h := foldl_preserve
    (P := fun (acc : Player × Player × List Monster) =>
      acc.1.side = s.p1.side ∧ acc.2.1.side = s.p2.side)
    (f := contactStep env) (l := s.monsters) (b := (s.p1, s.p2, []))
    (fun acc m _ hacc => ⟨(contactStep_sides env acc m).1.trans hacc.1,
      (contactStep_sides env acc m).2.trans hacc.2⟩) ⟨rfl, rfl⟩
  exact ⟨rfl, rfl, rfl, rfl, h.1, h.2⟩

theorem pickupGold_side (env : Env) (acc : Player × List GoldDrop)
    (g : GoldDrop) : (pickupGold env acc g).1.side = acc.1.side := by
  unfold pickupGold
  split_ifs <;> rfl

theorem pickupHeart_side (env : Env) (acc : Player × List HeartPickup)
    (h : HeartPickup) : (pickupHeart env acc h).1.side = acc.1.side := by
  unfold pickupHeart
  split_ifs <;> simp [Player.heal]

theorem pickupPotion_side (env : Env) (acc : Player × List GreenPotionPickup)
    (gp : GreenPotionPickup) : (pickupPotion env acc gp).1.side = acc.1.side := by
  unfold pickupPotion
  split_ifs <;> simp [Player.applyEnrage]

theorem collectPickups_side (env : Env) (p : Player) (gs : List GoldDrop)
    (hs : List HeartPickup) (pots : List GreenPotionPickup) :
    (collectPickups env p gs hs pots).1.side = p.side := by
  unfold collectPickups
  by_cases hp : p.isAlive = true
  · rw [if_neg (by simp [hp])]
    dsimp only
    have hg : (gs.foldl (pickupGold env) (p, [])).1.side = p.side :=
      foldl_preserve
        (P := fun (acc : Player × List GoldDrop) => acc.1.side = p.side)
        (fun acc g _ hacc => (pickupGold_side env acc g).trans hacc) rfl
    have hh : (hs.foldl (pickupHeart env)
        ((gs.foldl (pickupGold env) (p, [])).1, [])).1.side = p.side :=
      foldl_preserve
        (P := fun (acc : Player × List HeartPickup) => acc.1.side = p.side)
        (fun acc hh _ hacc => (pickupHeart_side env acc hh).trans hacc) hg
    exact foldl_preserve
      (P := fun (acc : Player × List GreenPotionPickup) => acc.1.side = p.side)
      (fun acc gp _ hacc => (pickupPotion_side env acc gp).trans hacc) hh
  · rw [if_pos (by simp [hp])]

theorem pickupsPhase_frame (env : Env) (s : GState) :
    ShopFrame s (pickupsPhase env s) := by
  unfold ShopFrame pickupsPhase
  refine ⟨rfl, rfl, rfl, rfl, ?_, ?_⟩ <;> simp [collectPickups_side]

theorem gameOverPhase_keeps (s : GState) :
    (gameOverPhase s).shopLeft = s.shopLeft
    ∧ (gameOverPhase s).leftReady = s.leftReady
    ∧ (gameOverPhase s).rightReady = s.rightReady
    ∧ (gameOverPhase s).p1 = s.p1 ∧ (gameOverPhase s).p2 = s.p2
    ∧ (gameOverPhase s).waveLeft = s.waveLeft := by
  unfold gameOverPhase
  dsimp only
  split_ifs <;> exact ⟨rfl, rfl, rfl, rfl, rfl, rfl⟩

theorem gameOverPhase_alive (s : GState)
    (h1 : s.alivePlayerOnSide Side.left = true)
    (h2 : s.alivePlayerOnSide Side.right = true) :
    (gameOverPhase s).state = s.state := by
  simp [gameOverPhase, h1, h2]

theorem gameOverPhase_dead (s : GState)
    (h : s.alivePlayerOnSide Side.left = false
      ∨ s.alivePlayerOnSide Side.right = false) :
    (gameOverPhase s).state = Phase.gameOver
    ∧ (gameOverPhase s).winner =
        (if s.alivePlayerOnSide Side.left && !s.alivePlayerOnSide Side.right
         then some Winner.left
         else if s.alivePlayerOnSide Side.right && !s.alivePlayerOnSide Side.left
         then some Winner.right
         else some Winner.draw) := by
  unfold gameOverPhase
  dsimp only
  rcases h with h | h <;> simp [h]

theorem midPhases_frame (env : Env) (dt : ℚ) (inputs : ℕ → Input)
    (t : GState) : ShopFrame t (midPhases env dt inputs t) := by
  unfold midPhases
  exact shopFrame_trans (shopFrame_trans (shopFrame_trans (shopFrame_trans
    (shopFrame_trans (shopFrame_trans (shopFrame_trans (shopFrame_trans
      (shopFrame_trans (shopFrame_trans (shopFrame_trans (shopFrame_trans
        (shopFrame_trans (playersPhase_frame env dt inputs t)
          (spawnPhase_frame env dt _))
        (warningsPhase_frame env dt _))
      (monstersMovePhase_frame env dt _))
    (spittersPhase_frame env dt _))
    (enemyBulletsMovePhase_frame dt _))
    (enemyBulletsHitPhase_frame env _))
    (enemyBulletsFilterPhase_frame _))
    (grenadesPhase_frame env dt _))
    (grenadesFilterPhase_frame _))
    (bulletsMovePhase_frame dt _))
    (bulletsHitPhase_frame env _))
    (contactPhase_frame env _))
    (pickupsPhase_frame env _)

theorem waveTimerPhase_fired (dt : ℚ) (s : GState) (h1 : 0 < s.waveLeft)
    (h2 : s.waveLeft - dt ≤ 0) :
    (waveTimerPhase dt s).state = Phase.shop
    ∧ (waveTimerPhase dt s).shopLeft = SHOP_TIME
    ∧ (waveTimerPhase dt s).leftReady = false
    ∧ (waveTimerPhase dt s).rightReady = false
    ∧ (waveTimerPhase dt s).p1.side = s.p1.side
    ∧ (waveTimerPhase dt s).p2.side = s.p2.side := by
  unfold waveTimerPhase
  dsimp only
  rw [if_pos h1, if_pos h2]
  exact ⟨rfl, rfl, rfl, rfl, rfl, rfl⟩

theorem waveTimerPhase_fired_rest (dt : ℚ) (s : GState) (h1 : 0 < s.waveLeft)
    (h2 : s.waveLeft - dt ≤ 0) :
    (waveTimerPhase dt s).waveLeft = 0
    ∧ (waveTimerPhase dt s).monsters = s.monsters
    ∧ (waveTimerPhase dt s).enemyBullets = s.enemyBullets
    ∧ (waveTimerPhase dt s).grenades = s.grenades
    ∧ (waveTimerPhase dt s).hearts = s.hearts
    ∧ (waveTimerPhase dt s).spawnWarnings = s.spawnWarnings
    ∧ (waveTimerPhase dt s).p1.hp = s.p1.hp := by
  unfold waveTimerPhase
  dsimp only
  rw [if_pos h1, if_pos h2]
  exact ⟨rfl, rfl, rfl, ⟨rfl, rfl, rfl, rfl⟩⟩

/-- Full analysis of a PLAYING tick in which the wave countdown crosses
zero: the SHOP transition fires at the top of the tick (setting the shop
timer and clearing the ready flags), the rest of the tick runs, and the
end-of-tick game-over check can overwrite the new SHOP state. -/
theorem wave_end_analysis (env : Env) (dt : ℚ) (inputs : ℕ → Input)
    (s : GState) (hplay : s.state = Phase.playing)
    (hsl : s.p1.side = Side.left) (hsr : s.p2.side = Side.right)
    (h1 : 0 < s.waveLeft) (h2 : s.waveLeft ≤ dt) :
    (step env dt inputs s).shopLeft = SHOP_TIME
    ∧ (step env dt inputs s).leftReady = false
    ∧ (step env dt inputs s).rightReady = false
    ∧ (0 < (step env dt inputs s).p1.hp → 0 < (step env dt inputs s).p2.hp →
        (step env dt inputs s).state = Phase.shop)
    ∧ ((step env dt inputs s).p1.hp ≤ 0 ∨ (step env dt inputs s).p2.hp ≤ 0 →
        (step env dt inputs s).state = Phase.gameOver)
    ∧ ((step env dt inputs s).p1.hp ≤ 0 → 0 < (step env dt inputs s).p2.hp →
        (step env dt inputs s).winner = some Winner.right)
    ∧ (0 < (step env dt inputs s).p1.hp → (step env dt inputs s).p2.hp ≤ 0 →
        (step env dt inputs s).winner = some Winner.left)
    ∧ ((step env dt inputs s).p1.hp ≤ 0 → (step env dt inputs s).p2.hp ≤ 0 →
        (step env dt inputs s).winner = some Winner.draw) := by
  have hstep : step env dt inputs s
      = gameOverPhase (midPhases env dt inputs (waveTimerPhase dt s)) := by
    unfold step
    rw [hplay]
    rfl
  obtain ⟨w1, w2, w3, w4, w5, w6⟩ :=
    waveTimerPhase_fired dt s h1 (by linarith)
  obtain ⟨f1, f2, f3, f4, f5, f6⟩ :=
    midPhases_frame env dt inputs (waveTimerPhase dt s)
  obtain ⟨k1, k2, k3, k4, k5, k6⟩ :=
    gameOverPhase_keeps (midPhases env dt inputs (waveTimerPhase dt s))
  set mid := midPhases env dt inputs (waveTimerPhase dt s) with hmid
  have hs1 : mid.p1.side = Side.left := by rw [f5, w5, hsl]
  have hs2 : mid.p2.side = Side.right := by rw [f6, w6, hsr]
  have hal : mid.alivePlayerOnSide Side.left = mid.p1.isAlive := by
    unfold GState.alivePlayerOnSide
    simp [hs1, hs2]
  have har : mid.alivePlayerOnSide Side.right = mid.p2.isAlive := by
    unfold GState.alivePlayerOnSide
    simp [hs1, hs2]
  have hp1 : (step env dt inputs s).p1 = mid.p1 := by rw [hstep]; exact k4
  have hp2 : (step env dt inputs s).p2 = mid.p2 := by rw [hstep]; exact k5
  refine ⟨?_, ?_, ?_, ?_, ⟨?_, ?_, ?_, ?_⟩⟩
  · rw [hstep, k1, f2, w2]
  · rw [hstep, k2, f3, w3]
  · rw [hstep, k3, f4, w4]
  · intro a1 a2
    rw [hp1] at a1
    rw [hp2] at a2
    rw [hstep, gameOverPhase_alive mid (by rw [hal]; simpa [Player.isAlive]
      using a1) (by rw [har]; simpa [Player.isAlive] using a2), f1, w1]
  · intro hdead
    rw [hp1, hp2] at hdead
    have hd : mid.alivePlayerOnSide Side.left = false
        ∨ mid.alivePlayerOnSide Side.right = false := by
      rcases hdead with h | h
      · left; rw [hal]; simpa [Player.isAlive] using not_lt.mpr h
      · right; rw [har]; simpa [Player.isAlive] using not_lt.mpr h
    rw [hstep]
    exact (gameOverPhase_dead mid hd).1
  · intro hd1 ha2
    rw [hp1] at hd1
    rw [hp2] at ha2
    have e1 : mid.alivePlayerOnSide Side.left = false := by
      rw [hal]; simpa [Player.isAlive] using not_lt.mpr hd1
    have e2 : mid.alivePlayerOnSide Side.right = true := by
      rw [har]; simpa [Player.isAlive] using ha2
    rw [hstep]
    rw [(gameOverPhase_dead mid (Or.inl e1)).2, e1, e2]
    rfl
  · intro ha1 hd2
    rw [hp1] at ha1
    rw [hp2] at hd2
    have e1 : mid.alivePlayerOnSide Side.left = true := by
      rw [hal]; simpa [Player.isAlive] using ha1
    have e2 : mid.alivePlayerOnSide Side.right = false := by
      rw [har]; simpa [Player.isAlive] using not_lt.mpr hd2
    rw [hstep]
    rw [(gameOverPhase_dead mid (Or.inr e2)).2, e1, e2]
    rfl
  · intro hd1 hd2
    rw [hp1] at hd1
    rw [hp2] at hd2
    have e1 : mid.alivePlayerOnSide Side.left = false := by
      rw [hal]; simpa [Player.isAlive] using not_lt.mpr hd1
    have e2 : mid.alivePlayerOnSide Side.right = false := by
      rw [har]; simpa [Player.isAlive] using not_lt.mpr hd2
    rw [hstep]
    rw [(gameOverPhase_dead mid (Or.inl e1)).2, e1, e2]
    rfl

-- Generic hp-frame lemmas for the player pipeline -----------------------

theorem update_hp (p : Player) (dt : ℚ) : (p.update dt).hp = p.hp := by
  simp [Player.update]

theorem movePlayer_hp (env : Env) (dt : ℚ) (inp : Input) (p : Player) :
    (movePlayer env dt inp p).hp = p.hp := by
  simp [movePlayer, update_hp]

theorem updateAim_hp (env : Env) (p : Player) (tx ty : ℚ) :
    (p.updateAim env tx ty).hp = p.hp := by
  simp [Player.updateAim]

theorem aimShoot_fst_hp (env : Env) (s : GState) (p : Player) :
    (aimShoot env s p).1.hp = p.hp := by
  unfold aimShoot
  cases s.nearestMonster p.side with
  | none => simp [updateAim_hp]
  | some t =>
    by_cases h : (p.updateAim env t.x t.y).canShoot
    · simp only [h, if_true]
      show (Player.shoot env _ _).1.hp = p.hp
      rw [show (Player.shoot env ((p.updateAim env t.x t.y)) s.nextBulletId).1.hp
        = (p.updateAim env t.x t.y).hp from rfl]
      exact updateAim_hp env p t.x t.y
    · simp [h, updateAim_hp]

theorem playersPhase_p1_hp (env : Env) (dt : ℚ) (inputs : ℕ → Input)
    (s : GState) : (playersPhase env dt inputs s).p1.hp = s.p1.hp := by
  unfold playersPhase
  dsimp only
  rw [aimShoot_fst_hp, movePlayer_hp]

-- CexInv preservation through the mid phases ---------------------------

theorem playersPhase_cex (env : Env) (dt : ℚ) (inputs : ℕ → Input)
    (s : GState) (h0 : ℚ) (h : CexInv h0 s) :
    CexInv h0 (playersPhase env dt inputs s) := by
  obtain ⟨a1, a2, a3, a4, a5, a6, a7⟩ := h
  refine ⟨?_, ?_, ?_, ⟨?_, ?_, ?_, ?_⟩⟩
  · exact a1
  · exact a2
  · exact a3
  · exact a4
  · exact a5
  · exact a6
  · rw [playersPhase_p1_hp]; exact a7

theorem spawnPhase_of_done (env : Env) (dt : ℚ) (s : GState)
    (h : ¬ 0 < s.waveLeft) : spawnPhase env dt s = s := by
  unfold spawnPhase
  rw [if_neg h]

theorem warningsPhase_of_empty (env : Env) (dt : ℚ) (s : GState)
    (h : s.spawnWarnings = []) :
    warningsPhase env dt s = { s with spawnWarnings := [] } := by
  unfold warningsPhase
  rw [h]
  rfl

theorem monstersMovePhase_of_empty (env : Env) (dt : ℚ) (s : GState)
    (h : s.monsters = []) :
    monstersMovePhase env dt s = { s with monsters := [] } := by
  unfold monstersMovePhase
  rw [h]
  rfl

theorem spittersPhase_of_empty (env : Env) (dt : ℚ) (s : GState)
    (h : s.monsters = []) : spittersPhase env dt s = { s with monsters := [] } := by
  unfold spittersPhase
  rw [h]
  simp only [List.foldl_nil, List.append_nil]

theorem enemyBulletsMovePhase_of_empty (dt : ℚ) (s : GState)
    (h : s.enemyBullets = []) :
    enemyBulletsMovePhase dt s = { s with enemyBullets := [] } := by
  unfold enemyBulletsMovePhase
  rw [h]
  rfl

theorem enemyBulletsHitPhase_of_empty (env : Env) (s : GState)
    (h : s.enemyBullets = []) :
    enemyBulletsHitPhase env s = { s with enemyBullets := [] } := by
  unfold enemyBulletsHitPhase
  rw [h]
  rfl

theorem enemyBulletsFilterPhase_of_empty (s : GState)
    (h : s.enemyBullets = []) :
    enemyBulletsFilterPhase s = { s with enemyBullets := [] } := by
  unfold enemyBulletsFilterPhase
  rw [h]
  rfl

theorem grenadesPhase_of_empty (env : Env) (dt : ℚ) (s : GState)
    (h : s.grenades = []) : grenadesPhase env dt s = { s with grenades := [] } := by
  unfold grenadesPhase
  rw [h]
  rfl

theorem grenadesFilterPhase_of_empty (s : GState) (h : s.grenades = []) :
    grenadesFilterPhase s = { s with grenades := [] } := by
  unfold grenadesFilterPhase
  rw [h]
  rfl

theorem bulletsMovePhase_cex (dt : ℚ) (s : GState) (h0 : ℚ)
    (h : CexInv h0 s) : CexInv h0 (bulletsMovePhase dt s) := by
  obtain ⟨a1, a2, a3, a4, a5, a6, a7⟩ := h
  exact ⟨a1, a2, a3, a4, a5, a6, a7⟩

theorem bulletsHitPhase_of_empty (env : Env) (s : GState) (h0 : ℚ)
    (h : CexInv h0 s) : CexInv h0 (bulletsHitPhase env s) := by
  obtain ⟨a1, a2, a3, a4, a5, a6, a7⟩ := h
  have key := foldl_preserve
    (P := fun (acc : List Monster × List Bullet × HitCtx) =>
      acc.1 = [] ∧ acc.2.2 = ⟨s.p1, s.p2, s.goldDrops, s.hearts, s.greenPotions,
        s.nextGoldId, s.nextHeartId, s.nextGreenPotionId⟩)
    (f := bulletStep env) (l := s.bullets)
    (b := (s.monsters, [], ⟨s.p1, s.p2, s.goldDrops, s.hearts, s.greenPotions,
      s.nextGoldId, s.nextHeartId, s.nextGreenPotionId⟩))
    (fun acc b _ hacc => by
      rcases acc with ⟨ms, out, ctx⟩
      obtain ⟨hm, hc⟩ := hacc
      dsimp only at hm hc
      subst hm
      subst hc
      unfold bulletStep
      dsimp only
      split_ifs <;> exact ⟨rfl, rfl⟩)
    ⟨a1, rfl⟩
  unfold bulletsHitPhase
  dsimp only
  rw [key.1, key.2]
  exact ⟨rfl, a2, a3, a4, a5, a6, a7⟩

theorem contactPhase_of_empty (env : Env) (s : GState) (h : s.monsters = []) :
    contactPhase env s = { s with monsters := [] } := by
  unfold contactPhase
  rw [h]
  rfl

theorem pickupGold_hp (env : Env) (acc : Player × List GoldDrop)
    (g : GoldDrop) : (pickupGold env acc g).1.hp = acc.1.hp := by
  unfold pickupGold
  split_ifs <;> rfl

theorem pickupPotion_hp (env : Env) (acc : Player × List GreenPotionPickup)
    (gp : GreenPotionPickup) : (pickupPotion env acc gp).1.hp = acc.1.hp := by
  unfold pickupPotion
  split_ifs <;> simp [Player.applyEnrage]

theorem collectPickups_hp_of_noHearts (env : Env) (p : Player)
    (gs : List GoldDrop) (pots : List GreenPotionPickup) :
    (collectPickups env p gs [] pots).1.hp = p.hp := by
  unfold collectPickups
  by_cases hp : p.isAlive = true
  · rw [if_neg (by simp [hp])]
    dsimp only
    have hg : (gs.foldl (pickupGold env) (p, [])).1.hp = p.hp :=
      foldl_preserve
        (P := fun (acc : Player × List GoldDrop) => acc.1.hp = p.hp)
        (fun acc g _ hacc => (pickupGold_hp env acc g).trans hacc) rfl
    exact foldl_preserve
      (P := fun (acc : Player × List GreenPotionPickup) => acc.1.hp = p.hp)
      (fun acc gp _ hacc => (pickupPotion_hp env acc gp).trans hacc) hg
  · rw [if_pos (by simp [hp])]

theorem collectPickups_hearts_of_empty (env : Env) (p : Player)
    (gs : List GoldDrop) (pots : List GreenPotionPickup) :
    (collectPickups env p gs [] pots).2.2.1 = [] := by
  unfold collectPickups
  by_cases hp : p.isAlive = true
  · rw [if_neg (by simp [hp])]
    rfl
  · rw [if_pos (by simp [hp])]

theorem pickupsPhase_cex (env : Env) (s : GState) (h0 : ℚ)
    (h : CexInv h0 s) : CexInv h0 (pickupsPhase env s) := by
  obtain ⟨a1, a2, a3, a4, a5, a6, a7⟩ := h
  unfold pickupsPhase
  dsimp only
  rw [a4]
  refine ⟨a1, a2, a3, ?_, a5, a6, ?_⟩
  · rw [collectPickups_hearts_of_empty, collectPickups_hearts_of_empty]
    rfl
  · rw [collectPickups_hp_of_noHearts]
    exact a7

theorem spawnPhase_cex (env : Env) (dt : ℚ) (s : GState) (h0 : ℚ)
    (h : CexInv h0 s) : CexInv h0 (spawnPhase env dt s) := by
  rw [spawnPhase_of_done env dt s (by rw [h.2.2.2.2.2.1]; exact lt_irrefl 0)]
  exact h

theorem warningsPhase_cex (env : Env) (dt : ℚ) (s : GState) (h0 : ℚ)
    (h : CexInv h0 s) : CexInv h0 (warningsPhase env dt s) := by
  rw [warningsPhase_of_empty env dt s h.2.2.2.2.1]
  exact ⟨h.1, h.2.1, h.2.2.1, h.2.2.2.1, rfl, h.2.2.2.2.2.1, h.2.2.2.2.2.2⟩

theorem monstersMovePhase_cex (env : Env) (dt : ℚ) (s : GState) (h0 : ℚ)
    (h : CexInv h0 s) : CexInv h0 (monstersMovePhase env dt s) := by
  rw [monstersMovePhase_of_empty env dt s h.1]
  exact ⟨rfl, h.2.1, h.2.2.1, h.2.2.2.1, h.2.2.2.2.1, h.2.2.2.2.2.1,
    h.2.2.2.2.2.2⟩

theorem spittersPhase_cex (env : Env) (dt : ℚ) (s : GState) (h0 : ℚ)
    (h : CexInv h0 s) : CexInv h0 (spittersPhase env dt s) := by
  rw [spittersPhase_of_empty env dt s h.1]
  exact ⟨rfl, h.2.1, h.2.2.1, h.2.2.2.1, h.2.2.2.2.1, h.2.2.2.2.2.1,
    h.2.2.2.2.2.2⟩

theorem enemyBulletsMovePhase_cex (dt : ℚ) (s : GState) (h0 : ℚ)
    (h : CexInv h0 s) : CexInv h0 (enemyBulletsMovePhase dt s) := by
  rw [enemyBulletsMovePhase_of_empty dt s h.2.1]
  exact ⟨h.1, rfl, h.2.2.1, h.2.2.2.1, h.2.2.2.2.1, h.2.2.2.2.2.1,
    h.2.2.2.2.2.2⟩

theorem enemyBulletsHitPhase_cex (env : Env) (s : GState) (h0 : ℚ)
    (h : CexInv h0 s) : CexInv h0 (enemyBulletsHitPhase env s) := by
  rw [enemyBulletsHitPhase_of_empty env s h.2.1]
  exact ⟨h.1, rfl, h.2.2.1, h.2.2.2.1, h.2.2.2.2.1, h.2.2.2.2.2.1,
    h.2.2.2.2.2.2⟩

theorem enemyBulletsFilterPhase_cex (s : GState) (h0 : ℚ)
    (h : CexInv h0 s) : CexInv h0 (enemyBulletsFilterPhase s) := by
  rw [enemyBulletsFilterPhase_of_empty s h.2.1]
  exact ⟨h.1, rfl, h.2.2.1, h.2.2.2.1, h.2.2.2.2.1, h.2.2.2.2.2.1,
    h.2.2.2.2.2.2⟩

theorem grenadesPhase_cex (env : Env) (dt : ℚ) (s : GState) (h0 : ℚ)
    (h : CexInv h0 s) : CexInv h0 (grenadesPhase env dt s) := by
  rw [grenadesPhase_of_empty env dt s h.2.2.1]
  exact ⟨h.1, h.2.1, rfl, h.2.2.2.1, h.2.2.2.2.1, h.2.2.2.2.2.1,
    h.2.2.2.2.2.2⟩

theorem grenadesFilterPhase_cex (s : GState) (h0 : ℚ)
    (h : CexInv h0 s) : CexInv h0 (grenadesFilterPhase s) := by
  rw [grenadesFilterPhase_of_empty s h.2.2.1]
  exact ⟨h.1, h.2.1, rfl, h.2.2.2.1, h.2.2.2.2.1, h.2.2.2.2.2.1,
    h.2.2.2.2.2.2⟩

theorem contactPhase_cex (env : Env) (s : GState) (h0 : ℚ)
    (h : CexInv h0 s) : CexInv h0 (contactPhase env s) := by
  rw [contactPhase_of_empty env s h.1]
  exact ⟨rfl, h.2.1, h.2.2.1, h.2.2.2.1, h.2.2.2.2.1, h.2.2.2.2.2.1,
    h.2.2.2.2.2.2⟩

/-- Through the mid phases, the C3 bookkeeping facts are preserved. -/
theorem midPhases_cex (env : Env) (dt : ℚ) (inputs : ℕ → Input) (s : GState)
    (h0 : ℚ) (h : CexInv h0 s) : CexInv h0 (midPhases env dt inputs s) := by
  unfold midPhases
  exact pickupsPhase_cex _ _ _ (contactPhase_cex _ _ _
    (bulletsHitPhase_of_empty _ _ _ (bulletsMovePhase_cex _ _ _
      (grenadesFilterPhase_cex _ _ (grenadesPhase_cex _ _ _ _
        (enemyBulletsFilterPhase_cex _ _ (enemyBulletsHitPhase_cex _ _ _
          (enemyBulletsMovePhase_cex _ _ _ (spittersPhase_cex _ _ _ _
            (monstersMovePhase_cex _ _ _ _ (warningsPhase_cex _ _ _ _
              (spawnPhase_cex _ _ _ _
                (playersPhase_cex _ _ _ _ _ h)))))))))))))

-- Claim C10 ------------------------------------------------------------

/-- C10: when `state = GAME_OVER`, `step` is the identity on the entire
game state, for every `dt`, input record and oracle — no player field,
entity collection, timer, counter or flag changes until `handleRestart`
is invoked. -/
theorem game_over_step_identity (env : Env) (dt : ℚ) (inputs : ℕ → Input)
    (s : GState) (h : s.state = Phase.gameOver) :
    step env dt inputs s = s := by
  unfold step
  rw [h]

/-- Witness for C10 at a concrete GAME_OVER state. -/
theorem game_over_step_identity_witness :
    step zeroEnv 5 noInput sC10 = sC10 :=
  game_over_step_identity zeroEnv 5 noInput sC10 rfl

-- Claim C7 -------------------------------------------------------------

/-- C7: the ready entry point (`handleReady`, reached by the "ready"
message) and the legacy `start_round` shop action have identical effect on
every state and player id; in SHOP, for a valid player id, both set exactly
the acting player's side's ready flag and change nothing else. -/
theorem ready_eq_startRound (playerId : ℕ) (s : GState) :
    handleReady playerId s = handleShopAction playerId ShopAction.startRound s
    ∧ (s.state = Phase.shop →
        ∀ p, s.getPlayer playerId = some p →
          handleReady playerId s =
            (if p.side = Side.left then { s with leftReady := true }
             else { s with rightReady := true })) := by
  constructor
  · by_cases hs : s.state = Phase.shop
    · unfold handleReady handleShopAction
      rw [if_neg (by simp [hs])]
    · unfold handleReady handleShopAction
      rw [if_pos (by simp [hs])]
  · intro hs p hgp
    unfold handleReady
    rw [if_neg (by simp [hs]), hgp]

/-- Witness for C7: player 2 readying in a concrete SHOP state sets
exactly the right-side ready flag, through both entry points. -/
theorem ready_eq_startRound_witness :
    handleReady 2 shopState = handleShopAction 2 ShopAction.startRound shopState
    ∧ handleReady 2 shopState = { shopState with rightReady := true } := by
  refine ⟨(ready_eq_startRound 2 shopState).1, ?_⟩
  rw [(ready_eq_startRound 2 shopState).2 rfl shopState.p2 rfl,
    if_neg (by decide)]

-- Claim C3 (corrected) --------------------------------------------------

/-- C3, counterexample to the claim as stated: in this PLAYING state with
`waveLeft = 0.01` the left player's hp is 0, so although the wave-timer
block does enter SHOP at the top of the tick, the end-of-tick game-over
check overwrites it and the tick does not end in SHOP. -/
theorem wave_end_shop_transition_cex :
    sC3.state = Phase.playing ∧ sC3.waveLeft = 1/100
    ∧ (step axisEnv (1/50) noInput sC3).state ≠ Phase.shop := by
  refine ⟨rfl, rfl, ?_⟩
  have hA := wave_end_analysis axisEnv (1/50) noInput sC3 rfl rfl rfl
    (by show (0:ℚ) < 1/100; norm_num) (by show (1:ℚ)/100 ≤ 1/50; norm_num)
  have hstep : step axisEnv (1/50) noInput sC3
      = gameOverPhase (midPhases axisEnv (1/50) noInput
          (waveTimerPhase (1/50) sC3)) := rfl
  have hw := waveTimerPhase_fired_rest (1/50) sC3
    (by show (0:ℚ) < 1/100; norm_num)
    (by show (1:ℚ)/100 - 1/50 ≤ 0; norm_num)
  have hcex0 : CexInv 0 (waveTimerPhase (1/50) sC3) := by
    refine ⟨?_, ?_, ?_, ?_, ?_, hw.1, ?_⟩
    · rw [hw.2.1]; rfl
    · rw [hw.2.2.1]; rfl
    · rw [hw.2.2.2.1]; rfl
    · rw [hw.2.2.2.2.1]; rfl
    · rw [hw.2.2.2.2.2.1]; rfl
    · rw [hw.2.2.2.2.2.2]; rfl
  have hmid := midPhases_cex axisEnv (1/50) noInput (waveTimerPhase (1/50) sC3)
    0 hcex0
  have hp0 : (step axisEnv (1/50) noInput sC3).p1.hp = 0 := by
    rw [hstep]
    rw [show (gameOverPhase (midPhases axisEnv (1/50) noInput
      (waveTimerPhase (1/50) sC3))).p1 = (midPhases axisEnv (1/50) noInput
      (waveTimerPhase (1/50) sC3)).p1 from (gameOverPhase_keeps _).2.2.2.1]
    exact hmid.2.2.2.2.2.2
  have hgo : (step axisEnv (1/50) noInput sC3).state = Phase.gameOver :=
    hA.2.2.2.2.1 (Or.inl (le_of_eq hp0))
  rw [hgo]
  decide

/-- C3 (amended): from `state = PLAYING` with `waveLeft = 0.01`, the step
with `dt = 0.02` unconditionally resets `shopLeft` to the configured shop
duration (18.0) and resets both ready flags to false, and the state
transitions to SHOP provided neither player is dead at the end of the tick
(otherwise the end-of-tick game-over check overwrites the transition). -/
theorem wave_end_shop_transition (env : Env) (inputs : ℕ → Input) (s : GState)
    (hplay : s.state = Phase.playing) (hsl : s.p1.side = Side.left)
    (hsr : s.p2.side = Side.right) (hwl : s.waveLeft = 1/100) :
    (step env (1/50) inputs s).shopLeft = SHOP_TIME
    ∧ (step env (1/50) inputs s).leftReady = false
    ∧ (step env (1/50) inputs s).rightReady = false
    ∧ (0 < (step env (1/50) inputs s).p1.hp →
        0 < (step env (1/50) inputs s).p2.hp →
        (step env (1/50) inputs s).state = Phase.shop) := by
  have h := wave_end_analysis env (1/50) inputs s hplay hsl hsr
    (by rw [hwl]; norm_num) (by rw [hwl]; norm_num)
  exact ⟨h.1, h.2.1, h.2.2.1, h.2.2.2.1⟩

/-- Witness for C3 at a concrete entity-free PLAYING state. -/
theorem wave_end_shop_transition_witness :
    (step axisEnv (1/50) noInput sC3w).shopLeft = SHOP_TIME
    ∧ (step axisEnv (1/50) noInput sC3w).leftReady = false :=
  ⟨(wave_end_shop_transition axisEnv noInput sC3w rfl rfl rfl rfl).1,
   (wave_end_shop_transition axisEnv noInput sC3w rfl rfl rfl rfl).2.1⟩

-- Claim C9 -------------------------------------------------------------

/-- C9: in a PLAYING tick whose wave countdown reaches zero, the SHOP
transition happens at the start of the tick (shop timer and ready flags are
reset in every case), the rest of the tick still executes, and the
end-of-tick game-over check still runs: if either player's hp is 0 at the
end of that same tick the final state is GAME_OVER with the winner
assigned, overwriting the SHOP transition; otherwise the tick ends in
SHOP. -/
theorem wave_end_tick_order (env : Env) (dt : ℚ) (inputs : ℕ → Input)
    (s : GState) (hplay : s.state = Phase.playing)
    (hsl : s.p1.side = Side.left) (hsr : s.p2.side = Side.right)
    (h1 : 0 < s.waveLeft) (h2 : s.waveLeft ≤ dt) :
    (step env dt inputs s).shopLeft = SHOP_TIME
    ∧ (step env dt inputs s).leftReady = false
    ∧ (step env dt inputs s).rightReady = false
    ∧ (0 < (step env dt inputs s).p1.hp → 0 < (step env dt inputs s).p2.hp →
        (step env dt inputs s).state = Phase.shop)
    ∧ ((step env dt inputs s).p1.hp ≤ 0 ∨ (step env dt inputs s).p2.hp ≤ 0 →
        (step env dt inputs s).state = Phase.gameOver)
    ∧ ((step env dt inputs s).p1.hp ≤ 0 → 0 < (step env dt inputs s).p2.hp →
        (step env dt inputs s).winner = some Winner.right)
    ∧ (0 < (step env dt inputs s).p1.hp → (step env dt inputs s).p2.hp ≤ 0 →
        (step env dt inputs s).winner = some Winner.left)
    ∧ ((step env dt inputs s).p1.hp ≤ 0 → (step env dt inputs s).p2.hp ≤ 0 →
        (step env dt inputs s).winner = some Winner.draw) :=
  wave_end_analysis env dt inputs s hplay hsl hsr h1 h2

/-- Witness for C9 at a concrete wave-end PLAYING state. -/
theorem wave_end_tick_order_witness :
    (step axisEnv (1/50) noInput sC9w).shopLeft = SHOP_TIME
    ∧ (step axisEnv (1/50) noInput sC9w).leftReady = false :=
  ⟨(wave_end_tick_order axisEnv (1/50) noInput sC9w rfl rfl rfl
      (by show (0:ℚ) < 1/100; norm_num)
      (by show (1:ℚ)/100 ≤ 1/50; norm_num)).1,
   (wave_end_tick_order axisEnv (1/50) noInput sC9w rfl rfl rfl
      (by show (0:ℚ) < 1/100; norm_num)
      (by show (1:ℚ)/100 ≤ 1/50; norm_num)).2.1⟩

-- Bullet-monster collision glue lemmas --------------------------------

theorem bulletHit_foldl_spec (env : Env) (b : Bullet) (ms : List Monster) :
    ∀ (acc : List Monster) (h : ℕ) (ctx : HitCtx),
      (ms.foldl (bulletHitMonster env b) (acc, h, ctx)).1
          = acc ++ ms.map (bulletHitUpd env b)
      ∧ (ms.foldl (bulletHitMonster env b) (acc, h, ctx)).2.1
          = h + ms.countP (bulletCollides env b) := by
  induction ms with
  | nil => intro acc h ctx; simp
  | cons m rest ih =>
    intro acc h ctx
    rw [List.foldl_cons]
    by_cases h1 : m.isAlive = true
    · by_cases h2 : m.side = b.side
      · by_cases h3 : env.hyp (m.x - b.x) (m.y - b.y) ≤ m.radius + 5
        · have hbc : bulletCollides env b m = true := by
            simp [bulletCollides, h1, h2, h3]
          have hstep : bulletHitMonster env b (acc, h, ctx) m
              = (acc ++ [m.takeDamage b.damage], h + 1,
                 if ¬ (m.takeDamage b.damage).isAlive = true then
                   killRewards env b.ownerId (m.takeDamage b.damage) ctx
                 else ctx) := by
            unfold bulletHitMonster
            dsimp only
            rw [if_neg (by simp [h1]), if_neg (by simp [h2]), if_pos h3]
          rw [hstep]
          obtain ⟨e1, e2⟩ := ih (acc ++ [m.takeDamage b.damage]) (h + 1) _
          constructor
          · rw [e1, List.map_cons, List.append_assoc]
            rw [show bulletHitUpd env b m = m.takeDamage b.damage from by
              unfold bulletHitUpd; rw [if_pos hbc]]
            rfl
          · rw [e2, List.countP_cons, hbc]
            simp only [if_true]
            omega
        · have hbc : bulletCollides env b m = false := by
            simp [bulletCollides, h3]
          have hstep : bulletHitMonster env b (acc, h, ctx) m
              = (acc ++ [m], h, ctx) := by
            unfold bulletHitMonster
            dsimp only
            rw [if_neg (by simp [h1]), if_neg (by simp [h2]), if_neg h3]
          rw [hstep]
          obtain ⟨e1, e2⟩ := ih (acc ++ [m]) h ctx
          constructor
          · rw [e1, List.map_cons, List.append_assoc]
            rw [show bulletHitUpd env b m = m from by
              unfold bulletHitUpd; rw [hbc]; rfl]
            rfl
          · rw [e2, List.countP_cons, hbc]
            simp
      · have hbc : bulletCollides env b m = false := by
          simp [bulletCollides, h2]
        have hstep : bulletHitMonster env b (acc, h, ctx) m
            = (acc ++ [m], h, ctx) := by
          unfold bulletHitMonster
          dsimp only
          rw [if_neg (by simp [h1]), if_pos (by simp [h2])]
        rw [hstep]
        obtain ⟨e1, e2⟩ := ih (acc ++ [m]) h ctx
        constructor
        · rw [e1, List.map_cons, List.append_assoc]
          rw [show bulletHitUpd env b m = m from by
            unfold bulletHitUpd; rw [hbc]; rfl]
          rfl
        · rw [e2, List.countP_cons, hbc]
          simp
    · have hbc : bulletCollides env b m = false := by
        simp [bulletCollides, h1]
      have hstep : bulletHitMonster env b (acc, h, ctx) m
          = (acc ++ [m], h, ctx) := by
        unfold bulletHitMonster
        dsimp only
        rw [if_pos (by simp [h1])]
      rw [hstep]
      obtain ⟨e1, e2⟩ := ih (acc ++ [m]) h ctx
      constructor
      · rw [e1, List.map_cons, List.append_assoc]
        rw [show bulletHitUpd env b m = m from by
          unfold bulletHitUpd; rw [hbc]; rfl]
        rfl
      · rw [e2, List.countP_cons, hbc]
        simp

/-- The outer bullet loop, on a live bullet, damages exactly the colliding
monsters and resolves pierce per the per-tick law. -/
theorem bulletStep_spec (env : Env) (b : Bullet) (ms : List Monster)
    (ctx : HitCtx) (hdead : b.dead = false) :
    bulletStep env (ms, [], ctx) b
      = (ms.map (bulletHitUpd env b),
         [bulletAfterTick b (ms.countP (bulletCollides env b))],
         (ms.foldl (bulletHitMonster env b) ([], 0, ctx)).2.2) := by
  unfold bulletStep
  dsimp only
  rw [if_neg (by simp [hdead])]
  obtain ⟨e1, e2⟩ := bulletHit_foldl_spec env b ms [] 0 ctx
  rw [Prod.mk.injEq, Prod.mk.injEq]
  refine ⟨by rw [e1]; rfl, ?_, rfl⟩
  rw [e2, Nat.zero_add]
  unfold bulletAfterTick
  rfl

theorem pierceRun_le (hs : List ℕ) : ∀ (p : ℤ), 0 ≤ p → (∀ h ∈ hs, h ≤ 1) →
    (pierceRun p hs : ℤ) ≤ p + 1 := by
  induction hs with
  | nil =>
    intro p hp _
    unfold pierceRun
    simpa using by linarith
  | cons h rest ih =>
    intro p hp hh
    unfold pierceRun
    by_cases h0 : h = 0
    · rw [if_pos h0]
      exact ih p hp (fun x hx => hh x (List.mem_cons_of_mem _ hx))
    · rw [if_neg h0]
      have h1 : h = 1 :=
        le_antisymm (hh h (List.mem_cons_self _ _)) (Nat.one_le_iff_ne_zero.mpr h0)
      by_cases hple : p ≤ 0
      · rw [if_pos hple]
        subst h1
        push_cast
        linarith
      · rw [if_neg hple]
        subst h1
        have hrec := ih (p - 1) (by omega)
          (fun x hx => hh x (List.mem_cons_of_mem _ hx))
        push_cast at hrec ⊢
        linarith

-- Claim C2 (corrected) --------------------------------------------------

/-- C2, counterexample to the claim as stated: a knife bullet (pierce 0)
overlapping two monsters damages both of them in a single tick — not
exactly one — before being destroyed. -/
theorem pierce_exhaustion_cex :
    bC2.pierce = 0
    ∧ (bulletStep axisEnv ([mC2a, mC2b], [], ctxC2) bC2).1.map Monster.hp
        = [40, 40]
    ∧ (bulletStep axisEnv ([mC2a, mC2b], [], ctxC2) bC2).2.1
        = [{ bC2 with dead := true }] := by
  have hca : bulletCollides axisEnv bC2 mC2a = true := by
    simp [bulletCollides, Monster.isAlive, mC2a, bC2, mkBullet, axisEnv,
      zeroEnv, axisHyp]
    norm_num
  have hcb : bulletCollides axisEnv bC2 mC2b = true := by
    simp [bulletCollides, Monster.isAlive, mC2b, bC2, mkBullet, axisEnv,
      zeroEnv, axisHyp]
    norm_num
  have hb := bulletStep_spec axisEnv bC2 [mC2a, mC2b] ctxC2 rfl
  refine ⟨rfl, ?_, ?_⟩
  · rw [hb]
    have e1 : bulletHitUpd axisEnv bC2 mC2a = mC2a.takeDamage bC2.damage := by
      unfold bulletHitUpd; rw [if_pos hca]
    have e2 : bulletHitUpd axisEnv bC2 mC2b = mC2b.takeDamage bC2.damage := by
      unfold bulletHitUpd; rw [if_pos hcb]
    show ([mC2a, mC2b].map (bulletHitUpd axisEnv bC2)).map Monster.hp = [40, 40]
    simp only [List.map_cons, List.map_nil, e1, e2]
    norm_num [Monster.takeDamage, mC2a, mC2b, bC2, mkBullet]
  · rw [hb]
    show [bulletAfterTick bC2 ([mC2a, mC2b].countP (bulletCollides axisEnv bC2))]
      = [{ bC2 with dead := true }]
    rw [List.countP_cons, List.countP_cons, List.countP_nil, hca, hcb]
    rfl

/-- C2 (amended): in the bullet–monster collision block, a bullet damages
every living same-side monster within `radius + 5` once in the tick (so a
pierce-0 bullet that overlaps several monsters damages all of them, not
exactly one, before being removed); a bullet that damaged at least one
monster in a tick is destroyed if its pierce was exhausted and otherwise
loses pierce equal to the number of monsters hit that tick; destroyed
bullets are absent from the collection after the phase; and iterating the
per-tick pierce law shows a bullet of pierce N that hits at most one
monster per tick damages at most N + 1 monsters over its lifetime. -/
theorem pierce_exhaustion :
    (∀ env b (ms : List Monster) (ctx : HitCtx), b.dead = false →
        bulletStep env (ms, [], ctx) b
          = (ms.map (bulletHitUpd env b),
             [bulletAfterTick b (ms.countP (bulletCollides env b))],
             (ms.foldl (bulletHitMonster env b) ([], 0, ctx)).2.2))
    ∧ (∀ (b : Bullet) (hits : ℕ), b.pierce ≤ 0 → 0 < hits →
        (bulletAfterTick b hits).dead = true)
    ∧ (∀ (b : Bullet) (hits : ℕ), 0 < b.pierce → 0 < hits →
        (bulletAfterTick b hits).pierce = b.pierce - hits)
    ∧ (∀ env (s : GState), ∀ b' ∈ (bulletsHitPhase env s).bullets,
        b'.dead = false)
    ∧ (∀ (p : ℤ) (hs : List ℕ), 0 ≤ p → (∀ h ∈ hs, h ≤ 1) →
        (pierceRun p hs : ℤ) ≤ p + 1) := by
  refine ⟨fun env b ms ctx h => bulletStep_spec env b ms ctx h, ?_, ?_, ?_, ?_⟩
  · intro b hits hp hh
    unfold bulletAfterTick
    rw [if_pos hh, if_pos hp]
  · intro b hits hp hh
    unfold bulletAfterTick
    rw [if_pos hh, if_neg (by omega)]
  · intro env s b' hb'
    unfold bulletsHitPhase at hb'
    dsimp only at hb'
    have := List.of_mem_filter hb'
    simpa using this
  · exact fun p hs hp hh => pierceRun_le hs p hp hh

/-- Witness for C2 at concrete inputs. -/
theorem pierce_exhaustion_witness :
    (bulletAfterTick bC2 2).dead = true
    ∧ (pierceRun 2 [1, 1, 1, 1] : ℤ) ≤ 2 + 1 :=
  ⟨pierce_exhaustion.2.1 bC2 2 (by decide) (by decide),
   pierce_exhaustion.2.2.2.2 2 [1, 1, 1, 1] (by decide) (by decide)⟩

-- Claim C8 (code bug) ---------------------------------------------------

/-- A monster that the blast does not kill passes through the faithful
step with exactly the collapsed model's damage. -/
theorem grenadeHitMonsterE_ok (env : Env) (g : Grenade) (m : Monster)
    (h : m.isAlive = true → m.side = g.side →
      env.hyp (m.x - g.x) (m.y - g.y) ≤ g.radius →
      0 < m.hp - g.damage
          * (0.6 + 0.6 * (1 - env.hyp (m.x - g.x) (m.y - g.y) / g.radius))) :
    grenadeHitMonsterE env g m = Except.ok (grenadeHitMonster env g m) := by
  unfold grenadeHitMonsterE grenadeHitMonster
  by_cases a1 : ¬ m.isAlive = true
  · rw [if_pos a1, if_pos a1]
  · rw [if_neg a1, if_neg a1]
    by_cases a2 : m.side ≠ g.side
    · rw [if_pos a2, if_pos a2]
    · rw [if_neg a2, if_neg a2]
      by_cases a3 : env.hyp (m.x - g.x) (m.y - g.y) ≤ g.radius
      · rw [if_pos a3, if_pos a3]
        rw [if_neg (not_le.mpr (h (of_not_not a1) (of_not_not a2) a3))]
      · rw [if_neg a3, if_neg a3]

/-- A monster the blast kills makes the faithful step throw: core.js:1134
assigns to the getter-only `isAlive` from strict-mode code. -/
theorem grenadeHitMonsterE_throw (env : Env) (g : Grenade) (m : Monster)
    (ha : m.isAlive = true) (hs : m.side = g.side)
    (hr : env.hyp (m.x - g.x) (m.y - g.y) ≤ g.radius)
    (hk : m.hp - g.damage
        * (0.6 + 0.6 * (1 - env.hyp (m.x - g.x) (m.y - g.y) / g.radius)) ≤ 0) :
    grenadeHitMonsterE env g m = Except.error () := by
  unfold grenadeHitMonsterE
  rw [if_neg (not_not_intro ha), if_neg (not_not_intro hs)]
  rw [if_pos hr]
  rw [if_pos hk]

/-- When no monster in the list is killed, the explosion loop completes
and computes exactly the collapsed map used by the phase functions. -/
theorem grenadeMonstersE_ok (env : Env) (g : Grenade) :
    ∀ ms : List Monster,
      (∀ m ∈ ms, m.isAlive = true → m.side = g.side →
        env.hyp (m.x - g.x) (m.y - g.y) ≤ g.radius →
        0 < m.hp - g.damage
            * (0.6 + 0.6 * (1 - env.hyp (m.x - g.x) (m.y - g.y) / g.radius))) →
      grenadeMonstersE env g ms
        = Except.ok (ms.map (grenadeHitMonster env g)) := by
  intro ms
  induction ms with
  | nil => intro h; rfl
  | cons m ms ih =>
    intro h
    simp only [grenadeMonstersE]
    rw [grenadeHitMonsterE_ok env g m (h m (List.mem_cons_self m ms))]
    dsimp only
    rw [ih (fun x hx => h x (List.mem_cons_of_mem _ hx))]
    rfl

/-- As soon as the loop reaches a monster the blast kills (all earlier
monsters surviving), the `TypeError` aborts it: whatever follows the
killed monster is never examined and the loop's result is the error. -/
theorem grenadeMonstersE_crash (env : Env) (g : Grenade) (m : Monster)
    (post : List Monster) (ha : m.isAlive = true) (hs : m.side = g.side)
    (hr : env.hyp (m.x - g.x) (m.y - g.y) ≤ g.radius)
    (hk : m.hp - g.damage
        * (0.6 + 0.6 * (1 - env.hyp (m.x - g.x) (m.y - g.y) / g.radius)) ≤ 0) :
    ∀ pre : List Monster,
      (∀ x ∈ pre, x.isAlive = true → x.side = g.side →
        env.hyp (x.x - g.x) (x.y - g.y) ≤ g.radius →
        0 < x.hp - g.damage
            * (0.6 + 0.6 * (1 - env.hyp (x.x - g.x) (x.y - g.y) / g.radius))) →
      grenadeMonstersE env g (pre ++ m :: post) = Except.error () := by
  intro pre
  induction pre with
  | nil =>
    intro _
    rw [List.nil_append]
    simp only [grenadeMonstersE]
    rw [grenadeHitMonsterE_throw env g m ha hs hr hk]
  | cons q pre ih =>
    intro h
    rw [List.cons_append]
    simp only [grenadeMonstersE]
    rw [grenadeHitMonsterE_ok env g q (h q (List.mem_cons_self q pre))]
    dsimp only
    rw [ih (fun x hx => h x (List.mem_cons_of_mem _ hx))]

/-- **C8.** Code bug.  core.js:1134 `if (m.hp <= 0) m.isAlive = false;`
assigns to the getter-only `isAlive` accessor from strict-mode class
code, so the assignment throws a `TypeError` the moment the blast kills a
monster.  Faithfully embedded, the explosion's monster loop completes —
and agrees with the non-throwing model used by the phase functions —
exactly when no live same-side in-radius monster is killed; as soon as
one such monster's hp is driven to 0 or below, the loop aborts with the
error regardless of what follows it, so later in-radius monsters take no
damage, the exploded grenade is never culled, and the tick dies.  With
blast damage 100 against 60–67 hp mobs the kill is the normal case, so
the claimed explode-once / damage-all-in-radius / removed-after-the-tick
behaviour is not a property of the program. -/
theorem grenade_blast :
    (∀ (env : Env) (g : Grenade) (ms : List Monster),
        (∀ m ∈ ms, m.isAlive = true → m.side = g.side →
          env.hyp (m.x - g.x) (m.y - g.y) ≤ g.radius →
          0 < m.hp - g.damage
              * (0.6 + 0.6 * (1 - env.hyp (m.x - g.x) (m.y - g.y) / g.radius))) →
        grenadeMonstersE env g ms
          = Except.ok (ms.map (grenadeHitMonster env g)))
    ∧ ∀ (env : Env) (g : Grenade) (m : Monster) (pre post : List Monster),
        (∀ x ∈ pre, x.isAlive = true → x.side = g.side →
          env.hyp (x.x - g.x) (x.y - g.y) ≤ g.radius →
          0 < x.hp - g.damage
              * (0.6 + 0.6 * (1 - env.hyp (x.x - g.x) (x.y - g.y) / g.radius))) →
        m.isAlive = true → m.side = g.side →
        env.hyp (m.x - g.x) (m.y - g.y) ≤ g.radius →
        m.hp - g.damage
            * (0.6 + 0.6 * (1 - env.hyp (m.x - g.x) (m.y - g.y) / g.radius)) ≤ 0 →
        grenadeMonstersE env g (pre ++ m :: post) = Except.error () :=
  ⟨fun env g ms h => grenadeMonstersE_ok env g ms h,
   fun env g m pre post hpre ha hs hr hk =>
     grenadeMonstersE_crash env g m post ha hs hr hk pre hpre⟩

/-- Witness for C8 at concrete inputs: a blast that kills nobody completes
and matches the collapsed model; a blast that kills `mC8k` throws even
though the live in-radius `mC8b` follows it. -/
theorem grenade_blast_witness :
    grenadeMonstersE axisEnv gC8 [mC8w]
      = Except.ok [grenadeHitMonster axisEnv gC8 mC8w]
    ∧ grenadeMonstersE axisEnv gC8 [mC8k, mC8b] = Except.error () :=
  ⟨grenade_blast.1 axisEnv gC8 [mC8w]
      (by
        intro x hx
        rw [List.mem_singleton] at hx
        subst hx
        intro h1 h2 h3
        norm_num [mC8w, gC8, axisEnv, zeroEnv, axisHyp, GRENADE_DAMAGE,
          GRENADE_RADIUS]),
   grenade_blast.2 axisEnv gC8 mC8k [] [mC8b]
      (fun x hx => absurd hx (List.not_mem_nil x))
      (by norm_num [Monster.isAlive, mC8k])
      rfl
      (by norm_num [axisEnv, zeroEnv, axisHyp, mC8k, gC8, GRENADE_RADIUS])
      (by norm_num [axisEnv, zeroEnv, axisHyp, mC8k, gC8, GRENADE_RADIUS,
        GRENADE_DAMAGE])⟩

/-- **C8 counterexample to the spec'd explosion.** A live 50-hp monster at
distance 180 on the grenade's side is killed by the 75 blast damage, so
the faithful loop returns the `TypeError` instead of completing: the live
in-radius monster listed after it is never damaged, the grenade is never
removed, and the spec'd damages-all / removed-after-the-tick behaviour
cannot occur. -/
theorem grenade_blast_cex :
    mC8k.isAlive = true ∧ mC8k.side = gC8.side
    ∧ axisEnv.hyp (mC8k.x - gC8.x) (mC8k.y - gC8.y) ≤ gC8.radius
    ∧ mC8b.isAlive = true ∧ mC8b.side = gC8.side
    ∧ axisEnv.hyp (mC8b.x - gC8.x) (mC8b.y - gC8.y) ≤ gC8.radius
    ∧ grenadeMonstersE axisEnv gC8 [mC8k, mC8b] = Except.error () := by
  refine ⟨?_, rfl, ?_, ?_, rfl, ?_, ?_⟩
  · norm_num [Monster.isAlive, mC8k]
  · norm_num [axisEnv, zeroEnv, axisHyp, mC8k, gC8, GRENADE_RADIUS]
  · norm_num [Monster.isAlive, mC8b]
  · norm_num [axisEnv, zeroEnv, axisHyp, mC8b, gC8, GRENADE_RADIUS]
  · exact grenadeMonstersE_crash axisEnv gC8 mC8k [mC8b]
      (by norm_num [Monster.isAlive, mC8k])
      rfl
      (by norm_num [axisEnv, zeroEnv, axisHyp, mC8k, gC8, GRENADE_RADIUS])
      (by norm_num [axisEnv, zeroEnv, axisHyp, mC8k, gC8, GRENADE_RADIUS,
        GRENADE_DAMAGE])
      []
      (fun x hx => absurd hx (List.not_mem_nil x))

-- Player primitive invariant lemmas ------------------------------------

theorem pcore_refl (p : Player) : PCore p p :=
  ⟨rfl, rfl, rfl, rfl, ⟨rfl, rfl, rfl, rfl⟩⟩

theorem pcore_trans {p q r : Player} (h1 : PCore p q) (h2 : PCore q r) :
    PCore p r := by
  obtain ⟨a1, a2, a3, a4, a5, a6, a7, a8⟩ := h1
  obtain ⟨b1, b2, b3, b4, b5, b6, b7, b8⟩ := h2
  exact ⟨b1.trans a1, b2.trans a2, b3.trans a3, b4.trans a4, b5.trans a5,
    b6.trans a6, b7.trans a7, b8.trans a8⟩

theorem inBoundsP_of_pcore {p q : Player} (h : PCore p q) (hb : inBoundsP p) :
    inBoundsP q := by
  obtain ⟨-, h2, h3, h4, -, -, h7, h8⟩ := h
  unfold inBoundsP pMinX pMaxX at hb ⊢
  rw [h2, h3, h4, h7, h8]
  exact hb

theorem pok_of_pcore {p q : Player} (h : PCore p q) (hhp : q.hp = p.hp)
    (hp : POk p) : POk q := by
  unfold POk at hp ⊢
  rw [hhp, h.2.2.2.2.1]
  exact hp

theorem takeDamage_pcore (p : Player) (a : ℚ) : PCore p (p.takeDamage a) :=
  ⟨rfl, rfl, rfl, rfl, ⟨rfl, rfl, rfl, rfl⟩⟩

theorem takeDamage_gold (p : Player) (a : ℚ) : (p.takeDamage a).gold = p.gold := rfl

theorem pok_takeDamage {p : Player} (h : POk p) {a : ℚ} (ha : 0 ≤ a) :
    POk (p.takeDamage a) := by
  obtain ⟨h0, h1⟩ := h
  unfold Player.takeDamage POk
  dsimp only
  constructor
  · exact le_max_left 0 _
  · exact max_le (h0.trans h1) (by linarith)

theorem heal_pcore (p : Player) (a : ℚ) : PCore p (p.heal a) :=
  ⟨rfl, rfl, rfl, rfl, ⟨rfl, rfl, rfl, rfl⟩⟩

theorem heal_gold (p : Player) (a : ℚ) : (p.heal a).gold = p.gold := rfl

theorem pok_heal {p : Player} (h : POk p) (a : ℚ) : POk (p.heal a) := by
  unfold Player.heal POk clamp
  dsimp only
  constructor
  · exact le_max_left 0 _
  · exact max_le (h.1.trans h.2) (min_le_left _ _)

theorem applyEnrage_pcore (p : Player) (a : ℚ) : PCore p (p.applyEnrage a) :=
  ⟨rfl, rfl, rfl, rfl, ⟨rfl, rfl, rfl, rfl⟩⟩

theorem applyEnrage_hp (p : Player) (a : ℚ) : (p.applyEnrage a).hp = p.hp := rfl

theorem applyEnrage_gold (p : Player) (a : ℚ) : (p.applyEnrage a).gold = p.gold := rfl

theorem update_pcore (p : Player) (dt : ℚ) : PCore p (p.update dt) := by
  unfold PCore
  refine ⟨?_, ?_, ?_, ?_, ⟨?_, ?_, ?_, ?_⟩⟩ <;> simp [Player.update]

theorem update_gold (p : Player) (dt : ℚ) : (p.update dt).gold = p.gold := by
  simp [Player.update]

theorem updateAim_pcore (env : Env) (p : Player) (tx ty : ℚ) :
    PCore p (p.updateAim env tx ty) := by
  unfold PCore
  refine ⟨?_, ?_, ?_, ?_, ⟨?_, ?_, ?_, ?_⟩⟩ <;> simp [Player.updateAim]

theorem updateAim_gold (env : Env) (p : Player) (tx ty : ℚ) :
    (p.updateAim env tx ty).gold = p.gold := by
  simp [Player.updateAim]

theorem shoot_fst_pcore (env : Env) (p : Player) (bid : ℕ) :
    PCore p (p.shoot env bid).1 :=
  ⟨rfl, rfl, rfl, rfl, ⟨rfl, rfl, rfl, rfl⟩⟩

theorem shoot_fst_hp (env : Env) (p : Player) (bid : ℕ) :
    (p.shoot env bid).1.hp = p.hp := rfl

theorem shoot_fst_gold (env : Env) (p : Player) (bid : ℕ) :
    (p.shoot env bid).1.gold = p.gold := rfl

theorem grenadeHitPlayer_pcore (env : Env) (g : Grenade) (p : Player) :
    PCore p (grenadeHitPlayer env g p) := by
  unfold grenadeHitPlayer
  dsimp only
  split_ifs <;> first
  | exact pcore_refl p
  | exact takeDamage_pcore p _

theorem grenadeHitPlayer_gold (env : Env) (g : Grenade) (p : Player) :
    (grenadeHitPlayer env g p).gold = p.gold := by
  unfold grenadeHitPlayer
  dsimp only
  split_ifs <;> rfl

theorem pok_grenadeHitPlayer (env : Env) {g : Grenade} (hr : g.radius = GRENADE_RADIUS)
    (hd : g.damage = GRENADE_DAMAGE) {p : Player} (h : POk p) :
    POk (grenadeHitPlayer env g p) := by
  unfold grenadeHitPlayer
  by_cases h1 : ¬ p.isAlive = true
  · rw [if_pos h1]
    exact h
  · rw [if_neg h1]
    by_cases h2 : p.side ≠ g.side
    · rw [if_pos h2]
      exact h
    · rw [if_neg h2]
      dsimp only
      by_cases h3 : env.hyp (p.x - g.x) (p.y - g.y) ≤ g.radius
      · rw [if_pos h3]
        refine pok_takeDamage h ?_
        rw [hr] at h3
        rw [hr, hd]
        unfold GRENADE_RADIUS at h3 ⊢
        unfold GRENADE_DAMAGE
        have hu : env.hyp (p.x - g.x) (p.y - g.y) / 240 ≤ 1 :=
          (div_le_one (by norm_num)).2 h3
        linarith
      · rw [if_neg h3]
        exact h

-- Per-phase player-preservation lemmas ---------------------------------

theorem movePlayer_pstat (env : Env) (dt : ℚ) (inp : Input) (p : Player) :
    (movePlayer env dt inp p).id = p.id
    ∧ (movePlayer env dt inp p).side = p.side
    ∧ (movePlayer env dt inp p).width = p.width
    ∧ (movePlayer env dt inp p).height = p.height
    ∧ (movePlayer env dt inp p).maxHp = p.maxHp
    ∧ (movePlayer env dt inp p).weaponChosen = p.weaponChosen
    ∧ (movePlayer env dt inp p).hp = p.hp
    ∧ (movePlayer env dt inp p).gold = p.gold := by
  refine ⟨?_, ?_, ?_, ?_, ⟨?_, ?_, ?_, ?_⟩⟩ <;>
    simp [movePlayer, Player.update]

theorem clamp_bounds_aux (q : Player) (hw : q.width = 32) (hh : q.height = 32)
    (x0 y0 : ℚ) :
    inBoundsP { q with
      x := clamp x0
        (if q.side = Side.left then ARENA_PADDING + q.width / 2
         else FENCE_X + ARENA_PADDING + q.width / 2)
        (if q.side = Side.left then FENCE_X - ARENA_PADDING - q.width / 2
         else SCREEN_WIDTH - ARENA_PADDING - q.width / 2),
      y := clamp y0 (ARENA_PADDING + q.height / 2)
        (SCREEN_HEIGHT - ARENA_PADDING - q.height / 2) } := by
  unfold inBoundsP pMinX pMaxX
  dsimp only
  by_cases hs : q.side = Side.left
  · rw [hs]
    simp only [reduceIte]
    have c1 := clamp_mem (x := x0)
      (a := ARENA_PADDING + q.width / 2)
      (b := FENCE_X - ARENA_PADDING - q.width / 2)
      (by rw [hw]; norm_num [ARENA_PADDING, FENCE_X, SCREEN_WIDTH])
    have c2 := clamp_mem (x := y0)
      (a := ARENA_PADDING + q.height / 2)
      (b := SCREEN_HEIGHT - ARENA_PADDING - q.height / 2)
      (by rw [hh]; norm_num [ARENA_PADDING, SCREEN_HEIGHT])
    exact ⟨c1.1, c1.2, c2.1, c2.2⟩
  · simp only [if_neg hs]
    have c1 := clamp_mem (x := x0)
      (a := FENCE_X + ARENA_PADDING + q.width / 2)
      (b := SCREEN_WIDTH - ARENA_PADDING - q.width / 2)
      (by rw [hw]; norm_num [ARENA_PADDING, FENCE_X, SCREEN_WIDTH])
    have c2 := clamp_mem (x := y0)
      (a := ARENA_PADDING + q.height / 2)
      (b := SCREEN_HEIGHT - ARENA_PADDING - q.height / 2)
      (by rw [hh]; norm_num [ARENA_PADDING, SCREEN_HEIGHT])
    exact ⟨c1.1, c1.2, c2.1, c2.2⟩

/-- The movement block clamps the player into its half's padded bounds. -/
theorem movePlayer_bounds (env : Env) (dt : ℚ) (inp : Input) (p : Player)
    (hw : p.width = 32) (hh : p.height = 32) :
    inBoundsP (movePlayer env dt inp p) := by
  unfold movePlayer
  dsimp only
  refine clamp_bounds_aux _ ?_ ?_ _ _
  · split_ifs <;> simp [Player.update, hw]
  · split_ifs <;> simp [Player.update, hh]

-- Target selection ------------------------------------------------------

theorem foldl_none {α β : Type _} (f : Option β → α → Option β) :
    ∀ (l : List α), (∀ a ∈ l, f none a = none) → l.foldl f none = none := by
  intro l
  induction l with
  | nil => intro h; rfl
  | cons x xs ih =>
    intro h
    show (xs.foldl f (f none x)) = none
    rw [h x (List.mem_cons_self x xs)]
    exact ih (fun a ha => h a (List.mem_cons_of_mem _ ha))

/-- With no living monster on `side`, `nearestMonster side` is `none`. -/
theorem noTarget_nearest {s : GState} {side : Side}
    (h : ∀ m ∈ s.monsters, ¬(m.isAlive = true ∧ m.side = side)) :
    s.nearestMonster side = none := by
  unfold GState.nearestMonster
  cases hps : s.playerOnSide side with
  | none => rfl
  | some p =>
    dsimp only
    refine Option.map_eq_none'.mpr (foldl_none _ _ ?_)
    intro m hm
    dsimp only
    by_cases h1 : m.isAlive = true
    · rw [if_neg (not_not_intro h1)]
      rw [if_pos (fun hs => h m hm ⟨h1, hs⟩)]
    · rw [if_pos h1]

/-- Aim-and-fire facts for one player: the player's invariant-relevant
fields are unchanged, the bullet-id counter never decreases, any spawned
bullet carries the shooter's id and the fresh bullet id, and with no
target nothing is spawned. -/
theorem aimShoot_spec (env : Env) (s : GState) (p : Player) :
    PCore p (aimShoot env s p).1
    ∧ (aimShoot env s p).1.hp = p.hp
    ∧ (aimShoot env s p).1.gold = p.gold
    ∧ s.nextBulletId ≤ (aimShoot env s p).2.2
    ∧ (∀ b ∈ (aimShoot env s p).2.1.toList,
        b.ownerId = p.id ∧ b.id = s.nextBulletId
        ∧ (aimShoot env s p).2.2 = s.nextBulletId + 1)
    ∧ (s.nearestMonster p.side = none →
        (aimShoot env s p).2.1 = none ∧ (aimShoot env s p).2.2 = s.nextBulletId) := by
  unfold aimShoot
  cases hnm : s.nearestMonster p.side with
  | none =>
    dsimp only
    refine ⟨updateAim_pcore env p _ _, updateAim_hp env p _ _,
      updateAim_gold env p _ _, le_refl _, ?_, fun _ => ⟨rfl, rfl⟩⟩
    intro b hb
    simp at hb
  | some tgt =>
    dsimp only
    by_cases hcs : (p.updateAim env tgt.x tgt.y).canShoot = true
    · rw [if_pos hcs]
      dsimp only
      refine ⟨pcore_trans (updateAim_pcore env p tgt.x tgt.y)
          (shoot_fst_pcore env _ _), ?_, ?_, Nat.le_succ _, ?_, ?_⟩
      · rw [shoot_fst_hp, updateAim_hp]
      · rw [shoot_fst_gold, updateAim_gold]
      · intro b hb
        simp only [Option.toList_some, List.mem_singleton] at hb
        subst hb
        exact ⟨(updateAim_pcore env p tgt.x tgt.y).1, rfl, rfl⟩
      · intro hnone
        exact absurd hnone (by simp)
    · rw [if_neg hcs]
      dsimp only
      refine ⟨updateAim_pcore env p _ _, updateAim_hp env p _ _,
        updateAim_gold env p _ _, le_refl _, ?_, fun _ => ⟨rfl, rfl⟩⟩
      intro b hb
      simp at hb

/-- Full effect summary of the player loop: both players keep their
invariant-relevant fields (and get clamped into bounds when their sprite
has the standard 32x32 size), the non-bullet collections and the phase
fields are untouched, the bullet-id counter never decreases, and the
bullets list grows by at most one fresh bullet per player, each carrying
its shooter's id and a fresh bullet id; a player with no living monster
on their side contributes no bullet. -/
theorem playersPhase_spec (env : Env) (dt : ℚ) (inputs : ℕ → Input) (s : GState) :
    ((playersPhase env dt inputs s).p1.id = s.p1.id
      ∧ (playersPhase env dt inputs s).p1.side = s.p1.side
      ∧ (playersPhase env dt inputs s).p1.width = s.p1.width
      ∧ (playersPhase env dt inputs s).p1.height = s.p1.height
      ∧ (playersPhase env dt inputs s).p1.maxHp = s.p1.maxHp
      ∧ (playersPhase env dt inputs s).p1.weaponChosen = s.p1.weaponChosen
      ∧ (playersPhase env dt inputs s).p1.hp = s.p1.hp
      ∧ (playersPhase env dt inputs s).p1.gold = s.p1.gold)
    ∧ ((playersPhase env dt inputs s).p2.id = s.p2.id
      ∧ (playersPhase env dt inputs s).p2.side = s.p2.side
      ∧ (playersPhase env dt inputs s).p2.width = s.p2.width
      ∧ (playersPhase env dt inputs s).p2.height = s.p2.height
      ∧ (playersPhase env dt inputs s).p2.maxHp = s.p2.maxHp
      ∧ (playersPhase env dt inputs s).p2.weaponChosen = s.p2.weaponChosen
      ∧ (playersPhase env dt inputs s).p2.hp = s.p2.hp
      ∧ (playersPhase env dt inputs s).p2.gold = s.p2.gold)
    ∧ (s.p1.width = 32 → s.p1.height = 32 → inBoundsP (playersPhase env dt inputs s).p1)
    ∧ (s.p2.width = 32 → s.p2.height = 32 → inBoundsP (playersPhase env dt inputs s).p2)
    ∧ (playersPhase env dt inputs s).monsters = s.monsters
    ∧ (playersPhase env dt inputs s).enemyBullets = s.enemyBullets
    ∧ (playersPhase env dt inputs s).grenades = s.grenades
    ∧ (playersPhase env dt inputs s).goldDrops = s.goldDrops
    ∧ (playersPhase env dt inputs s).hearts = s.hearts
    ∧ (playersPhase env dt inputs s).greenPotions = s.greenPotions
    ∧ (playersPhase env dt inputs s).spawnWarnings = s.spawnWarnings
    ∧ (playersPhase env dt inputs s).state = s.state
    ∧ (playersPhase env dt inputs s).waveLeft = s.waveLeft
    ∧ s.nextBulletId ≤ (playersPhase env dt inputs s).nextBulletId
    ∧ ∃ nb1 nb2 : List Bullet,
        (playersPhase env dt inputs s).bullets = s.bullets ++ nb1 ++ nb2
        ∧ (∀ b ∈ nb1, b.ownerId = s.p1.id ∧ s.nextBulletId ≤ b.id
            ∧ b.id < (playersPhase env dt inputs s).nextBulletId)
        ∧ (∀ b ∈ nb2, b.ownerId = s.p2.id ∧ s.nextBulletId ≤ b.id
            ∧ b.id < (playersPhase env dt inputs s).nextBulletId)
        ∧ ((∀ m ∈ s.monsters, ¬(m.isAlive = true ∧ m.side = s.p1.side)) → nb1 = [])
        ∧ ((∀ m ∈ s.monsters, ¬(m.isAlive = true ∧ m.side = s.p2.side)) → nb2 = []) := by
  set S1 : GState := { s with p1 := movePlayer env dt (inputs s.p1.id) s.p1 } with hS1
  set S2 : GState := { S1 with p1 := (aimShoot env S1 S1.p1).1,
                               bullets := S1.bullets
                                 ++ (aimShoot env S1 S1.p1).2.1.toList,
                               nextBulletId := (aimShoot env S1 S1.p1).2.2 }
    with hS2
  set S3 : GState := { S2 with p2 := movePlayer env dt (inputs S2.p2.id) S2.p2 } with hS3
  have e1 := aimShoot_spec env S1 S1.p1
  have e2 := aimShoot_spec env S3 S3.p2
  have m1 := movePlayer_pstat env dt (inputs s.p1.id) s.p1
  have m2 := movePlayer_pstat env dt (inputs S2.p2.id) S2.p2
  refine ⟨⟨(e1.1.1).trans m1.1, (e1.1.2.1).trans m1.2.1,
      (e1.1.2.2.1).trans m1.2.2.1, (e1.1.2.2.2.1).trans m1.2.2.2.1,
      (e1.1.2.2.2.2.1).trans m1.2.2.2.2.1,
      (e1.1.2.2.2.2.2.1).trans m1.2.2.2.2.2.1,
      (e1.2.1).trans m1.2.2.2.2.2.2.1, (e1.2.2.1).trans m1.2.2.2.2.2.2.2⟩,
    ⟨(e2.1.1).trans m2.1, (e2.1.2.1).trans m2.2.1,
      (e2.1.2.2.1).trans m2.2.2.1, (e2.1.2.2.2.1).trans m2.2.2.2.1,
      (e2.1.2.2.2.2.1).trans m2.2.2.2.2.1,
      (e2.1.2.2.2.2.2.1).trans m2.2.2.2.2.2.1,
      (e2.2.1).trans m2.2.2.2.2.2.2.1, (e2.2.2.1).trans m2.2.2.2.2.2.2.2⟩,
    ?_, ?_, rfl, rfl, rfl, rfl, ⟨rfl, rfl, rfl, rfl, rfl, ?_, ?_⟩⟩
  · intro hw hh
    exact inBoundsP_of_pcore e1.1
      (movePlayer_bounds env dt (inputs s.p1.id) s.p1 hw hh)
  · intro hw hh
    exact inBoundsP_of_pcore e2.1
      (movePlayer_bounds env dt (inputs S2.p2.id) S2.p2 hw hh)
  · have q1 : S1.nextBulletId ≤ (aimShoot env S1 S1.p1).2.2 := e1.2.2.2.1
    have q2 : S1.nextBulletId = s.nextBulletId := rfl
    have q3 : S3.nextBulletId = (aimShoot env S1 S1.p1).2.2 := rfl
    have q4 : S3.nextBulletId ≤ (aimShoot env S3 S3.p2).2.2 := e2.2.2.2.1
    have q5 : (playersPhase env dt inputs s).nextBulletId
        = (aimShoot env S3 S3.p2).2.2 := rfl
    omega
  · refine ⟨(aimShoot env S1 S1.p1).2.1.toList,
      (aimShoot env S3 S3.p2).2.1.toList, rfl, ?_, ?_, ?_, ?_⟩
    · intro b hb
      obtain ⟨ho, hid, hnxt⟩ := e1.2.2.2.2.1 b hb
      have q1 : b.id = S1.nextBulletId := hid
      have q2 : S1.nextBulletId = s.nextBulletId := rfl
      have q3 : (aimShoot env S1 S1.p1).2.2 = S1.nextBulletId + 1 := hnxt
      have q4 : S3.nextBulletId = (aimShoot env S1 S1.p1).2.2 := rfl
      have q5 : S3.nextBulletId ≤ (aimShoot env S3 S3.p2).2.2 := e2.2.2.2.1
      have q6 : (playersPhase env dt inputs s).nextBulletId
          = (aimShoot env S3 S3.p2).2.2 := rfl
      exact ⟨ho.trans m1.1, by omega, by omega⟩
    · intro b hb
      obtain ⟨ho, hid, hnxt⟩ := e2.2.2.2.2.1 b hb
      have q1 : b.id = S3.nextBulletId := hid
      have q2 : S1.nextBulletId = s.nextBulletId := rfl
      have q3 : S1.nextBulletId ≤ (aimShoot env S1 S1.p1).2.2 := e1.2.2.2.1
      have q4 : S3.nextBulletId = (aimShoot env S1 S1.p1).2.2 := rfl
      have q5 : (aimShoot env S3 S3.p2).2.2 = S3.nextBulletId + 1 := hnxt
      have q6 : (playersPhase env dt inputs s).nextBulletId
          = (aimShoot env S3 S3.p2).2.2 := rfl
      exact ⟨ho.trans m2.1, by omega, by omega⟩
    · intro hn
      have hnone : S1.nearestMonster S1.p1.side = none :=
        noTarget_nearest (fun m hm hc => hn m hm ⟨hc.1, hc.2.trans m1.2.1⟩)
      rw [(e1.2.2.2.2.2 hnone).1]
      rfl
    · intro hn
      have hnone : S3.nearestMonster S3.p2.side = none :=
        noTarget_nearest (fun m hm hc => hn m hm ⟨hc.1, hc.2.trans m2.2.1⟩)
      rw [(e2.2.2.2.2.2 hnone).1]
      rfl

-- Spawning block frame lemmas ------------------------------------------

theorem spFrame_rfl {s : GState} : SpFrame s s :=
  ⟨rfl, rfl, rfl, rfl, rfl, ⟨rfl, rfl, rfl, ⟨rfl, rfl, rfl, rfl⟩⟩⟩

theorem spFrame_trans {s t u : GState} (h1 : SpFrame s t) (h2 : SpFrame t u) :
    SpFrame s u := by
  obtain ⟨a1, a2, a3, a4, a5, a6, a7, a8, a9, a10, a11, a12⟩ := h1
  obtain ⟨b1, b2, b3, b4, b5, b6, b7, b8, b9, b10, b11, b12⟩ := h2
  exact ⟨b1.trans a1, b2.trans a2, b3.trans a3, b4.trans a4, b5.trans a5,
    b6.trans a6, b7.trans a7, b8.trans a8, b9.trans a9, b10.trans a10,
    b11.trans a11, b12.trans a12⟩

theorem spawnWarningOnSide_sp (env : Env) (side : Side)
    (ft : Option MonsterType) (s : GState) :
    SpFrame s (spawnWarningOnSide env side ft s) :=
  ⟨rfl, rfl, rfl, rfl, rfl, ⟨rfl, rfl, rfl, ⟨rfl, rfl, rfl, rfl⟩⟩⟩

theorem spawnBaseMonster_sp (env : Env) (side : Side) (s : GState) :
    SpFrame s (spawnBaseMonster env side s) := by
  unfold spawnBaseMonster
  dsimp only
  split_ifs <;>
    exact ⟨rfl, rfl, rfl, rfl, rfl, ⟨rfl, rfl, rfl, ⟨rfl, rfl, rfl, rfl⟩⟩⟩

theorem baselineSpawnLeft_sp (env : Env) (dt : ℚ) (s : GState) :
    SpFrame s (baselineSpawnLeft env dt s) := by
  unfold baselineSpawnLeft
  dsimp only
  split_ifs with h1 h2
  · exact spFrame_trans
      (spFrame_trans spFrame_rfl
        (spawnBaseMonster_sp env Side.left { s with spawnCdLeft := s.spawnCdLeft - dt }))
      ⟨rfl, rfl, rfl, rfl, rfl, ⟨rfl, rfl, rfl, ⟨rfl, rfl, rfl, rfl⟩⟩⟩
  · exact ⟨rfl, rfl, rfl, rfl, rfl, ⟨rfl, rfl, rfl, ⟨rfl, rfl, rfl, rfl⟩⟩⟩
  · exact spFrame_rfl

theorem baselineSpawnRight_sp (env : Env) (dt : ℚ) (s : GState) :
    SpFrame s (baselineSpawnRight env dt s) := by
  unfold baselineSpawnRight
  dsimp only
  split_ifs with h1 h2
  · exact spFrame_trans
      (spFrame_trans spFrame_rfl
        (spawnBaseMonster_sp env Side.right { s with spawnCdRight := s.spawnCdRight - dt }))
      ⟨rfl, rfl, rfl, rfl, rfl, ⟨rfl, rfl, rfl, ⟨rfl, rfl, rfl, rfl⟩⟩⟩
  · exact ⟨rfl, rfl, rfl, rfl, rfl, ⟨rfl, rfl, rfl, ⟨rfl, rfl, rfl, rfl⟩⟩⟩
  · exact spFrame_rfl

theorem spawnExtraForSide_sp (env : Env) (dt : ℚ) (side : Side) (s : GState) :
    SpFrame s (spawnExtraForSide env dt side s) := by
  unfold spawnExtraForSide
  dsimp only
  split_ifs <;> first
  | exact spFrame_rfl
  | exact ⟨rfl, rfl, rfl, rfl, rfl, ⟨rfl, rfl, rfl, ⟨rfl, rfl, rfl, rfl⟩⟩⟩

theorem spawnPhase_sp (env : Env) (dt : ℚ) (s : GState) :
    SpFrame s (spawnPhase env dt s) := by
  unfold spawnPhase
  dsimp only
  split_ifs with h
  · exact spFrame_trans
      (spFrame_trans
        (spFrame_trans (baselineSpawnLeft_sp env dt s)
          (baselineSpawnRight_sp env dt (baselineSpawnLeft env dt s)))
        (spawnExtraForSide_sp env dt Side.left
          (baselineSpawnRight env dt (baselineSpawnLeft env dt s))))
      (spawnExtraForSide_sp env dt Side.right
        (spawnExtraForSide env dt Side.left
          (baselineSpawnRight env dt (baselineSpawnLeft env dt s))))
  · exact spFrame_rfl

-- Warning materialisation ------------------------------------------------

/-- Any monster present after one warning materialises was already there,
or is freshly spawned with positive hp and a legal radius. -/
theorem spawnMonsterFromWarning_mem {env : Env} {w : SpawnWarning} {s : GState}
    {m : Monster} (hm : m ∈ (spawnMonsterFromWarning env w s).monsters) :
    m ∈ s.monsters ∨ (0 < m.hp ∧ (m.radius = 34 ∨ m.radius = 60)) := by
  rcases List.mem_append.mp hm with h | h
  · exact Or.inl h
  · right
    have hmk := List.mem_singleton.mp h
    subst hmk
    refine ⟨?_, ?_⟩
    · show (0:ℚ) < max 10 _
      exact lt_of_lt_of_le (by norm_num) (le_max_left _ _)
    · show (if (SpawnWarning.type w).isBoss then (60:ℚ) else 34) = 34
        ∨ (if (SpawnWarning.type w).isBoss then (60:ℚ) else 34) = 60
      split_ifs with hb
      · exact Or.inr rfl
      · exact Or.inl rfl

theorem warnFold_mem (env : Env) (s0 : GState) :
    ∀ (l : List SpawnWarning) (s : GState),
      (s.p1 = s0.p1 ∧ s.p2 = s0.p2 ∧ s.bullets = s0.bullets
        ∧ s.enemyBullets = s0.enemyBullets ∧ s.grenades = s0.grenades
        ∧ s.goldDrops = s0.goldDrops ∧ s.hearts = s0.hearts
        ∧ s.greenPotions = s0.greenPotions ∧ s.nextBulletId = s0.nextBulletId
        ∧ s.state = s0.state ∧ s.waveLeft = s0.waveLeft
        ∧ (∀ m ∈ s.monsters,
            m ∈ s0.monsters ∨ (0 < m.hp ∧ (m.radius = 34 ∨ m.radius = 60)))) →
      ((l.foldl (fun s' w => spawnMonsterFromWarning env w s') s).p1 = s0.p1
        ∧ (l.foldl (fun s' w => spawnMonsterFromWarning env w s') s).p2 = s0.p2
        ∧ (l.foldl (fun s' w => spawnMonsterFromWarning env w s') s).bullets = s0.bullets
        ∧ (l.foldl (fun s' w => spawnMonsterFromWarning env w s') s).enemyBullets = s0.enemyBullets
        ∧ (l.foldl (fun s' w => spawnMonsterFromWarning env w s') s).grenades = s0.grenades
        ∧ (l.foldl (fun s' w => spawnMonsterFromWarning env w s') s).goldDrops = s0.goldDrops
        ∧ (l.foldl (fun s' w => spawnMonsterFromWarning env w s') s).hearts = s0.hearts
        ∧ (l.foldl (fun s' w => spawnMonsterFromWarning env w s') s).greenPotions = s0.greenPotions
        ∧ (l.foldl (fun s' w => spawnMonsterFromWarning env w s') s).nextBulletId = s0.nextBulletId
        ∧ (l.foldl (fun s' w => spawnMonsterFromWarning env w s') s).state = s0.state
        ∧ (l.foldl (fun s' w => spawnMonsterFromWarning env w s') s).waveLeft = s0.waveLeft
        ∧ (∀ m ∈ (l.foldl (fun s' w => spawnMonsterFromWarning env w s') s).monsters,
            m ∈ s0.monsters ∨ (0 < m.hp ∧ (m.radius = 34 ∨ m.radius = 60)))) := by
  intro l
  induction l with
  | nil => intro s h; exact h
  | cons w ws ih =>
    intro s h
    obtain ⟨h1, h2, h3, h4, h5, h6, h7, h8, h9, h10, h11, h12⟩ := h
    exact ih (spawnMonsterFromWarning env w s)
      ⟨h1, h2, h3, h4, h5, h6, h7, h8, h9, h10, h11,
        fun m hm => (spawnMonsterFromWarning_mem hm).elim
          (fun h' => h12 m h') Or.inr⟩

/-- Effect summary of the warning-countdown block: players, bullets and
the other collections are untouched, and every monster afterwards either
predates the block or is a fresh spawn with positive hp and legal radius. -/
theorem warningsPhase_spec (env : Env) (dt : ℚ) (s : GState) :
    (warningsPhase env dt s).p1 = s.p1 ∧ (warningsPhase env dt s).p2 = s.p2
    ∧ (warningsPhase env dt s).bullets = s.bullets
    ∧ (warningsPhase env dt s).enemyBullets = s.enemyBullets
    ∧ (warningsPhase env dt s).grenades = s.grenades
    ∧ (warningsPhase env dt s).goldDrops = s.goldDrops
    ∧ (warningsPhase env dt s).hearts = s.hearts
    ∧ (warningsPhase env dt s).greenPotions = s.greenPotions
    ∧ (warningsPhase env dt s).nextBulletId = s.nextBulletId
    ∧ (warningsPhase env dt s).state = s.state
    ∧ (warningsPhase env dt s).waveLeft = s.waveLeft
    ∧ (∀ m ∈ (warningsPhase env dt s).monsters,
        m ∈ s.monsters ∨ (0 < m.hp ∧ (m.radius = 34 ∨ m.radius = 60))) := by
  unfold warningsPhase
  dsimp only
  exact warnFold_mem env s _ _
    ⟨rfl, rfl, rfl, rfl, rfl, ⟨rfl, rfl, rfl, ⟨rfl, rfl, rfl,
      fun m hm => Or.inl hm⟩⟩⟩

-- Monster movement ------------------------------------------------------

theorem mclamp_aux (m : Monster) (hr : m.radius = 34 ∨ m.radius = 60)
    (x0 y0 : ℚ) :
    inBoundsM { m with
      x := clamp x0
        (if m.side = Side.left then ARENA_PADDING + m.radius
         else FENCE_X + ARENA_PADDING + m.radius)
        (if m.side = Side.left then FENCE_X - ARENA_PADDING - m.radius
         else SCREEN_WIDTH - ARENA_PADDING - m.radius),
      y := clamp y0 (ARENA_PADDING + m.radius)
        (SCREEN_HEIGHT - ARENA_PADDING - m.radius) } := by
  have hrb : m.radius ≤ 210 := by
    rcases hr with h | h <;> rw [h] <;> norm_num
  unfold inBoundsM mMinX mMaxX
  dsimp only
  by_cases hs : m.side = Side.left
  · rw [hs]
    simp only [reduceIte]
    have c1 := clamp_mem (x := x0) (a := ARENA_PADDING + m.radius)
      (b := FENCE_X - ARENA_PADDING - m.radius)
      (by unfold ARENA_PADDING FENCE_X SCREEN_WIDTH; linarith)
    have c2 := clamp_mem (x := y0) (a := ARENA_PADDING + m.radius)
      (b := SCREEN_HEIGHT - ARENA_PADDING - m.radius)
      (by unfold ARENA_PADDING SCREEN_HEIGHT; linarith)
    exact ⟨c1.1, c1.2, c2.1, c2.2⟩
  · simp only [if_neg hs]
    have c1 := clamp_mem (x := x0) (a := FENCE_X + ARENA_PADDING + m.radius)
      (b := SCREEN_WIDTH - ARENA_PADDING - m.radius)
      (by unfold ARENA_PADDING FENCE_X SCREEN_WIDTH; linarith)
    have c2 := clamp_mem (x := y0) (a := ARENA_PADDING + m.radius)
      (b := SCREEN_HEIGHT - ARENA_PADDING - m.radius)
      (by unfold ARENA_PADDING SCREEN_HEIGHT; linarith)
    exact ⟨c1.1, c1.2, c2.1, c2.2⟩

/-- With both players alive on their respective halves, a living monster
with a legal radius is moved and clamped into its half's padded bounds; its
side, radius and hp are untouched. -/
theorem moveMonster_good (env : Env) (dt : ℚ) (p1 p2 : Player) (m : Monster)
    (hm : 0 < m.hp) (hr : m.radius = 34 ∨ m.radius = 60)
    (h1s : p1.side = Side.left) (h2s : p2.side = Side.right)
    (h1a : 0 < p1.hp) (h2a : 0 < p2.hp) :
    (moveMonster env dt p1 p2 m).side = m.side
    ∧ (moveMonster env dt p1 p2 m).radius = m.radius
    ∧ (moveMonster env dt p1 p2 m).hp = m.hp
    ∧ inBoundsM (moveMonster env dt p1 p2 m) := by
  have halive : m.isAlive = true := decide_eq_true hm
  unfold moveMonster
  rw [if_neg (not_not_intro halive)]
  dsimp only
  by_cases hsl : m.side = Side.left
  · have hc1 : (decide (p1.side = m.side) && p1.isAlive) = true := by
      rw [h1s, hsl]
      simp [Player.isAlive, h1a]
    have hc2 : ¬((decide (p2.side = m.side) && p2.isAlive) = true) := by
      rw [h2s, hsl]
      simp
    rw [if_pos hc1, if_neg hc2, List.append_nil]
    exact ⟨rfl, rfl, rfl, mclamp_aux _ hr _ _⟩
  · have hsr : m.side = Side.right := by
      cases h2 : m.side
      · exact absurd h2 hsl
      · rfl
    have hc1 : ¬((decide (p1.side = m.side) && p1.isAlive) = true) := by
      rw [h1s, hsr]
      simp
    have hc2 : (decide (p2.side = m.side) && p2.isAlive) = true := by
      rw [h2s, hsr]
      simp [Player.isAlive, h2a]
    rw [if_neg hc1, if_pos hc2, List.nil_append]
    exact ⟨rfl, rfl, rfl, mclamp_aux _ hr _ _⟩

/-- Effect summary of the monster-movement block: only the monster list
changes, and afterwards every monster is alive with a legal radius and
sits inside its half's padded bounds. -/
theorem monstersMovePhase_spec (env : Env) (dt : ℚ) (s : GState)
    (h1s : s.p1.side = Side.left) (h2s : s.p2.side = Side.right)
    (h1a : 0 < s.p1.hp) (h2a : 0 < s.p2.hp)
    (hms : ∀ m ∈ s.monsters, 0 < m.hp ∧ (m.radius = 34 ∨ m.radius = 60)) :
    (monstersMovePhase env dt s).p1 = s.p1
    ∧ (monstersMovePhase env dt s).p2 = s.p2
    ∧ (monstersMovePhase env dt s).bullets = s.bullets
    ∧ (monstersMovePhase env dt s).enemyBullets = s.enemyBullets
    ∧ (monstersMovePhase env dt s).grenades = s.grenades
    ∧ (monstersMovePhase env dt s).goldDrops = s.goldDrops
    ∧ (monstersMovePhase env dt s).hearts = s.hearts
    ∧ (monstersMovePhase env dt s).greenPotions = s.greenPotions
    ∧ (monstersMovePhase env dt s).nextBulletId = s.nextBulletId
    ∧ (monstersMovePhase env dt s).state = s.state
    ∧ (monstersMovePhase env dt s).waveLeft = s.waveLeft
    ∧ ∀ m ∈ (monstersMovePhase env dt s).monsters,
        0 < m.hp ∧ (m.radius = 34 ∨ m.radius = 60) ∧ inBoundsM m := by
  refine ⟨rfl, rfl, rfl, rfl, rfl, ⟨rfl, rfl, rfl, ⟨rfl, rfl, rfl, ?_⟩⟩⟩
  intro mv hmv
  obtain ⟨m, hm, he⟩ := List.mem_map.mp hmv
  obtain ⟨hmh, hmr⟩ := hms m hm
  obtain ⟨e1, e2, e3, e4⟩ :=
    moveMonster_good env dt s.p1 s.p2 m hmh hmr h1s h2s h1a h2a
  subst he
  refine ⟨by rw [e3]; exact hmh, by rw [e2]; exact hmr, e4⟩

-- Spitters ---------------------------------------------------------------

/-- One spitter iteration appends the processed monster (with only its shot
timer possibly changed) and possibly one blob with the configured damage. -/
theorem spitterStep_mem (env : Env) (dt : ℚ) (p1 p2 : Player)
    (ms : List Monster) (ebs : List EnemyBullet) (nid : ℕ) (m : Monster) :
    (∀ m' ∈ (spitterStep env dt p1 p2 (ms, ebs, nid) m).1,
        m' ∈ ms ∨ (m'.side = m.side ∧ m'.radius = m.radius ∧ m'.x = m.x
          ∧ m'.y = m.y ∧ m'.hp = m.hp))
    ∧ (∀ e ∈ (spitterStep env dt p1 p2 (ms, ebs, nid) m).2.1,
        e ∈ ebs ∨ e.damage = SPITTER_PROJECTILE_DAMAGE) := by
  unfold spitterStep
  dsimp only
  split_ifs
  all_goals try simp only [List.cons_append, List.nil_append]
  all_goals try dsimp only
  all_goals try split_ifs
  all_goals
    refine ⟨fun m' hm' => (List.mem_append.mp hm').elim Or.inl
        (fun h => Or.inr (by rw [List.mem_singleton.mp h]
                             exact ⟨rfl, rfl, rfl, rfl, rfl⟩)),
      fun e he => ?_⟩
  all_goals
    first
      | exact Or.inl he
      | exact (List.mem_append.mp he).elim Or.inl
          (fun h => Or.inr (by rw [List.mem_singleton.mp h]))

/-- Effect summary of the spitter block: players and the other collections
are untouched, the monster facts (alive, legal radius, in bounds) are
preserved, and enemy bullets are the old ones plus spitter blobs with
nonnegative damage. -/
theorem spittersPhase_spec (env : Env) (dt : ℚ) (s : GState)
    (hms : ∀ m ∈ s.monsters, 0 < m.hp ∧ (m.radius = 34 ∨ m.radius = 60) ∧ inBoundsM m)
    (hebs : ∀ e ∈ s.enemyBullets, 0 ≤ e.damage) :
    (spittersPhase env dt s).p1 = s.p1
    ∧ (spittersPhase env dt s).p2 = s.p2
    ∧ (spittersPhase env dt s).bullets = s.bullets
    ∧ (spittersPhase env dt s).grenades = s.grenades
    ∧ (spittersPhase env dt s).goldDrops = s.goldDrops
    ∧ (spittersPhase env dt s).hearts = s.hearts
    ∧ (spittersPhase env dt s).greenPotions = s.greenPotions
    ∧ (spittersPhase env dt s).nextBulletId = s.nextBulletId
    ∧ (spittersPhase env dt s).state = s.state
    ∧ (spittersPhase env dt s).waveLeft = s.waveLeft
    ∧ (∀ m ∈ (spittersPhase env dt s).monsters,
        0 < m.hp ∧ (m.radius = 34 ∨ m.radius = 60) ∧ inBoundsM m)
    ∧ (∀ e ∈ (spittersPhase env dt s).enemyBullets, 0 ≤ e.damage) := by
  have key := foldl_preserve
    (P := fun acc : List Monster × List EnemyBullet × ℕ =>
      (∀ m' ∈ acc.1, 0 < m'.hp ∧ (m'.radius = 34 ∨ m'.radius = 60) ∧ inBoundsM m')
      ∧ (∀ e ∈ acc.2.1, 0 ≤ e.damage))
    (f := spitterStep env dt s.p1 s.p2) (l := s.monsters)
    (b := (([] : List Monster), ([] : List EnemyBullet), s.nextEnemyBulletId))
    (fun acc m hm hacc => by
      obtain ⟨ms, ebs, nid⟩ := acc
      obtain ⟨k1, k2⟩ := spitterStep_mem env dt s.p1 s.p2 ms ebs nid m
      refine ⟨fun m' hm' => ?_, fun e he => ?_⟩
      · rcases k1 m' hm' with h | h
        · exact hacc.1 m' h
        · obtain ⟨e1, e2, e3, e4, e5⟩ := h
          obtain ⟨q1, q2, q3⟩ := hms m hm
          refine ⟨by rw [e5]; exact q1, by rw [e2]; exact q2, ?_⟩
          unfold inBoundsM mMinX mMaxX at q3 ⊢
          rw [e1, e2, e3, e4]
          exact q3
      · rcases k2 e he with h | h
        · exact hacc.2 e h
        · rw [h]
          unfold SPITTER_PROJECTILE_DAMAGE
          norm_num)
    ⟨fun m' hm' => absurd hm' (List.not_mem_nil m'),
      fun e he => absurd he (List.not_mem_nil e)⟩
  refine ⟨rfl, rfl, rfl, rfl, rfl, ⟨rfl, rfl, rfl, rfl, rfl,
    fun m hm => key.1 m hm, fun e he => ?_⟩⟩
  rcases List.mem_append.mp he with h | h
  · exact hebs e h
  · exact key.2 e h

-- Enemy bullets ----------------------------------------------------------

/-- Enemy-bullet integration: damage is preserved per bullet; everything
else is untouched. -/
theorem enemyBulletsMovePhase_spec (dt : ℚ) (s : GState)
    (hebs : ∀ e ∈ s.enemyBullets, 0 ≤ e.damage) :
    (enemyBulletsMovePhase dt s).p1 = s.p1
    ∧ (enemyBulletsMovePhase dt s).p2 = s.p2
    ∧ (enemyBulletsMovePhase dt s).monsters = s.monsters
    ∧ (enemyBulletsMovePhase dt s).bullets = s.bullets
    ∧ (enemyBulletsMovePhase dt s).grenades = s.grenades
    ∧ (enemyBulletsMovePhase dt s).goldDrops = s.goldDrops
    ∧ (enemyBulletsMovePhase dt s).hearts = s.hearts
    ∧ (enemyBulletsMovePhase dt s).greenPotions = s.greenPotions
    ∧ (enemyBulletsMovePhase dt s).nextBulletId = s.nextBulletId
    ∧ (enemyBulletsMovePhase dt s).state = s.state
    ∧ (enemyBulletsMovePhase dt s).waveLeft = s.waveLeft
    ∧ ∀ e ∈ (enemyBulletsMovePhase dt s).enemyBullets, 0 ≤ e.damage := by
  refine ⟨rfl, rfl, rfl, rfl, rfl, ⟨rfl, rfl, rfl, ⟨rfl, rfl, rfl, ?_⟩⟩⟩
  intro e he
  obtain ⟨e0, he0, heq⟩ := List.mem_map.mp he
  subst heq
  exact hebs e0 he0

/-- One enemy-bullet-versus-players iteration: each player keeps their
invariant fields and hp range (blob damage is nonnegative), gold is
untouched, and the output bullets keep their damage. -/
theorem enemyBulletHit_step (env : Env) (p1 p2 : Player)
    (out : List EnemyBullet) (eb : EnemyBullet) (hd : 0 ≤ eb.damage)
    (h1 : POk p1) (h2 : POk p2) :
    PCore p1 (enemyBulletHit env (p1, p2, out) eb).1
    ∧ (enemyBulletHit env (p1, p2, out) eb).1.gold = p1.gold
    ∧ POk (enemyBulletHit env (p1, p2, out) eb).1
    ∧ PCore p2 (enemyBulletHit env (p1, p2, out) eb).2.1
    ∧ (enemyBulletHit env (p1, p2, out) eb).2.1.gold = p2.gold
    ∧ POk (enemyBulletHit env (p1, p2, out) eb).2.1
    ∧ ∀ e ∈ (enemyBulletHit env (p1, p2, out) eb).2.2,
        e ∈ out ∨ e.damage = eb.damage := by
  unfold enemyBulletHit
  dsimp only
  split_ifs with a1 a2 a3
  · exact ⟨pcore_refl _, rfl, h1, pcore_refl _, rfl, h2,
      fun e he => (List.mem_append.mp he).elim Or.inl
        (fun h => Or.inr (by rw [List.mem_singleton.mp h]))⟩
  · exact ⟨takeDamage_pcore _ _, rfl, pok_takeDamage h1 hd, pcore_refl _, rfl,
      h2, fun e he => (List.mem_append.mp he).elim Or.inl
        (fun h => Or.inr (by rw [List.mem_singleton.mp h]))⟩
  · exact ⟨pcore_refl _, rfl, h1, takeDamage_pcore _ _, rfl,
      pok_takeDamage h2 hd,
      fun e he => (List.mem_append.mp he).elim Or.inl
        (fun h => Or.inr (by rw [List.mem_singleton.mp h]))⟩
  · exact ⟨pcore_refl _, rfl, h1, pcore_refl _, rfl, h2,
      fun e he => (List.mem_append.mp he).elim Or.inl
        (fun h => Or.inr (by rw [List.mem_singleton.mp h]))⟩

/-- Effect summary of the enemy-bullet collision block. -/
theorem enemyBulletsHitPhase_spec (env : Env) (s : GState)
    (h1 : POk s.p1) (h2 : POk s.p2)
    (hebs : ∀ e ∈ s.enemyBullets, 0 ≤ e.damage) :
    PCore s.p1 (enemyBulletsHitPhase env s).p1
    ∧ (enemyBulletsHitPhase env s).p1.gold = s.p1.gold
    ∧ POk (enemyBulletsHitPhase env s).p1
    ∧ PCore s.p2 (enemyBulletsHitPhase env s).p2
    ∧ (enemyBulletsHitPhase env s).p2.gold = s.p2.gold
    ∧ POk (enemyBulletsHitPhase env s).p2
    ∧ (∀ e ∈ (enemyBulletsHitPhase env s).enemyBullets, 0 ≤ e.damage)
    ∧ (enemyBulletsHitPhase env s).monsters = s.monsters
    ∧ (enemyBulletsHitPhase env s).bullets = s.bullets
    ∧ (enemyBulletsHitPhase env s).grenades = s.grenades
    ∧ (enemyBulletsHitPhase env s).goldDrops = s.goldDrops
    ∧ (enemyBulletsHitPhase env s).hearts = s.hearts
    ∧ (enemyBulletsHitPhase env s).greenPotions = s.greenPotions
    ∧ (enemyBulletsHitPhase env s).nextBulletId = s.nextBulletId
    ∧ (enemyBulletsHitPhase env s).state = s.state
    ∧ (enemyBulletsHitPhase env s).waveLeft = s.waveLeft := by
  have key := foldl_preserve
    (P := fun acc : Player × Player × List EnemyBullet =>
      PCore s.p1 acc.1 ∧ acc.1.gold = s.p1.gold ∧ POk acc.1
      ∧ PCore s.p2 acc.2.1 ∧ acc.2.1.gold = s.p2.gold ∧ POk acc.2.1
      ∧ ∀ e ∈ acc.2.2, 0 ≤ e.damage)
    (f := enemyBulletHit env) (l := s.enemyBullets)
    (b := (s.p1, s.p2, ([] : List EnemyBullet)))
    (fun acc eb heb hacc => by
      obtain ⟨q1, q2, q3⟩ := acc
      obtain ⟨k1, k2, k3, k4, k5, k6, k7⟩ :=
        enemyBulletHit_step env q1 q2 q3 eb (hebs eb heb) hacc.2.2.1
          hacc.2.2.2.2.2.1
      refine ⟨pcore_trans hacc.1 k1, k2.trans hacc.2.1, k3,
        pcore_trans hacc.2.2.2.1 k4, k5.trans hacc.2.2.2.2.1, k6,
        fun e he => ?_⟩
      rcases k7 e he with h | h
      · exact hacc.2.2.2.2.2.2 e h
      · rw [h]
        exact hebs eb heb)
    ⟨pcore_refl _, rfl, h1, pcore_refl _, rfl, h2,
      fun e he => absurd he (List.not_mem_nil e)⟩
  exact ⟨key.1, key.2.1, key.2.2.1, key.2.2.2.1, key.2.2.2.2.1,
    key.2.2.2.2.2.1, key.2.2.2.2.2.2, rfl, rfl, rfl, rfl, ⟨rfl, rfl, rfl,
    rfl, rfl⟩⟩

/-- The enemy-bullet cull keeps a sublist; everything else is untouched. -/
theorem enemyBulletsFilterPhase_spec (s : GState) :
    (enemyBulletsFilterPhase s).p1 = s.p1
    ∧ (enemyBulletsFilterPhase s).p2 = s.p2
    ∧ (enemyBulletsFilterPhase s).monsters = s.monsters
    ∧ (enemyBulletsFilterPhase s).bullets = s.bullets
    ∧ (enemyBulletsFilterPhase s).grenades = s.grenades
    ∧ (enemyBulletsFilterPhase s).goldDrops = s.goldDrops
    ∧ (enemyBulletsFilterPhase s).hearts = s.hearts
    ∧ (enemyBulletsFilterPhase s).greenPotions = s.greenPotions
    ∧ (enemyBulletsFilterPhase s).nextBulletId = s.nextBulletId
    ∧ (enemyBulletsFilterPhase s).state = s.state
    ∧ (enemyBulletsFilterPhase s).waveLeft = s.waveLeft
    ∧ ∀ e ∈ (enemyBulletsFilterPhase s).enemyBullets, e ∈ s.enemyBullets := by
  refine ⟨rfl, rfl, rfl, rfl, rfl, ⟨rfl, rfl, rfl, ⟨rfl, rfl, rfl, ?_⟩⟩⟩
  intro e he
  exact List.mem_of_mem_filter he

-- Grenades ---------------------------------------------------------------

theorem grenadeHitMonster_frame (env : Env) (g : Grenade) (m : Monster) :
    (grenadeHitMonster env g m).side = m.side
    ∧ (grenadeHitMonster env g m).radius = m.radius
    ∧ (grenadeHitMonster env g m).x = m.x
    ∧ (grenadeHitMonster env g m).y = m.y := by
  unfold grenadeHitMonster
  dsimp only
  split_ifs <;> exact ⟨rfl, rfl, rfl, rfl⟩

/-- One grenade iteration: the players keep their invariant fields and hp
range (explosion damage to a player is nonnegative for a configured
grenade), monsters keep side, radius and position, and the grenade is
re-emitted with its stats intact. -/
theorem grenadeStep_spec (env : Env) (dt : ℚ) (p1 p2 : Player)
    (ms : List Monster) (out : List Grenade) (g : Grenade) (hg : GOk g)
    (h1 : POk p1) (h2 : POk p2) :
    PCore p1 (grenadeStep env dt (p1, p2, ms, out) g).1
    ∧ (grenadeStep env dt (p1, p2, ms, out) g).1.gold = p1.gold
    ∧ POk (grenadeStep env dt (p1, p2, ms, out) g).1
    ∧ PCore p2 (grenadeStep env dt (p1, p2, ms, out) g).2.1
    ∧ (grenadeStep env dt (p1, p2, ms, out) g).2.1.gold = p2.gold
    ∧ POk (grenadeStep env dt (p1, p2, ms, out) g).2.1
    ∧ (∀ m' ∈ (grenadeStep env dt (p1, p2, ms, out) g).2.2.1,
        ∃ m ∈ ms, m'.side = m.side ∧ m'.radius = m.radius
          ∧ m'.x = m.x ∧ m'.y = m.y)
    ∧ (∀ g' ∈ (grenadeStep env dt (p1, p2, ms, out) g).2.2.2,
        g' ∈ out ∨ GOk g') := by
  unfold grenadeStep
  dsimp only
  split_ifs with a1
  · refine ⟨grenadeHitPlayer_pcore env _ p1, grenadeHitPlayer_gold env _ p1,
      pok_grenadeHitPlayer env hg.1 hg.2 h1,
      grenadeHitPlayer_pcore env _ p2, grenadeHitPlayer_gold env _ p2,
      pok_grenadeHitPlayer env hg.1 hg.2 h2, ?_, ?_⟩
    · intro m' hm'
      obtain ⟨m, hm, heq⟩ := List.mem_map.mp hm'
      subst heq
      obtain ⟨f1, f2, f3, f4⟩ := grenadeHitMonster_frame env _ m
      exact ⟨m, hm, f1, f2, f3, f4⟩
    · intro g' hg'
      rcases List.mem_append.mp hg' with h | h
      · exact Or.inl h
      · rw [List.mem_singleton.mp h]
        exact Or.inr ⟨hg.1, hg.2⟩
  · refine ⟨pcore_refl p1, rfl, h1, pcore_refl p2, rfl, h2,
      fun m' hm' => ⟨m', hm', rfl, rfl, rfl, rfl⟩, ?_⟩
    intro g' hg'
    rcases List.mem_append.mp hg' with h | h
    · exact Or.inl h
    · rw [List.mem_singleton.mp h]
      exact Or.inr ⟨hg.1, hg.2⟩

/-- Effect summary of the grenade block. -/
theorem grenadesPhase_spec (env : Env) (dt : ℚ) (s : GState)
    (h1 : POk s.p1) (h2 : POk s.p2)
    (hgren : ∀ g ∈ s.grenades, GOk g)
    (hms : ∀ m ∈ s.monsters, (m.radius = 34 ∨ m.radius = 60) ∧ inBoundsM m) :
    PCore s.p1 (grenadesPhase env dt s).p1
    ∧ (grenadesPhase env dt s).p1.gold = s.p1.gold
    ∧ POk (grenadesPhase env dt s).p1
    ∧ PCore s.p2 (grenadesPhase env dt s).p2
    ∧ (grenadesPhase env dt s).p2.gold = s.p2.gold
    ∧ POk (grenadesPhase env dt s).p2
    ∧ (∀ m ∈ (grenadesPhase env dt s).monsters,
        (m.radius = 34 ∨ m.radius = 60) ∧ inBoundsM m)
    ∧ (∀ g ∈ (grenadesPhase env dt s).grenades, GOk g)
    ∧ (grenadesPhase env dt s).bullets = s.bullets
    ∧ (grenadesPhase env dt s).enemyBullets = s.enemyBullets
    ∧ (grenadesPhase env dt s).goldDrops = s.goldDrops
    ∧ (grenadesPhase env dt s).hearts = s.hearts
    ∧ (grenadesPhase env dt s).greenPotions = s.greenPotions
    ∧ (grenadesPhase env dt s).nextBulletId = s.nextBulletId
    ∧ (grenadesPhase env dt s).state = s.state
    ∧ (grenadesPhase env dt s).waveLeft = s.waveLeft := by
  have key := foldl_preserve
    (P := fun acc : Player × Player × List Monster × List Grenade =>
      PCore s.p1 acc.1 ∧ acc.1.gold = s.p1.gold ∧ POk acc.1
      ∧ PCore s.p2 acc.2.1 ∧ acc.2.1.gold = s.p2.gold ∧ POk acc.2.1
      ∧ (∀ m ∈ acc.2.2.1, (m.radius = 34 ∨ m.radius = 60) ∧ inBoundsM m)
      ∧ ∀ g ∈ acc.2.2.2, GOk g)
    (f := grenadeStep env dt) (l := s.grenades)
    (b := (s.p1, s.p2, s.monsters, ([] : List Grenade)))
    (fun acc g hgmem hacc => by
      obtain ⟨q1, q2, q3, q4⟩ := acc
      obtain ⟨k1, k2, k3, k4, k5, k6, k7, k8⟩ :=
        grenadeStep_spec env dt q1 q2 q3 q4 g (hgren g hgmem)
          hacc.2.2.1 hacc.2.2.2.2.2.1
      refine ⟨pcore_trans hacc.1 k1, k2.trans hacc.2.1, k3,
        pcore_trans hacc.2.2.2.1 k4, k5.trans hacc.2.2.2.2.1, k6,
        fun m' hm' => ?_, fun g' hg' => ?_⟩
      · obtain ⟨m, hm, e1, e2, e3, e4⟩ := k7 m' hm'
        obtain ⟨w1, w2⟩ := hacc.2.2.2.2.2.2.1 m hm
        refine ⟨by rw [e2]; exact w1, ?_⟩
        unfold inBoundsM mMinX mMaxX at w2 ⊢
        rw [e1, e2, e3, e4]
        exact w2
      · rcases k8 g' hg' with h | h
        · exact hacc.2.2.2.2.2.2.2 g' h
        · exact h)
    ⟨pcore_refl _, rfl, h1, pcore_refl _, rfl, h2, hms,
      fun g hg' => absurd hg' (List.not_mem_nil g)⟩
  exact ⟨key.1, key.2.1, key.2.2.1, key.2.2.2.1, key.2.2.2.2.1,
    key.2.2.2.2.2.1, key.2.2.2.2.2.2.1, key.2.2.2.2.2.2.2,
    rfl, rfl, rfl, rfl, ⟨rfl, rfl, rfl, rfl⟩⟩

/-- The exploded-grenade cull keeps a sublist; everything else untouched. -/
theorem grenadesFilterPhase_spec (s : GState) :
    (grenadesFilterPhase s).p1 = s.p1
    ∧ (grenadesFilterPhase s).p2 = s.p2
    ∧ (grenadesFilterPhase s).monsters = s.monsters
    ∧ (grenadesFilterPhase s).bullets = s.bullets
    ∧ (grenadesFilterPhase s).enemyBullets = s.enemyBullets
    ∧ (grenadesFilterPhase s).goldDrops = s.goldDrops
    ∧ (grenadesFilterPhase s).hearts = s.hearts
    ∧ (grenadesFilterPhase s).greenPotions = s.greenPotions
    ∧ (grenadesFilterPhase s).nextBulletId = s.nextBulletId
    ∧ (grenadesFilterPhase s).state = s.state
    ∧ (grenadesFilterPhase s).waveLeft = s.waveLeft
    ∧ ∀ g ∈ (grenadesFilterPhase s).grenades, g ∈ s.grenades := by
  refine ⟨rfl, rfl, rfl, rfl, rfl, ⟨rfl, rfl, rfl, ⟨rfl, rfl, rfl, ?_⟩⟩⟩
  intro g hg
  exact List.mem_of_mem_filter hg

-- Player bullets: integration and culling --------------------------------

/-- Bullet integration/cull: every surviving bullet keeps the id, owner and
pierce of a pre-existing bullet; everything else untouched. -/
theorem bulletsMovePhase_spec (dt : ℚ) (s : GState) :
    (bulletsMovePhase dt s).p1 = s.p1
    ∧ (bulletsMovePhase dt s).p2 = s.p2
    ∧ (bulletsMovePhase dt s).monsters = s.monsters
    ∧ (bulletsMovePhase dt s).enemyBullets = s.enemyBullets
    ∧ (bulletsMovePhase dt s).grenades = s.grenades
    ∧ (bulletsMovePhase dt s).goldDrops = s.goldDrops
    ∧ (bulletsMovePhase dt s).hearts = s.hearts
    ∧ (bulletsMovePhase dt s).greenPotions = s.greenPotions
    ∧ (bulletsMovePhase dt s).nextBulletId = s.nextBulletId
    ∧ (bulletsMovePhase dt s).state = s.state
    ∧ (bulletsMovePhase dt s).waveLeft = s.waveLeft
    ∧ ∀ b ∈ (bulletsMovePhase dt s).bullets,
        ∃ b0 ∈ s.bullets, b.id = b0.id ∧ b.ownerId = b0.ownerId := by
  refine ⟨rfl, rfl, rfl, rfl, rfl, ⟨rfl, rfl, rfl, ⟨rfl, rfl, rfl, ?_⟩⟩⟩
  intro b hb
  have hb' := List.mem_of_mem_filter hb
  obtain ⟨b0, hb0, heq⟩ := List.mem_map.mp hb'
  subst heq
  exact ⟨b0, hb0, rfl, rfl⟩

-- Bullet-monster collisions ----------------------------------------------

/-- Kill credit and loot rolls: the owner only gains kill count and score,
and any new gold drop carries the configured amount. -/
theorem killRewards_spec (env : Env) (oid : ℕ) (m : Monster) (ctx : HitCtx) :
    PCore ctx.p1 (killRewards env oid m ctx).p1
    ∧ (killRewards env oid m ctx).p1.hp = ctx.p1.hp
    ∧ (killRewards env oid m ctx).p1.gold = ctx.p1.gold
    ∧ PCore ctx.p2 (killRewards env oid m ctx).p2
    ∧ (killRewards env oid m ctx).p2.hp = ctx.p2.hp
    ∧ (killRewards env oid m ctx).p2.gold = ctx.p2.gold
    ∧ ∀ g ∈ (killRewards env oid m ctx).goldDrops,
        g ∈ ctx.goldDrops ∨ g.amount = GOLD_PER_PICKUP := by
  unfold killRewards HitCtx.updateOwner
  dsimp only
  split_ifs <;>
    refine ⟨⟨rfl, rfl, rfl, rfl, ⟨rfl, rfl, rfl, rfl⟩⟩, rfl, rfl,
      ⟨rfl, rfl, rfl, rfl, ⟨rfl, rfl, rfl, rfl⟩⟩, rfl, rfl, fun g hg => ?_⟩ <;>
    first
      | exact Or.inl hg
      | exact (List.mem_append.mp hg).elim Or.inl
          (fun h => Or.inr (by rw [List.mem_singleton.mp h]))

/-- One bullet-versus-one-monster iteration: the monster keeps side, radius
and position; the context players keep their fields; gold drops carry the
configured amount. -/
theorem bulletHitMonster_step (env : Env) (b : Bullet) (ms : List Monster)
    (hits : ℕ) (ctx : HitCtx) (m : Monster) :
    (∀ m' ∈ (bulletHitMonster env b (ms, hits, ctx) m).1,
        m' ∈ ms ∨ (m'.side = m.side ∧ m'.radius = m.radius
          ∧ m'.x = m.x ∧ m'.y = m.y))
    ∧ PCore ctx.p1 (bulletHitMonster env b (ms, hits, ctx) m).2.2.p1
    ∧ (bulletHitMonster env b (ms, hits, ctx) m).2.2.p1.hp = ctx.p1.hp
    ∧ (bulletHitMonster env b (ms, hits, ctx) m).2.2.p1.gold = ctx.p1.gold
    ∧ PCore ctx.p2 (bulletHitMonster env b (ms, hits, ctx) m).2.2.p2
    ∧ (bulletHitMonster env b (ms, hits, ctx) m).2.2.p2.hp = ctx.p2.hp
    ∧ (bulletHitMonster env b (ms, hits, ctx) m).2.2.p2.gold = ctx.p2.gold
    ∧ ∀ g ∈ (bulletHitMonster env b (ms, hits, ctx) m).2.2.goldDrops,
        g ∈ ctx.goldDrops ∨ g.amount = GOLD_PER_PICKUP := by
  unfold bulletHitMonster
  dsimp only
  split_ifs
  all_goals
    first
      | exact ⟨fun m' hm' => (List.mem_append.mp hm').elim Or.inl
            (fun h => Or.inr (by rw [List.mem_singleton.mp h]
                                 exact ⟨rfl, rfl, rfl, rfl⟩)),
          pcore_refl _, rfl, rfl, pcore_refl _, rfl, rfl,
          fun g hg => Or.inl hg⟩
      | exact ⟨fun m' hm' => (List.mem_append.mp hm').elim Or.inl
            (fun h => Or.inr (by rw [List.mem_singleton.mp h]
                                 exact ⟨rfl, rfl, rfl, rfl⟩)),
          (killRewards_spec env b.ownerId (m.takeDamage b.damage) ctx).1,
          (killRewards_spec env b.ownerId (m.takeDamage b.damage) ctx).2.1,
          (killRewards_spec env b.ownerId (m.takeDamage b.damage) ctx).2.2.1,
          (killRewards_spec env b.ownerId (m.takeDamage b.damage) ctx).2.2.2.1,
          (killRewards_spec env b.ownerId (m.takeDamage b.damage) ctx).2.2.2.2.1,
          (killRewards_spec env b.ownerId (m.takeDamage b.damage) ctx).2.2.2.2.2.1,
          (killRewards_spec env b.ownerId (m.takeDamage b.damage) ctx).2.2.2.2.2.2⟩

/-- One outer bullet iteration: monsters keep side, radius and position;
the emitted bullet keeps its id and owner; context players and gold drops
behave as in the inner loop. -/
theorem bulletStep_frame (env : Env) (ms : List Monster) (out : List Bullet)
    (ctx : HitCtx) (b : Bullet) :
    (∀ m' ∈ (bulletStep env (ms, out, ctx) b).1,
        ∃ m ∈ ms, m'.side = m.side ∧ m'.radius = m.radius
          ∧ m'.x = m.x ∧ m'.y = m.y)
    ∧ (∀ b' ∈ (bulletStep env (ms, out, ctx) b).2.1,
        b' ∈ out ∨ (b'.id = b.id ∧ b'.ownerId = b.ownerId))
    ∧ PCore ctx.p1 (bulletStep env (ms, out, ctx) b).2.2.p1
    ∧ (bulletStep env (ms, out, ctx) b).2.2.p1.hp = ctx.p1.hp
    ∧ (bulletStep env (ms, out, ctx) b).2.2.p1.gold = ctx.p1.gold
    ∧ PCore ctx.p2 (bulletStep env (ms, out, ctx) b).2.2.p2
    ∧ (bulletStep env (ms, out, ctx) b).2.2.p2.hp = ctx.p2.hp
    ∧ (bulletStep env (ms, out, ctx) b).2.2.p2.gold = ctx.p2.gold
    ∧ ∀ g ∈ (bulletStep env (ms, out, ctx) b).2.2.goldDrops,
        g ∈ ctx.goldDrops ∨ g.amount = GOLD_PER_PICKUP := by
  unfold bulletStep
  dsimp only
  by_cases a1 : b.dead = true
  · rw [if_pos a1]
    exact ⟨fun m' hm' => ⟨m', hm', rfl, rfl, rfl, rfl⟩,
      fun b' hb' => (List.mem_append.mp hb').elim Or.inl
        (fun h => Or.inr (by rw [List.mem_singleton.mp h]
                             exact ⟨rfl, rfl⟩)),
      pcore_refl _, rfl, rfl, pcore_refl _, rfl, rfl, fun g hg => Or.inl hg⟩
  · rw [if_neg a1]
    have key := foldl_preserve
      (P := fun acc2 : List Monster × ℕ × HitCtx =>
        (∀ m' ∈ acc2.1, ∃ m ∈ ms, m'.side = m.side ∧ m'.radius = m.radius
          ∧ m'.x = m.x ∧ m'.y = m.y)
        ∧ PCore ctx.p1 acc2.2.2.p1 ∧ acc2.2.2.p1.hp = ctx.p1.hp
        ∧ acc2.2.2.p1.gold = ctx.p1.gold
        ∧ PCore ctx.p2 acc2.2.2.p2 ∧ acc2.2.2.p2.hp = ctx.p2.hp
        ∧ acc2.2.2.p2.gold = ctx.p2.gold
        ∧ ∀ g ∈ acc2.2.2.goldDrops,
            g ∈ ctx.goldDrops ∨ g.amount = GOLD_PER_PICKUP)
      (f := bulletHitMonster env b) (l := ms)
      (b := (([] : List Monster), 0, ctx))
      (fun acc2 m hm hacc2 => by
        obtain ⟨ms2, hits2, ctx2⟩ := acc2
        obtain ⟨k1, k2, k3, k4, k5, k6, k7, k8⟩ :=
          bulletHitMonster_step env b ms2 hits2 ctx2 m
        refine ⟨fun m' hm' => ?_, pcore_trans hacc2.2.1 k2,
          k3.trans hacc2.2.2.1, k4.trans hacc2.2.2.2.1,
          pcore_trans hacc2.2.2.2.2.1 k5, k6.trans hacc2.2.2.2.2.2.1,
          k7.trans hacc2.2.2.2.2.2.2.1, fun g hg => ?_⟩
        · rcases k1 m' hm' with h | h
          · exact hacc2.1 m' h
          · exact ⟨m, hm, h.1, h.2.1, h.2.2.1, h.2.2.2⟩
        · rcases k8 g hg with h | h
          · exact hacc2.2.2.2.2.2.2.2 g h
          · exact Or.inr h)
      ⟨fun m' hm' => absurd hm' (List.not_mem_nil m'),
        pcore_refl _, rfl, rfl, pcore_refl _, rfl, rfl,
        fun g hg => Or.inl hg⟩
    refine ⟨key.1, fun b' hb' => ?_, key.2.1, key.2.2.1, key.2.2.2.1,
      key.2.2.2.2.1, key.2.2.2.2.2.1, key.2.2.2.2.2.2.1,
      key.2.2.2.2.2.2.2⟩
    rcases List.mem_append.mp hb' with h | h
    · exact Or.inl h
    · rw [List.mem_singleton.mp h]
      refine Or.inr ⟨?_, ?_⟩ <;> first | rfl | (split_ifs <;> rfl)

/-- Effect summary of the bullet-monster collision block. -/
theorem bulletsHitPhase_spec (env : Env) (s : GState)
    (hms : ∀ m ∈ s.monsters, (m.radius = 34 ∨ m.radius = 60) ∧ inBoundsM m) :
    PCore s.p1 (bulletsHitPhase env s).p1
    ∧ (bulletsHitPhase env s).p1.hp = s.p1.hp
    ∧ (bulletsHitPhase env s).p1.gold = s.p1.gold
    ∧ PCore s.p2 (bulletsHitPhase env s).p2
    ∧ (bulletsHitPhase env s).p2.hp = s.p2.hp
    ∧ (bulletsHitPhase env s).p2.gold = s.p2.gold
    ∧ (∀ m ∈ (bulletsHitPhase env s).monsters,
        (m.radius = 34 ∨ m.radius = 60) ∧ inBoundsM m)
    ∧ (∀ b ∈ (bulletsHitPhase env s).bullets,
        ∃ b0 ∈ s.bullets, b.id = b0.id ∧ b.ownerId = b0.ownerId)
    ∧ (∀ g ∈ (bulletsHitPhase env s).goldDrops,
        g ∈ s.goldDrops ∨ g.amount = GOLD_PER_PICKUP)
    ∧ (bulletsHitPhase env s).enemyBullets = s.enemyBullets
    ∧ (bulletsHitPhase env s).grenades = s.grenades
    ∧ (bulletsHitPhase env s).nextBulletId = s.nextBulletId
    ∧ (bulletsHitPhase env s).state = s.state
    ∧ (bulletsHitPhase env s).waveLeft = s.waveLeft := by
  have key := foldl_preserve
    (P := fun acc : List Monster × List Bullet × HitCtx =>
      (∀ m' ∈ acc.1, (m'.radius = 34 ∨ m'.radius = 60) ∧ inBoundsM m')
      ∧ (∀ b' ∈ acc.2.1, ∃ b0 ∈ s.bullets, b'.id = b0.id ∧ b'.ownerId = b0.ownerId)
      ∧ PCore s.p1 acc.2.2.p1 ∧ acc.2.2.p1.hp = s.p1.hp
      ∧ acc.2.2.p1.gold = s.p1.gold
      ∧ PCore s.p2 acc.2.2.p2 ∧ acc.2.2.p2.hp = s.p2.hp
      ∧ acc.2.2.p2.gold = s.p2.gold
      ∧ ∀ g ∈ acc.2.2.goldDrops, g ∈ s.goldDrops ∨ g.amount = GOLD_PER_PICKUP)
    (f := bulletStep env) (l := s.bullets)
    (b := (s.monsters, ([] : List Bullet),
      (⟨s.p1, s.p2, s.goldDrops, s.hearts, s.greenPotions, s.nextGoldId,
        s.nextHeartId, s.nextGreenPotionId⟩ : HitCtx)))
    (fun acc b hb hacc => by
      obtain ⟨ms2, out2, ctx2⟩ := acc
      obtain ⟨k1, k2, k3, k4, k5, k6, k7, k8, k9⟩ :=
        bulletStep_frame env ms2 out2 ctx2 b
      refine ⟨fun m' hm' => ?_, fun b' hb' => ?_,
        pcore_trans hacc.2.2.1 k3, k4.trans hacc.2.2.2.1,
        k5.trans hacc.2.2.2.2.1, pcore_trans hacc.2.2.2.2.2.1 k6,
        k7.trans hacc.2.2.2.2.2.2.1, k8.trans hacc.2.2.2.2.2.2.2.1,
        fun g hg => ?_⟩
      · obtain ⟨m, hm, e1, e2, e3, e4⟩ := k1 m' hm'
        obtain ⟨w1, w2⟩ := hacc.1 m hm
        refine ⟨by rw [e2]; exact w1, ?_⟩
        unfold inBoundsM mMinX mMaxX at w2 ⊢
        rw [e1, e2, e3, e4]
        exact w2
      · rcases k2 b' hb' with h | h
        · exact hacc.2.1 b' h
        · exact ⟨b, hb, h.1, h.2⟩
      · rcases k9 g hg with h | h
        · exact hacc.2.2.2.2.2.2.2.2 g h
        · exact Or.inr h)
    ⟨hms, fun b' hb' => absurd hb' (List.not_mem_nil b'),
      pcore_refl _, rfl, rfl, pcore_refl _, rfl, rfl,
      fun g hg => Or.inl hg⟩
  refine ⟨key.2.2.1, key.2.2.2.1, key.2.2.2.2.1, key.2.2.2.2.2.1,
    key.2.2.2.2.2.2.1, key.2.2.2.2.2.2.2.1, fun m hm => key.1 m hm,
    fun b hb => key.2.1 b (List.mem_of_mem_filter hb),
    fun g hg => key.2.2.2.2.2.2.2.2 g hg, rfl, rfl, rfl, rfl, rfl⟩

-- Contact resolution -----------------------------------------------------

set_option maxHeartbeats 1600000 in
/-- One contact iteration: contact damage (12 to a player, 9999 to the
monster) keeps hp ranges and the monster's side, radius and position. -/
theorem contactStep_spec (env : Env) (p1 p2 : Player) (ms : List Monster)
    (m : Monster) (h1 : POk p1) (h2 : POk p2) :
    PCore p1 (contactStep env (p1, p2, ms) m).1
    ∧ (contactStep env (p1, p2, ms) m).1.gold = p1.gold
    ∧ POk (contactStep env (p1, p2, ms) m).1
    ∧ PCore p2 (contactStep env (p1, p2, ms) m).2.1
    ∧ (contactStep env (p1, p2, ms) m).2.1.gold = p2.gold
    ∧ POk (contactStep env (p1, p2, ms) m).2.1
    ∧ ∀ m' ∈ (contactStep env (p1, p2, ms) m).2.2,
        m' ∈ ms ∨ (m'.side = m.side ∧ m'.radius = m.radius
          ∧ m'.x = m.x ∧ m'.y = m.y) := by
  unfold contactStep
  dsimp only
  by_cases a1 : ¬ m.isAlive = true
  · rw [if_pos a1]
    exact ⟨pcore_refl _, rfl, h1, pcore_refl _, rfl, h2,
      fun m' hm' => (List.mem_append.mp hm').elim Or.inl
        (fun h => Or.inr (by rw [List.mem_singleton.mp h]
                             exact ⟨rfl, rfl, rfl, rfl⟩))⟩
  · rw [if_neg a1]
    dsimp only
    by_cases a2 : (p1.isAlive && decide (p1.side = m.side)
        && decide (env.hyp (p1.x - m.x) (p1.y - m.y) ≤ m.radius + 18)) = true
    · rw [if_pos a2]
      dsimp only
      by_cases a3 : (p2.isAlive && decide (p2.side = (m.takeDamage 9999).side)
          && decide (env.hyp (p2.x - (m.takeDamage 9999).x)
            (p2.y - (m.takeDamage 9999).y)
            ≤ (m.takeDamage 9999).radius + 18)) = true
      · rw [if_pos a3]
        exact ⟨takeDamage_pcore _ _, rfl, pok_takeDamage h1 (by norm_num),
          takeDamage_pcore _ _, rfl, pok_takeDamage h2 (by norm_num),
          fun m' hm' => (List.mem_append.mp hm').elim Or.inl
            (fun h => Or.inr (by rw [List.mem_singleton.mp h]
                                 exact ⟨rfl, rfl, rfl, rfl⟩))⟩
      · rw [if_neg a3]
        exact ⟨takeDamage_pcore _ _, rfl, pok_takeDamage h1 (by norm_num),
          pcore_refl _, rfl, h2,
          fun m' hm' => (List.mem_append.mp hm').elim Or.inl
            (fun h => Or.inr (by rw [List.mem_singleton.mp h]
                                 exact ⟨rfl, rfl, rfl, rfl⟩))⟩
    · rw [if_neg a2]
      dsimp only
      by_cases a3 : (p2.isAlive && decide (p2.side = m.side)
          && decide (env.hyp (p2.x - m.x) (p2.y - m.y) ≤ m.radius + 18)) = true
      · rw [if_pos a3]
        exact ⟨pcore_refl _, rfl, h1, takeDamage_pcore _ _, rfl,
          pok_takeDamage h2 (by norm_num),
          fun m' hm' => (List.mem_append.mp hm').elim Or.inl
            (fun h => Or.inr (by rw [List.mem_singleton.mp h]
                                 exact ⟨rfl, rfl, rfl, rfl⟩))⟩
      · rw [if_neg a3]
        exact ⟨pcore_refl _, rfl, h1, pcore_refl _, rfl, h2,
          fun m' hm' => (List.mem_append.mp hm').elim Or.inl
            (fun h => Or.inr (by rw [List.mem_singleton.mp h]
                                 exact ⟨rfl, rfl, rfl, rfl⟩))⟩

/-- Effect summary of the contact block: hp ranges are kept, and every
surviving monster is alive with a legal radius inside its half. -/
theorem contactPhase_spec (env : Env) (s : GState)
    (h1 : POk s.p1) (h2 : POk s.p2)
    (hms : ∀ m ∈ s.monsters, (m.radius = 34 ∨ m.radius = 60) ∧ inBoundsM m) :
    PCore s.p1 (contactPhase env s).p1
    ∧ (contactPhase env s).p1.gold = s.p1.gold
    ∧ POk (contactPhase env s).p1
    ∧ PCore s.p2 (contactPhase env s).p2
    ∧ (contactPhase env s).p2.gold = s.p2.gold
    ∧ POk (contactPhase env s).p2
    ∧ (∀ m ∈ (contactPhase env s).monsters,
        0 < m.hp ∧ (m.radius = 34 ∨ m.radius = 60) ∧ inBoundsM m)
    ∧ (contactPhase env s).bullets = s.bullets
    ∧ (contactPhase env s).enemyBullets = s.enemyBullets
    ∧ (contactPhase env s).grenades = s.grenades
    ∧ (contactPhase env s).goldDrops = s.goldDrops
    ∧ (contactPhase env s).hearts = s.hearts
    ∧ (contactPhase env s).greenPotions = s.greenPotions
    ∧ (contactPhase env s).nextBulletId = s.nextBulletId
    ∧ (contactPhase env s).state = s.state
    ∧ (contactPhase env s).waveLeft = s.waveLeft := by
  have key := foldl_preserve
    (P := fun acc : Player × Player × List Monster =>
      PCore s.p1 acc.1 ∧ acc.1.gold = s.p1.gold ∧ POk acc.1
      ∧ PCore s.p2 acc.2.1 ∧ acc.2.1.gold = s.p2.gold ∧ POk acc.2.1
      ∧ ∀ m ∈ acc.2.2, (m.radius = 34 ∨ m.radius = 60) ∧ inBoundsM m)
    (f := contactStep env) (l := s.monsters)
    (b := (s.p1, s.p2, ([] : List Monster)))
    (fun acc m hm hacc => by
      obtain ⟨q1, q2, q3⟩ := acc
      obtain ⟨k1, k2, k3, k4, k5, k6, k7⟩ :=
        contactStep_spec env q1 q2 q3 m hacc.2.2.1 hacc.2.2.2.2.2.1
      refine ⟨pcore_trans hacc.1 k1, k2.trans hacc.2.1, k3,
        pcore_trans hacc.2.2.2.1 k4, k5.trans hacc.2.2.2.2.1, k6,
        fun m' hm' => ?_⟩
      rcases k7 m' hm' with h | h
      · exact hacc.2.2.2.2.2.2 m' h
      · obtain ⟨e1, e2, e3, e4⟩ := h
        obtain ⟨w1, w2⟩ := hms m hm
        refine ⟨by rw [e2]; exact w1, ?_⟩
        unfold inBoundsM mMinX mMaxX at w2 ⊢
        rw [e1, e2, e3, e4]
        exact w2)
    ⟨pcore_refl _, rfl, h1, pcore_refl _, rfl, h2,
      fun m hm => absurd hm (List.not_mem_nil m)⟩
  refine ⟨key.1, key.2.1, key.2.2.1, key.2.2.2.1, key.2.2.2.2.1,
    key.2.2.2.2.2.1, fun m hm => ?_, rfl, rfl, rfl, rfl, ⟨rfl, rfl, rfl,
    rfl, rfl⟩⟩
  have hmf := List.mem_filter.mp hm
  have halive : 0 < m.hp := of_decide_eq_true hmf.2
  obtain ⟨w1, w2⟩ := key.2.2.2.2.2.2 m hmf.1
  exact ⟨halive, w1, w2⟩

-- Pickups -----------------------------------------------------------------

/-- One gold pickup iteration: hp untouched, gold stays nonnegative when the
drop amounts are, and the emitted drops keep their amounts. -/
theorem pickupGold_step (env : Env) (p : Player) (gs : List GoldDrop)
    (g : GoldDrop) (hp0 : 0 ≤ p.gold) (ha : 0 ≤ g.amount) :
    PCore p (pickupGold env (p, gs) g).1
    ∧ (pickupGold env (p, gs) g).1.hp = p.hp
    ∧ 0 ≤ (pickupGold env (p, gs) g).1.gold
    ∧ ∀ g' ∈ (pickupGold env (p, gs) g).2, g' ∈ gs ∨ g'.amount = g.amount := by
  unfold pickupGold
  dsimp only
  split_ifs with a1
  · exact ⟨⟨rfl, rfl, rfl, rfl, ⟨rfl, rfl, rfl, rfl⟩⟩, rfl, add_nonneg hp0 ha,
      fun g' hg' => (List.mem_append.mp hg').elim Or.inl
        (fun h => Or.inr (by rw [List.mem_singleton.mp h]))⟩
  · exact ⟨pcore_refl _, rfl, hp0,
      fun g' hg' => (List.mem_append.mp hg').elim Or.inl
        (fun h => Or.inr (by rw [List.mem_singleton.mp h]))⟩

/-- One player's pickup collection: invariant fields kept, hp range kept,
gold stays nonnegative, and the emitted gold drops keep nonnegative
amounts. -/
theorem collectPickups_spec (env : Env) (p : Player) (gs : List GoldDrop)
    (hs : List HeartPickup) (pots : List GreenPotionPickup)
    (hp0 : POk p) (hg0 : 0 ≤ p.gold) (hgs : ∀ g ∈ gs, 0 ≤ g.amount) :
    PCore p (collectPickups env p gs hs pots).1
    ∧ POk (collectPickups env p gs hs pots).1
    ∧ 0 ≤ (collectPickups env p gs hs pots).1.gold
    ∧ ∀ g ∈ (collectPickups env p gs hs pots).2.1, 0 ≤ g.amount := by
  unfold collectPickups
  dsimp only
  by_cases a1 : ¬ p.isAlive = true
  · rw [if_pos a1]
    exact ⟨pcore_refl _, hp0, hg0, hgs⟩
  · rw [if_neg a1]
    have key1 := foldl_preserve
      (P := fun acc : Player × List GoldDrop =>
        PCore p acc.1 ∧ acc.1.hp = p.hp ∧ 0 ≤ acc.1.gold
        ∧ ∀ g ∈ acc.2, 0 ≤ g.amount)
      (f := pickupGold env) (l := gs) (b := (p, ([] : List GoldDrop)))
      (fun acc g hg hacc => by
        obtain ⟨k1, k2, k3, k4⟩ :=
          pickupGold_step env acc.1 acc.2 g hacc.2.2.1 (hgs g hg)
        refine ⟨pcore_trans hacc.1 k1, k2.trans hacc.2.1, k3,
          fun g' hg' => ?_⟩
        rcases k4 g' hg' with h | h
        · exact hacc.2.2.2 g' h
        · rw [h]
          exact hgs g hg)
      ⟨pcore_refl _, rfl, hg0, fun g hg => absurd hg (List.not_mem_nil g)⟩
    have key2 := foldl_preserve
      (P := fun acc : Player × List HeartPickup =>
        PCore p acc.1 ∧ POk acc.1 ∧ 0 ≤ acc.1.gold)
      (f := pickupHeart env) (l := hs)
      (b := ((gs.foldl (pickupGold env) (p, [])).1, ([] : List HeartPickup)))
      (fun acc h hh hacc => by
        unfold pickupHeart
        dsimp only
        split_ifs with a2
        · exact ⟨pcore_trans hacc.1 (heal_pcore _ _), pok_heal hacc.2.1 _,
            by rw [heal_gold]; exact hacc.2.2⟩
        · exact hacc)
      ⟨key1.1, pok_of_pcore key1.1 key1.2.1 hp0, key1.2.2.1⟩
    have key3 := foldl_preserve
      (P := fun acc : Player × List GreenPotionPickup =>
        PCore p acc.1 ∧ POk acc.1 ∧ 0 ≤ acc.1.gold)
      (f := pickupPotion env) (l := pots)
      (b := ((hs.foldl (pickupHeart env)
          ((gs.foldl (pickupGold env) (p, [])).1, [])).1,
        ([] : List GreenPotionPickup)))
      (fun acc gp hgp hacc => by
        unfold pickupPotion
        dsimp only
        split_ifs with a2
        · exact ⟨pcore_trans hacc.1 (applyEnrage_pcore _ _),
            pok_of_pcore (applyEnrage_pcore _ _) (applyEnrage_hp _ _) hacc.2.1,
            by rw [applyEnrage_gold]; exact hacc.2.2⟩
        · exact hacc)
      ⟨key2.1, key2.2.1, key2.2.2⟩
    exact ⟨key3.1, key3.2.1, key3.2.2, key1.2.2.2⟩

/-- Effect summary of the pickup block. -/
theorem pickupsPhase_spec (env : Env) (s : GState)
    (h1 : POk s.p1) (h2 : POk s.p2)
    (hg1 : 0 ≤ s.p1.gold) (hg2 : 0 ≤ s.p2.gold)
    (hdrops : ∀ g ∈ s.goldDrops, 0 ≤ g.amount) :
    PCore s.p1 (pickupsPhase env s).p1
    ∧ POk (pickupsPhase env s).p1
    ∧ 0 ≤ (pickupsPhase env s).p1.gold
    ∧ PCore s.p2 (pickupsPhase env s).p2
    ∧ POk (pickupsPhase env s).p2
    ∧ 0 ≤ (pickupsPhase env s).p2.gold
    ∧ (∀ g ∈ (pickupsPhase env s).goldDrops, 0 ≤ g.amount)
    ∧ (pickupsPhase env s).monsters = s.monsters
    ∧ (pickupsPhase env s).bullets = s.bullets
    ∧ (pickupsPhase env s).enemyBullets = s.enemyBullets
    ∧ (pickupsPhase env s).grenades = s.grenades
    ∧ (pickupsPhase env s).nextBulletId = s.nextBulletId
    ∧ (pickupsPhase env s).state = s.state
    ∧ (pickupsPhase env s).waveLeft = s.waveLeft := by
  have k1 := collectPickups_spec env s.p1 s.goldDrops s.hearts s.greenPotions
    h1 hg1 hdrops
  have k2 := collectPickups_spec env s.p2
    (collectPickups env s.p1 s.goldDrops s.hearts s.greenPotions).2.1
    (collectPickups env s.p1 s.goldDrops s.hearts s.greenPotions).2.2.1
    (collectPickups env s.p1 s.goldDrops s.hearts s.greenPotions).2.2.2
    h2 hg2 k1.2.2.2
  exact ⟨k1.1, k1.2.1, k1.2.2.1, k2.1, k2.2.1, k2.2.2.1,
    fun g hg => k2.2.2.2 g (List.mem_of_mem_filter hg),
    rfl, rfl, rfl, ⟨rfl, rfl, rfl, rfl⟩⟩

-- Game-over check and wave timer -----------------------------------------

/-- The game-over check touches only `state` and `winner`. -/
theorem gameOverPhase_frame2 (s : GState) :
    (gameOverPhase s).p1 = s.p1 ∧ (gameOverPhase s).p2 = s.p2
    ∧ (gameOverPhase s).monsters = s.monsters
    ∧ (gameOverPhase s).bullets = s.bullets
    ∧ (gameOverPhase s).enemyBullets = s.enemyBullets
    ∧ (gameOverPhase s).grenades = s.grenades
    ∧ (gameOverPhase s).goldDrops = s.goldDrops
    ∧ (gameOverPhase s).nextBulletId = s.nextBulletId := by
  unfold gameOverPhase
  dsimp only
  split_ifs <;> exact ⟨rfl, rfl, rfl, rfl, ⟨rfl, rfl, rfl, rfl⟩⟩

/-- If the game-over check leaves a non-GAME_OVER state, both players were
alive at the end of the tick. -/
theorem gameOverPhase_alive_imp (s : GState)
    (hs1 : s.p1.side = Side.left) (hs2 : s.p2.side = Side.right) :
    (gameOverPhase s).state ≠ Phase.gameOver → 0 < s.p1.hp ∧ 0 < s.p2.hp := by
  unfold gameOverPhase
  dsimp only
  by_cases h : (!s.alivePlayerOnSide Side.left
      || !s.alivePlayerOnSide Side.right) = true
  · rw [if_pos h]
    intro hne
    exact absurd rfl hne
  · rw [if_neg h]
    intro hne
    have hL : s.alivePlayerOnSide Side.left = true := by
      by_contra hc
      rw [Bool.not_eq_true] at hc
      exact h (by rw [hc]; rfl)
    have hR : s.alivePlayerOnSide Side.right = true := by
      by_contra hc
      rw [Bool.not_eq_true] at hc
      exact h (by rw [hc]; simp)
    unfold GState.alivePlayerOnSide at hL hR
    rw [hs1, hs2] at hL hR
    simp [Player.isAlive] at hL hR
    exact ⟨hL, hR⟩

/-- The wave-timer block leaves the players' combat fields, all entity
collections and the bullet counter untouched; the phase either stays or
becomes SHOP. -/
theorem waveTimerPhase_spec (dt : ℚ) (s : GState) :
    PCore s.p1 (waveTimerPhase dt s).p1
    ∧ (waveTimerPhase dt s).p1.hp = s.p1.hp
    ∧ (waveTimerPhase dt s).p1.gold = s.p1.gold
    ∧ PCore s.p2 (waveTimerPhase dt s).p2
    ∧ (waveTimerPhase dt s).p2.hp = s.p2.hp
    ∧ (waveTimerPhase dt s).p2.gold = s.p2.gold
    ∧ (waveTimerPhase dt s).monsters = s.monsters
    ∧ (waveTimerPhase dt s).bullets = s.bullets
    ∧ (waveTimerPhase dt s).enemyBullets = s.enemyBullets
    ∧ (waveTimerPhase dt s).grenades = s.grenades
    ∧ (waveTimerPhase dt s).goldDrops = s.goldDrops
    ∧ (waveTimerPhase dt s).hearts = s.hearts
    ∧ (waveTimerPhase dt s).greenPotions = s.greenPotions
    ∧ (waveTimerPhase dt s).nextBulletId = s.nextBulletId
    ∧ ((waveTimerPhase dt s).state = s.state
        ∨ (waveTimerPhase dt s).state = Phase.shop) := by
  unfold waveTimerPhase
  dsimp only
  split_ifs <;>
    first
      | exact ⟨⟨rfl, rfl, rfl, rfl, ⟨rfl, rfl, rfl, rfl⟩⟩, rfl, rfl,
          ⟨rfl, rfl, rfl, rfl, ⟨rfl, rfl, rfl, rfl⟩⟩, rfl, rfl, rfl, rfl, ⟨rfl,
          rfl, rfl, rfl, ⟨rfl, rfl, Or.inr rfl⟩⟩⟩
      | exact ⟨⟨rfl, rfl, rfl, rfl, ⟨rfl, rfl, rfl, rfl⟩⟩, rfl, rfl,
          ⟨rfl, rfl, rfl, rfl, ⟨rfl, rfl, rfl, rfl⟩⟩, rfl, rfl, rfl, rfl, ⟨rfl,
          rfl, rfl, rfl, ⟨rfl, rfl, Or.inl rfl⟩⟩⟩

-- The PLAYING tick preserves the invariant --------------------------------

/-- A full PLAYING tick preserves the inductive invariant. -/
theorem updatePlaying_inv (env : Env) (dt : ℚ) (inputs : ℕ → Input)
    {s : GState} (hI : Inv s) (hst : s.state = Phase.playing) :
    Inv (updatePlaying env dt inputs s)
    ∧ ∃ nb1 nb2 : List Bullet,
        (∀ b ∈ nb1, b.ownerId = s.p1.id)
        ∧ (∀ b ∈ nb2, b.ownerId = s.p2.id)
        ∧ ((∀ m ∈ s.monsters, ¬(m.isAlive = true ∧ m.side = s.p1.side)) →
            nb1 = [])
        ∧ ((∀ m ∈ s.monsters, ¬(m.isAlive = true ∧ m.side = s.p2.side)) →
            nb2 = [])
        ∧ ∀ b ∈ (updatePlaying env dt inputs s).bullets,
            ∃ b0, (b0 ∈ s.bullets ∨ b0 ∈ nb1 ∨ b0 ∈ nb2)
              ∧ b.id = b0.id ∧ b.ownerId = b0.ownerId := by
  have hsne : s.state ≠ Phase.gameOver := by
    rw [hst]
    decide
  have hal := hI.alive hsne
  set tA := waveTimerPhase dt s with htA
  obtain ⟨a1, a2, a3, a4, a5, a6, a7, a8, a9, a10, a11, a12, a13, a14, a15⟩ :=
    waveTimerPhase_spec dt s
  have sdA1 : tA.p1.side = Side.left := a1.2.1.trans hI.sideL
  have sdA2 : tA.p2.side = Side.right := a4.2.1.trans hI.sideR
  have idA1 : tA.p1.id = 1 := a1.1.trans hI.id1
  have idA2 : tA.p2.id = 2 := a4.1.trans hI.id2
  have wdA1 : tA.p1.width = 32 := a1.2.2.1.trans hI.dims1.1
  have htA1 : tA.p1.height = 32 := a1.2.2.2.1.trans hI.dims1.2
  have wdA2 : tA.p2.width = 32 := a4.2.2.1.trans hI.dims2.1
  have htA2 : tA.p2.height = 32 := a4.2.2.2.1.trans hI.dims2.2
  have wcA1 : tA.p1.weaponChosen = true :=
    a1.2.2.2.2.2.1.trans (hI.weapons (Or.inl hst)).1
  have wcA2 : tA.p2.weaponChosen = true :=
    a4.2.2.2.2.2.1.trans (hI.weapons (Or.inl hst)).2
  have pokA1 : POk tA.p1 := pok_of_pcore a1 a2 hI.hp1
  have pokA2 : POk tA.p2 := pok_of_pcore a4 a5 hI.hp2
  have avA1 : 0 < tA.p1.hp := by rw [a2]; exact hal.1
  have avA2 : 0 < tA.p2.hp := by rw [a5]; exact hal.2
  have gnA1 : 0 ≤ tA.p1.gold := by rw [a3]; exact hI.gold1
  have gnA2 : 0 ≤ tA.p2.gold := by rw [a6]; exact hI.gold2
  have mA : ∀ m ∈ tA.monsters, 0 < m.hp ∧ (m.radius = 34 ∨ m.radius = 60) := by
    rw [a7]
    exact fun m hm => ⟨hI.mAlive m hm, hI.mRad m hm⟩
  have buA : ∀ b ∈ tA.bullets, b.id < tA.nextBulletId := by
    rw [a8, a14]
    exact hI.bIds
  have ebA : ∀ e ∈ tA.enemyBullets, 0 ≤ e.damage := by rw [a9]; exact hI.ebDmg
  have grA : ∀ g ∈ tA.grenades, GOk g := by rw [a10]; exact hI.gren
  have drA : ∀ g ∈ tA.goldDrops, 0 ≤ g.amount := by rw [a11]; exact hI.dropAmt
  set tB := playersPhase env dt inputs tA with htB
  obtain ⟨⟨bid1, bsd1, bw1, bh1, bmx1, bwc1, bhp1, bgl1⟩,
    ⟨bid2, bsd2, bw2, bh2, bmx2, bwc2, bhp2, bgl2⟩,
    bbd1, bbd2, bms, bebs, bgr, bdr, bhe, bpo, bwa, bst, bwl, bnle, bex⟩ :=
    playersPhase_spec env dt inputs tA
  have sdB1 : tB.p1.side = Side.left := bsd1.trans sdA1
  have sdB2 : tB.p2.side = Side.right := bsd2.trans sdA2
  have idB1 : tB.p1.id = 1 := bid1.trans idA1
  have idB2 : tB.p2.id = 2 := bid2.trans idA2
  have wdB1 : tB.p1.width = 32 := bw1.trans wdA1
  have htB1 : tB.p1.height = 32 := bh1.trans htA1
  have wdB2 : tB.p2.width = 32 := bw2.trans wdA2
  have htB2 : tB.p2.height = 32 := bh2.trans htA2
  have wcB1 : tB.p1.weaponChosen = true := bwc1.trans wcA1
  have wcB2 : tB.p2.weaponChosen = true := bwc2.trans wcA2
  have pokB1 : POk tB.p1 := by
    unfold POk at pokA1 ⊢
    rw [bhp1, bmx1]
    exact pokA1
  have pokB2 : POk tB.p2 := by
    unfold POk at pokA2 ⊢
    rw [bhp2, bmx2]
    exact pokA2
  have avB1 : 0 < tB.p1.hp := by rw [bhp1]; exact avA1
  have avB2 : 0 < tB.p2.hp := by rw [bhp2]; exact avA2
  have gnB1 : 0 ≤ tB.p1.gold := by rw [bgl1]; exact gnA1
  have gnB2 : 0 ≤ tB.p2.gold := by rw [bgl2]; exact gnA2
  have bdB1 : inBoundsP tB.p1 := bbd1 wdA1 htA1
  have bdB2 : inBoundsP tB.p2 := bbd2 wdA2 htA2
  have mB : ∀ m ∈ tB.monsters, 0 < m.hp ∧ (m.radius = 34 ∨ m.radius = 60) := by
    rw [bms]
    exact mA
  have buB : ∀ b ∈ tB.bullets, b.id < tB.nextBulletId := by
    obtain ⟨nb1, nb2, heq, hn1, hn2, -, -⟩ := bex
    rw [heq]
    intro b hb
    rcases List.mem_append.mp hb with hb' | hb'
    · rcases List.mem_append.mp hb' with hb2 | hb2
      · exact lt_of_lt_of_le (buA b hb2) bnle
      · exact (hn1 b hb2).2.2
    · exact (hn2 b hb').2.2
  obtain ⟨nb1, nb2, bheq, bhn1, bhn2, bhz1, bhz2⟩ := bex
  have btB : ∀ b ∈ tB.bullets, ∃ b0, (b0 ∈ s.bullets ∨ b0 ∈ nb1 ∨ b0 ∈ nb2)
      ∧ b.id = b0.id ∧ b.ownerId = b0.ownerId := by
    intro b hb
    rw [bheq, a8] at hb
    rcases List.mem_append.mp hb with hb1 | hb1
    · rcases List.mem_append.mp hb1 with hb2 | hb2
      · exact ⟨b, Or.inl hb2, rfl, rfl⟩
      · exact ⟨b, Or.inr (Or.inl hb2), rfl, rfl⟩
    · exact ⟨b, Or.inr (Or.inr hb1), rfl, rfl⟩
  have ebB : ∀ e ∈ tB.enemyBullets, 0 ≤ e.damage := by rw [bebs]; exact ebA
  have grB : ∀ g ∈ tB.grenades, GOk g := by rw [bgr]; exact grA
  have drB : ∀ g ∈ tB.goldDrops, 0 ≤ g.amount := by rw [bdr]; exact drA
  set tC := spawnPhase env dt tB with htC
  obtain ⟨c1, c2, c3, c4, c5, c6, c7, c8, c9, c10, c11, c12⟩ :=
    spawnPhase_sp env dt tB
  have sdC1 : tC.p1.side = Side.left := by rw [c1]; exact sdB1
  have sdC2 : tC.p2.side = Side.right := by rw [c2]; exact sdB2
  have idC1 : tC.p1.id = 1 := by rw [c1]; exact idB1
  have idC2 : tC.p2.id = 2 := by rw [c2]; exact idB2
  have wdC1 : tC.p1.width = 32 := by rw [c1]; exact wdB1
  have htC1 : tC.p1.height = 32 := by rw [c1]; exact htB1
  have wdC2 : tC.p2.width = 32 := by rw [c2]; exact wdB2
  have htC2 : tC.p2.height = 32 := by rw [c2]; exact htB2
  have wcC1 : tC.p1.weaponChosen = true := by rw [c1]; exact wcB1
  have wcC2 : tC.p2.weaponChosen = true := by rw [c2]; exact wcB2
  have pokC1 : POk tC.p1 := by rw [c1]; exact pokB1
  have pokC2 : POk tC.p2 := by rw [c2]; exact pokB2
  have avC1 : 0 < tC.p1.hp := by rw [c1]; exact avB1
  have avC2 : 0 < tC.p2.hp := by rw [c2]; exact avB2
  have gnC1 : 0 ≤ tC.p1.gold := by rw [c1]; exact gnB1
  have gnC2 : 0 ≤ tC.p2.gold := by rw [c2]; exact gnB2
  have bdC1 : inBoundsP tC.p1 := by rw [c1]; exact bdB1
  have bdC2 : inBoundsP tC.p2 := by rw [c2]; exact bdB2
  have mC : ∀ m ∈ tC.monsters, 0 < m.hp ∧ (m.radius = 34 ∨ m.radius = 60) := by
    rw [c3]
    exact mB
  have buC : ∀ b ∈ tC.bullets, b.id < tC.nextBulletId := by
    rw [c4, c10]
    exact buB
  have btC : ∀ b ∈ tC.bullets, ∃ b0, (b0 ∈ s.bullets ∨ b0 ∈ nb1 ∨ b0 ∈ nb2)
      ∧ b.id = b0.id ∧ b.ownerId = b0.ownerId := by
    rw [c4]
    exact btB
  have ebC : ∀ e ∈ tC.enemyBullets, 0 ≤ e.damage := by rw [c5]; exact ebB
  have grC : ∀ g ∈ tC.grenades, GOk g := by rw [c6]; exact grB
  have drC : ∀ g ∈ tC.goldDrops, 0 ≤ g.amount := by rw [c7]; exact drB
  set tD := warningsPhase env dt tC with htD
  obtain ⟨d1, d2, d3, d4, d5, d6, d7, d8, d9, d10, d11, d12⟩ :=
    warningsPhase_spec env dt tC
  have sdD1 : tD.p1.side = Side.left := by rw [d1]; exact sdC1
  have sdD2 : tD.p2.side = Side.right := by rw [d2]; exact sdC2
  have idD1 : tD.p1.id = 1 := by rw [d1]; exact idC1
  have idD2 : tD.p2.id = 2 := by rw [d2]; exact idC2
  have wdD1 : tD.p1.width = 32 := by rw [d1]; exact wdC1
  have htD1 : tD.p1.height = 32 := by rw [d1]; exact htC1
  have wdD2 : tD.p2.width = 32 := by rw [d2]; exact wdC2
  have htD2 : tD.p2.height = 32 := by rw [d2]; exact htC2
  have wcD1 : tD.p1.weaponChosen = true := by rw [d1]; exact wcC1
  have wcD2 : tD.p2.weaponChosen = true := by rw [d2]; exact wcC2
  have pokD1 : POk tD.p1 := by rw [d1]; exact pokC1
  have pokD2 : POk tD.p2 := by rw [d2]; exact pokC2
  have avD1 : 0 < tD.p1.hp := by rw [d1]; exact avC1
  have avD2 : 0 < tD.p2.hp := by rw [d2]; exact avC2
  have gnD1 : 0 ≤ tD.p1.gold := by rw [d1]; exact gnC1
  have gnD2 : 0 ≤ tD.p2.gold := by rw [d2]; exact gnC2
  have bdD1 : inBoundsP tD.p1 := by rw [d1]; exact bdC1
  have bdD2 : inBoundsP tD.p2 := by rw [d2]; exact bdC2
  have mD : ∀ m ∈ tD.monsters, 0 < m.hp ∧ (m.radius = 34 ∨ m.radius = 60) :=
    fun m hm => (d12 m hm).elim (fun h => mC m h) (fun h => h)
  have buD : ∀ b ∈ tD.bullets, b.id < tD.nextBulletId := by
    rw [d3, d9]
    exact buC
  have btD : ∀ b ∈ tD.bullets, ∃ b0, (b0 ∈ s.bullets ∨ b0 ∈ nb1 ∨ b0 ∈ nb2)
      ∧ b.id = b0.id ∧ b.ownerId = b0.ownerId := by
    rw [d3]
    exact btC
  have ebD : ∀ e ∈ tD.enemyBullets, 0 ≤ e.damage := by rw [d4]; exact ebC
  have grD : ∀ g ∈ tD.grenades, GOk g := by rw [d5]; exact grC
  have drD : ∀ g ∈ tD.goldDrops, 0 ≤ g.amount := by rw [d6]; exact drC
  set tE := monstersMovePhase env dt tD with htE
  obtain ⟨e1, e2, e3, e4, e5, e6, e7, e8, e9, e10, e11, e12⟩ :=
    monstersMovePhase_spec env dt tD sdD1 sdD2 avD1 avD2 mD
  have sdE1 : tE.p1.side = Side.left := by rw [e1]; exact sdD1
  have sdE2 : tE.p2.side = Side.right := by rw [e2]; exact sdD2
  have idE1 : tE.p1.id = 1 := by rw [e1]; exact idD1
  have idE2 : tE.p2.id = 2 := by rw [e2]; exact idD2
  have wdE1 : tE.p1.width = 32 := by rw [e1]; exact wdD1
  have htE1 : tE.p1.height = 32 := by rw [e1]; exact htD1
  have wdE2 : tE.p2.width = 32 := by rw [e2]; exact wdD2
  have htE2 : tE.p2.height = 32 := by rw [e2]; exact htD2
  have wcE1 : tE.p1.weaponChosen = true := by rw [e1]; exact wcD1
  have wcE2 : tE.p2.weaponChosen = true := by rw [e2]; exact wcD2
  have pokE1 : POk tE.p1 := by rw [e1]; exact pokD1
  have pokE2 : POk tE.p2 := by rw [e2]; exact pokD2
  have gnE1 : 0 ≤ tE.p1.gold := by rw [e1]; exact gnD1
  have gnE2 : 0 ≤ tE.p2.gold := by rw [e2]; exact gnD2
  have bdE1 : inBoundsP tE.p1 := by rw [e1]; exact bdD1
  have bdE2 : inBoundsP tE.p2 := by rw [e2]; exact bdD2
  have mE : ∀ m ∈ tE.monsters,
      0 < m.hp ∧ (m.radius = 34 ∨ m.radius = 60) ∧ inBoundsM m := e12
  have buE : ∀ b ∈ tE.bullets, b.id < tE.nextBulletId := by
    rw [e3, e9]
    exact buD
  have btE : ∀ b ∈ tE.bullets, ∃ b0, (b0 ∈ s.bullets ∨ b0 ∈ nb1 ∨ b0 ∈ nb2)
      ∧ b.id = b0.id ∧ b.ownerId = b0.ownerId := by
    rw [e3]
    exact btD
  have ebE : ∀ e ∈ tE.enemyBullets, 0 ≤ e.damage := by rw [e4]; exact ebD
  have grE : ∀ g ∈ tE.grenades, GOk g := by rw [e5]; exact grD
  have drE : ∀ g ∈ tE.goldDrops, 0 ≤ g.amount := by rw [e6]; exact drD
  set tF := spittersPhase env dt tE with htF
  obtain ⟨f1, f2, f3, f4, f5, f6, f7, f8, f9, f10, f11, f12⟩ :=
    spittersPhase_spec env dt tE mE ebE
  have sdF1 : tF.p1.side = Side.left := by rw [f1]; exact sdE1
  have sdF2 : tF.p2.side = Side.right := by rw [f2]; exact sdE2
  have idF1 : tF.p1.id = 1 := by rw [f1]; exact idE1
  have idF2 : tF.p2.id = 2 := by rw [f2]; exact idE2
  have wdF1 : tF.p1.width = 32 := by rw [f1]; exact wdE1
  have htF1 : tF.p1.height = 32 := by rw [f1]; exact htE1
  have wdF2 : tF.p2.width = 32 := by rw [f2]; exact wdE2
  have htF2 : tF.p2.height = 32 := by rw [f2]; exact htE2
  have wcF1 : tF.p1.weaponChosen = true := by rw [f1]; exact wcE1
  have wcF2 : tF.p2.weaponChosen = true := by rw [f2]; exact wcE2
  have pokF1 : POk tF.p1 := by rw [f1]; exact pokE1
  have pokF2 : POk tF.p2 := by rw [f2]; exact pokE2
  have gnF1 : 0 ≤ tF.p1.gold := by rw [f1]; exact gnE1
  have gnF2 : 0 ≤ tF.p2.gold := by rw [f2]; exact gnE2
  have bdF1 : inBoundsP tF.p1 := by rw [f1]; exact bdE1
  have bdF2 : inBoundsP tF.p2 := by rw [f2]; exact bdE2
  have mF := f11
  have ebF := f12
  have buF : ∀ b ∈ tF.bullets, b.id < tF.nextBulletId := by
    rw [f3, f8]
    exact buE
  have btF : ∀ b ∈ tF.bullets, ∃ b0, (b0 ∈ s.bullets ∨ b0 ∈ nb1 ∨ b0 ∈ nb2)
      ∧ b.id = b0.id ∧ b.ownerId = b0.ownerId := by
    rw [f3]
    exact btE
  have grF : ∀ g ∈ tF.grenades, GOk g := by rw [f4]; exact grE
  have drF : ∀ g ∈ tF.goldDrops, 0 ≤ g.amount := by rw [f5]; exact drE
  set tG := enemyBulletsMovePhase dt tF with htG
  obtain ⟨g1, g2, g3, g4, g5, g6, g7, g8, g9, g10, g11, g12⟩ :=
    enemyBulletsMovePhase_spec dt tF ebF
  have sdG1 : tG.p1.side = Side.left := by rw [g1]; exact sdF1
  have sdG2 : tG.p2.side = Side.right := by rw [g2]; exact sdF2
  have idG1 : tG.p1.id = 1 := by rw [g1]; exact idF1
  have idG2 : tG.p2.id = 2 := by rw [g2]; exact idF2
  have wdG1 : tG.p1.width = 32 := by rw [g1]; exact wdF1
  have htG1 : tG.p1.height = 32 := by rw [g1]; exact htF1
  have wdG2 : tG.p2.width = 32 := by rw [g2]; exact wdF2
  have htG2 : tG.p2.height = 32 := by rw [g2]; exact htF2
  have wcG1 : tG.p1.weaponChosen = true := by rw [g1]; exact wcF1
  have wcG2 : tG.p2.weaponChosen = true := by rw [g2]; exact wcF2
  have pokG1 : POk tG.p1 := by rw [g1]; exact pokF1
  have pokG2 : POk tG.p2 := by rw [g2]; exact pokF2
  have gnG1 : 0 ≤ tG.p1.gold := by rw [g1]; exact gnF1
  have gnG2 : 0 ≤ tG.p2.gold := by rw [g2]; exact gnF2
  have bdG1 : inBoundsP tG.p1 := by rw [g1]; exact bdF1
  have bdG2 : inBoundsP tG.p2 := by rw [g2]; exact bdF2
  have mG : ∀ m ∈ tG.monsters,
      0 < m.hp ∧ (m.radius = 34 ∨ m.radius = 60) ∧ inBoundsM m := by
    rw [g3]
    exact mF
  have ebG := g12
  have buG : ∀ b ∈ tG.bullets, b.id < tG.nextBulletId := by
    rw [g4, g9]
    exact buF
  have btG : ∀ b ∈ tG.bullets, ∃ b0, (b0 ∈ s.bullets ∨ b0 ∈ nb1 ∨ b0 ∈ nb2)
      ∧ b.id = b0.id ∧ b.ownerId = b0.ownerId := by
    rw [g4]
    exact btF
  have grG : ∀ g ∈ tG.grenades, GOk g := by rw [g5]; exact grF
  have drG : ∀ g ∈ tG.goldDrops, 0 ≤ g.amount := by rw [g6]; exact drF
  set tH := enemyBulletsHitPhase env tG with htH
  obtain ⟨hc1, hc2, hc3, hc4, hc5, hc6, hc7, hc8, hc9, hc10, hc11, hc12,
    hc13, hc14, hc15, hc16⟩ := enemyBulletsHitPhase_spec env tG pokG1 pokG2 ebG
  have sdH1 : tH.p1.side = Side.left := hc1.2.1.trans sdG1
  have sdH2 : tH.p2.side = Side.right := hc4.2.1.trans sdG2
  have idH1 : tH.p1.id = 1 := hc1.1.trans idG1
  have idH2 : tH.p2.id = 2 := hc4.1.trans idG2
  have wdH1 : tH.p1.width = 32 := hc1.2.2.1.trans wdG1
  have htH1 : tH.p1.height = 32 := hc1.2.2.2.1.trans htG1
  have wdH2 : tH.p2.width = 32 := hc4.2.2.1.trans wdG2
  have htH2 : tH.p2.height = 32 := hc4.2.2.2.1.trans htG2
  have wcH1 : tH.p1.weaponChosen = true := hc1.2.2.2.2.2.1.trans wcG1
  have wcH2 : tH.p2.weaponChosen = true := hc4.2.2.2.2.2.1.trans wcG2
  have pokH1 : POk tH.p1 := hc3
  have pokH2 : POk tH.p2 := hc6
  have gnH1 : 0 ≤ tH.p1.gold := by rw [hc2]; exact gnG1
  have gnH2 : 0 ≤ tH.p2.gold := by rw [hc5]; exact gnG2
  have bdH1 : inBoundsP tH.p1 := inBoundsP_of_pcore hc1 bdG1
  have bdH2 : inBoundsP tH.p2 := inBoundsP_of_pcore hc4 bdG2
  have mH : ∀ m ∈ tH.monsters,
      0 < m.hp ∧ (m.radius = 34 ∨ m.radius = 60) ∧ inBoundsM m := by
    rw [hc8]
    exact mG
  have ebH := hc7
  have buH : ∀ b ∈ tH.bullets, b.id < tH.nextBulletId := by
    rw [hc9, hc14]
    exact buG
  have btH : ∀ b ∈ tH.bullets, ∃ b0, (b0 ∈ s.bullets ∨ b0 ∈ nb1 ∨ b0 ∈ nb2)
      ∧ b.id = b0.id ∧ b.ownerId = b0.ownerId := by
    rw [hc9]
    exact btG
  have grH : ∀ g ∈ tH.grenades, GOk g := by rw [hc10]; exact grG
  have drH : ∀ g ∈ tH.goldDrops, 0 ≤ g.amount := by rw [hc11]; exact drG
  set tI := enemyBulletsFilterPhase tH with htI
  obtain ⟨i1, i2, i3, i4, i5, i6, i7, i8, i9, i10, i11, i12⟩ :=
    enemyBulletsFilterPhase_spec tH
  have sdI1 : tI.p1.side = Side.left := by rw [i1]; exact sdH1
  have sdI2 : tI.p2.side = Side.right := by rw [i2]; exact sdH2
  have idI1 : tI.p1.id = 1 := by rw [i1]; exact idH1
  have idI2 : tI.p2.id = 2 := by rw [i2]; exact idH2
  have wdI1 : tI.p1.width = 32 := by rw [i1]; exact wdH1
  have htI1 : tI.p1.height = 32 := by rw [i1]; exact htH1
  have wdI2 : tI.p2.width = 32 := by rw [i2]; exact wdH2
  have htI2 : tI.p2.height = 32 := by rw [i2]; exact htH2
  have wcI1 : tI.p1.weaponChosen = true := by rw [i1]; exact wcH1
  have wcI2 : tI.p2.weaponChosen = true := by rw [i2]; exact wcH2
  have pokI1 : POk tI.p1 := by rw [i1]; exact pokH1
  have pokI2 : POk tI.p2 := by rw [i2]; exact pokH2
  have gnI1 : 0 ≤ tI.p1.gold := by rw [i1]; exact gnH1
  have gnI2 : 0 ≤ tI.p2.gold := by rw [i2]; exact gnH2
  have bdI1 : inBoundsP tI.p1 := by rw [i1]; exact bdH1
  have bdI2 : inBoundsP tI.p2 := by rw [i2]; exact bdH2
  have mI : ∀ m ∈ tI.monsters,
      0 < m.hp ∧ (m.radius = 34 ∨ m.radius = 60) ∧ inBoundsM m := by
    rw [i3]
    exact mH
  have ebI : ∀ e ∈ tI.enemyBullets, 0 ≤ e.damage :=
    fun e he => ebH e (i12 e he)
  have buI : ∀ b ∈ tI.bullets, b.id < tI.nextBulletId := by
    rw [i4, i9]
    exact buH
  have btI : ∀ b ∈ tI.bullets, ∃ b0, (b0 ∈ s.bullets ∨ b0 ∈ nb1 ∨ b0 ∈ nb2)
      ∧ b.id = b0.id ∧ b.ownerId = b0.ownerId := by
    rw [i4]
    exact btH
  have grI : ∀ g ∈ tI.grenades, GOk g := by rw [i5]; exact grH
  have drI : ∀ g ∈ tI.goldDrops, 0 ≤ g.amount := by rw [i6]; exact drH
  set tJ := grenadesPhase env dt tI with htJ
  obtain ⟨j1, j2, j3, j4, j5, j6, j7, j8, j9, j10, j11, j12, j13, j14,
    j15, j16⟩ := grenadesPhase_spec env dt tI pokI1 pokI2 grI
      (fun m hm => ⟨(mI m hm).2.1, (mI m hm).2.2⟩)
  have sdJ1 : tJ.p1.side = Side.left := j1.2.1.trans sdI1
  have sdJ2 : tJ.p2.side = Side.right := j4.2.1.trans sdI2
  have idJ1 : tJ.p1.id = 1 := j1.1.trans idI1
  have idJ2 : tJ.p2.id = 2 := j4.1.trans idI2
  have wdJ1 : tJ.p1.width = 32 := j1.2.2.1.trans wdI1
  have htJ1 : tJ.p1.height = 32 := j1.2.2.2.1.trans htI1
  have wdJ2 : tJ.p2.width = 32 := j4.2.2.1.trans wdI2
  have htJ2 : tJ.p2.height = 32 := j4.2.2.2.1.trans htI2
  have wcJ1 : tJ.p1.weaponChosen = true := j1.2.2.2.2.2.1.trans wcI1
  have wcJ2 : tJ.p2.weaponChosen = true := j4.2.2.2.2.2.1.trans wcI2
  have pokJ1 : POk tJ.p1 := j3
  have pokJ2 : POk tJ.p2 := j6
  have gnJ1 : 0 ≤ tJ.p1.gold := by rw [j2]; exact gnI1
  have gnJ2 : 0 ≤ tJ.p2.gold := by rw [j5]; exact gnI2
  have bdJ1 : inBoundsP tJ.p1 := inBoundsP_of_pcore j1 bdI1
  have bdJ2 : inBoundsP tJ.p2 := inBoundsP_of_pcore j4 bdI2
  have mJ : ∀ m ∈ tJ.monsters,
      (m.radius = 34 ∨ m.radius = 60) ∧ inBoundsM m := j7
  have grJ : ∀ g ∈ tJ.grenades, GOk g := j8
  have buJ : ∀ b ∈ tJ.bullets, b.id < tJ.nextBulletId := by
    rw [j9, j14]
    exact buI
  have btJ : ∀ b ∈ tJ.bullets, ∃ b0, (b0 ∈ s.bullets ∨ b0 ∈ nb1 ∨ b0 ∈ nb2)
      ∧ b.id = b0.id ∧ b.ownerId = b0.ownerId := by
    rw [j9]
    exact btI
  have ebJ : ∀ e ∈ tJ.enemyBullets, 0 ≤ e.damage := by rw [j10]; exact ebI
  have drJ : ∀ g ∈ tJ.goldDrops, 0 ≤ g.amount := by rw [j11]; exact drI
  set tK := grenadesFilterPhase tJ with htK
  obtain ⟨k1, k2, k3, k4, k5, k6, k7, k8, k9, k10, k11, k12⟩ :=
    grenadesFilterPhase_spec tJ
  have sdK1 : tK.p1.side = Side.left := by rw [k1]; exact sdJ1
  have sdK2 : tK.p2.side = Side.right := by rw [k2]; exact sdJ2
  have idK1 : tK.p1.id = 1 := by rw [k1]; exact idJ1
  have idK2 : tK.p2.id = 2 := by rw [k2]; exact idJ2
  have wdK1 : tK.p1.width = 32 := by rw [k1]; exact wdJ1
  have htK1 : tK.p1.height = 32 := by rw [k1]; exact htJ1
  have wdK2 : tK.p2.width = 32 := by rw [k2]; exact wdJ2
  have htK2 : tK.p2.height = 32 := by rw [k2]; exact htJ2
  have wcK1 : tK.p1.weaponChosen = true := by rw [k1]; exact wcJ1
  have wcK2 : tK.p2.weaponChosen = true := by rw [k2]; exact wcJ2
  have pokK1 : POk tK.p1 := by rw [k1]; exact pokJ1
  have pokK2 : POk tK.p2 := by rw [k2]; exact pokJ2
  have gnK1 : 0 ≤ tK.p1.gold := by rw [k1]; exact gnJ1
  have gnK2 : 0 ≤ tK.p2.gold := by rw [k2]; exact gnJ2
  have bdK1 : inBoundsP tK.p1 := by rw [k1]; exact bdJ1
  have bdK2 : inBoundsP tK.p2 := by rw [k2]; exact bdJ2
  have mK : ∀ m ∈ tK.monsters,
      (m.radius = 34 ∨ m.radius = 60) ∧ inBoundsM m := by
    rw [k3]
    exact mJ
  have grK : ∀ g ∈ tK.grenades, GOk g := fun g hg => grJ g (k12 g hg)
  have buK : ∀ b ∈ tK.bullets, b.id < tK.nextBulletId := by
    rw [k4, k9]
    exact buJ
  have btK : ∀ b ∈ tK.bullets, ∃ b0, (b0 ∈ s.bullets ∨ b0 ∈ nb1 ∨ b0 ∈ nb2)
      ∧ b.id = b0.id ∧ b.ownerId = b0.ownerId := by
    rw [k4]
    exact btJ
  have ebK : ∀ e ∈ tK.enemyBullets, 0 ≤ e.damage := by rw [k5]; exact ebJ
  have drK : ∀ g ∈ tK.goldDrops, 0 ≤ g.amount := by rw [k6]; exact drJ
  set tL := bulletsMovePhase dt tK with htL
  obtain ⟨l1, l2, l3, l4, l5, l6, l7, l8, l9, l10, l11, l12⟩ :=
    bulletsMovePhase_spec dt tK
  have sdL1 : tL.p1.side = Side.left := by rw [l1]; exact sdK1
  have sdL2 : tL.p2.side = Side.right := by rw [l2]; exact sdK2
  have idL1 : tL.p1.id = 1 := by rw [l1]; exact idK1
  have idL2 : tL.p2.id = 2 := by rw [l2]; exact idK2
  have wdL1 : tL.p1.width = 32 := by rw [l1]; exact wdK1
  have htL1 : tL.p1.height = 32 := by rw [l1]; exact htK1
  have wdL2 : tL.p2.width = 32 := by rw [l2]; exact wdK2
  have htL2 : tL.p2.height = 32 := by rw [l2]; exact htK2
  have wcL1 : tL.p1.weaponChosen = true := by rw [l1]; exact wcK1
  have wcL2 : tL.p2.weaponChosen = true := by rw [l2]; exact wcK2
  have pokL1 : POk tL.p1 := by rw [l1]; exact pokK1
  have pokL2 : POk tL.p2 := by rw [l2]; exact pokK2
  have gnL1 : 0 ≤ tL.p1.gold := by rw [l1]; exact gnK1
  have gnL2 : 0 ≤ tL.p2.gold := by rw [l2]; exact gnK2
  have bdL1 : inBoundsP tL.p1 := by rw [l1]; exact bdK1
  have bdL2 : inBoundsP tL.p2 := by rw [l2]; exact bdK2
  have mL : ∀ m ∈ tL.monsters,
      (m.radius = 34 ∨ m.radius = 60) ∧ inBoundsM m := by
    rw [l3]
    exact mK
  have buL : ∀ b ∈ tL.bullets, b.id < tL.nextBulletId := by
    intro b hb
    obtain ⟨b0, hb0, hid, -⟩ := l12 b hb
    rw [hid, l9]
    exact buK b0 hb0
  have btL : ∀ b ∈ tL.bullets, ∃ b0, (b0 ∈ s.bullets ∨ b0 ∈ nb1 ∨ b0 ∈ nb2)
      ∧ b.id = b0.id ∧ b.ownerId = b0.ownerId := by
    intro b hb
    obtain ⟨b1, hb1, hid, hown⟩ := l12 b hb
    obtain ⟨b0, hb0, hid0, hown0⟩ := btK b1 hb1
    exact ⟨b0, hb0, hid.trans hid0, hown.trans hown0⟩
  have ebL : ∀ e ∈ tL.enemyBullets, 0 ≤ e.damage := by rw [l4]; exact ebK
  have grL : ∀ g ∈ tL.grenades, GOk g := by rw [l5]; exact grK
  have drL : ∀ g ∈ tL.goldDrops, 0 ≤ g.amount := by rw [l6]; exact drK
  set tM := bulletsHitPhase env tL with htM
  obtain ⟨mc1, mc2, mc3, mc4, mc5, mc6, mc7, mc8, mc9, mc10, mc11, mc12,
    mc13, mc14⟩ := bulletsHitPhase_spec env tL mL
  have sdM1 : tM.p1.side = Side.left := mc1.2.1.trans sdL1
  have sdM2 : tM.p2.side = Side.right := mc4.2.1.trans sdL2
  have idM1 : tM.p1.id = 1 := mc1.1.trans idL1
  have idM2 : tM.p2.id = 2 := mc4.1.trans idL2
  have wdM1 : tM.p1.width = 32 := mc1.2.2.1.trans wdL1
  have htM1 : tM.p1.height = 32 := mc1.2.2.2.1.trans htL1
  have wdM2 : tM.p2.width = 32 := mc4.2.2.1.trans wdL2
  have htM2 : tM.p2.height = 32 := mc4.2.2.2.1.trans htL2
  have wcM1 : tM.p1.weaponChosen = true := mc1.2.2.2.2.2.1.trans wcL1
  have wcM2 : tM.p2.weaponChosen = true := mc4.2.2.2.2.2.1.trans wcL2
  have pokM1 : POk tM.p1 := pok_of_pcore mc1 mc2 pokL1
  have pokM2 : POk tM.p2 := pok_of_pcore mc4 mc5 pokL2
  have gnM1 : 0 ≤ tM.p1.gold := by rw [mc3]; exact gnL1
  have gnM2 : 0 ≤ tM.p2.gold := by rw [mc6]; exact gnL2
  have bdM1 : inBoundsP tM.p1 := inBoundsP_of_pcore mc1 bdL1
  have bdM2 : inBoundsP tM.p2 := inBoundsP_of_pcore mc4 bdL2
  have mM : ∀ m ∈ tM.monsters,
      (m.radius = 34 ∨ m.radius = 60) ∧ inBoundsM m := mc7
  have buM : ∀ b ∈ tM.bullets, b.id < tM.nextBulletId := by
    intro b hb
    obtain ⟨b0, hb0, hid, -⟩ := mc8 b hb
    rw [hid, mc12]
    exact buL b0 hb0
  have btM : ∀ b ∈ tM.bullets, ∃ b0, (b0 ∈ s.bullets ∨ b0 ∈ nb1 ∨ b0 ∈ nb2)
      ∧ b.id = b0.id ∧ b.ownerId = b0.ownerId := by
    intro b hb
    obtain ⟨b1, hb1, hid, hown⟩ := mc8 b hb
    obtain ⟨b0, hb0, hid0, hown0⟩ := btL b1 hb1
    exact ⟨b0, hb0, hid.trans hid0, hown.trans hown0⟩
  have drM : ∀ g ∈ tM.goldDrops, 0 ≤ g.amount := by
    intro g hg
    rcases mc9 g hg with h | h
    · exact drL g h
    · rw [h]
      unfold GOLD_PER_PICKUP
      norm_num
  have ebM : ∀ e ∈ tM.enemyBullets, 0 ≤ e.damage := by rw [mc10]; exact ebL
  have grM : ∀ g ∈ tM.grenades, GOk g := by rw [mc11]; exact grL
  set tN := contactPhase env tM with htN
  obtain ⟨n1, n2, n3, n4, n5, n6, n7, n8, n9, n10, n11, n12, n13, n14,
    n15, n16⟩ := contactPhase_spec env tM pokM1 pokM2 mM
  have sdN1 : tN.p1.side = Side.left := n1.2.1.trans sdM1
  have sdN2 : tN.p2.side = Side.right := n4.2.1.trans sdM2
  have idN1 : tN.p1.id = 1 := n1.1.trans idM1
  have idN2 : tN.p2.id = 2 := n4.1.trans idM2
  have wdN1 : tN.p1.width = 32 := n1.2.2.1.trans wdM1
  have htN1 : tN.p1.height = 32 := n1.2.2.2.1.trans htM1
  have wdN2 : tN.p2.width = 32 := n4.2.2.1.trans wdM2
  have htN2 : tN.p2.height = 32 := n4.2.2.2.1.trans htM2
  have wcN1 : tN.p1.weaponChosen = true := n1.2.2.2.2.2.1.trans wcM1
  have wcN2 : tN.p2.weaponChosen = true := n4.2.2.2.2.2.1.trans wcM2
  have pokN1 : POk tN.p1 := n3
  have pokN2 : POk tN.p2 := n6
  have gnN1 : 0 ≤ tN.p1.gold := by rw [n2]; exact gnM1
  have gnN2 : 0 ≤ tN.p2.gold := by rw [n5]; exact gnM2
  have bdN1 : inBoundsP tN.p1 := inBoundsP_of_pcore n1 bdM1
  have bdN2 : inBoundsP tN.p2 := inBoundsP_of_pcore n4 bdM2
  have mN : ∀ m ∈ tN.monsters,
      0 < m.hp ∧ (m.radius = 34 ∨ m.radius = 60) ∧ inBoundsM m := n7
  have buN : ∀ b ∈ tN.bullets, b.id < tN.nextBulletId := by
    rw [n8, n14]
    exact buM
  have btN : ∀ b ∈ tN.bullets, ∃ b0, (b0 ∈ s.bullets ∨ b0 ∈ nb1 ∨ b0 ∈ nb2)
      ∧ b.id = b0.id ∧ b.ownerId = b0.ownerId := by
    rw [n8]
    exact btM
  have ebN : ∀ e ∈ tN.enemyBullets, 0 ≤ e.damage := by rw [n9]; exact ebM
  have grN : ∀ g ∈ tN.grenades, GOk g := by rw [n10]; exact grM
  have drN : ∀ g ∈ tN.goldDrops, 0 ≤ g.amount := by rw [n11]; exact drM
  set tO := pickupsPhase env tN with htO
  obtain ⟨o1, o2, o3, o4, o5, o6, o7, o8, o9, o10, o11, o12, o13, o14⟩ :=
    pickupsPhase_spec env tN pokN1 pokN2 gnN1 gnN2 drN
  have sdO1 : tO.p1.side = Side.left := o1.2.1.trans sdN1
  have sdO2 : tO.p2.side = Side.right := o4.2.1.trans sdN2
  have idO1 : tO.p1.id = 1 := o1.1.trans idN1
  have idO2 : tO.p2.id = 2 := o4.1.trans idN2
  have wdO1 : tO.p1.width = 32 := o1.2.2.1.trans wdN1
  have htO1 : tO.p1.height = 32 := o1.2.2.2.1.trans htN1
  have wdO2 : tO.p2.width = 32 := o4.2.2.1.trans wdN2
  have htO2 : tO.p2.height = 32 := o4.2.2.2.1.trans htN2
  have wcO1 : tO.p1.weaponChosen = true := o1.2.2.2.2.2.1.trans wcN1
  have wcO2 : tO.p2.weaponChosen = true := o4.2.2.2.2.2.1.trans wcN2
  have pokO1 : POk tO.p1 := o2
  have pokO2 : POk tO.p2 := o5
  have gnO1 : 0 ≤ tO.p1.gold := o3
  have gnO2 : 0 ≤ tO.p2.gold := o6
  have bdO1 : inBoundsP tO.p1 := inBoundsP_of_pcore o1 bdN1
  have bdO2 : inBoundsP tO.p2 := inBoundsP_of_pcore o4 bdN2
  have mO : ∀ m ∈ tO.monsters,
      0 < m.hp ∧ (m.radius = 34 ∨ m.radius = 60) ∧ inBoundsM m := by
    rw [o8]
    exact mN
  have buO : ∀ b ∈ tO.bullets, b.id < tO.nextBulletId := by
    rw [o9, o12]
    exact buN
  have btO : ∀ b ∈ tO.bullets, ∃ b0, (b0 ∈ s.bullets ∨ b0 ∈ nb1 ∨ b0 ∈ nb2)
      ∧ b.id = b0.id ∧ b.ownerId = b0.ownerId := by
    rw [o9]
    exact btN
  have ebO : ∀ e ∈ tO.enemyBullets, 0 ≤ e.damage := by rw [o10]; exact ebN
  have grO : ∀ g ∈ tO.grenades, GOk g := by rw [o11]; exact grN
  have drO : ∀ g ∈ tO.goldDrops, 0 ≤ g.amount := o7
  have hfin : updatePlaying env dt inputs s = gameOverPhase tO := rfl
  rw [hfin]
  obtain ⟨p1e, p2e, mse, bue, ebe, gre, dre, nide⟩ := gameOverPhase_frame2 tO
  refine
    ⟨{ sideL := ?_, sideR := ?_, id1 := ?_, id2 := ?_, dims1 := ?_,
       dims2 := ?_, hp1 := ?_, hp2 := ?_, alive := ?_, gold1 := ?_,
       gold2 := ?_, weapons := ?_, pB1 := ?_, pB2 := ?_, mAlive := ?_,
       mRad := ?_, mB := ?_, bIds := ?_, dropAmt := ?_, gren := ?_,
       ebDmg := ?_ }, nb1, nb2,
     fun b hb => (bhn1 b hb).1.trans a1.1,
     fun b hb => (bhn2 b hb).1.trans a4.1, ?_, ?_, ?_⟩
  · rw [p1e]; exact sdO1
  · rw [p2e]; exact sdO2
  · rw [p1e]; exact idO1
  · rw [p2e]; exact idO2
  · rw [p1e]; exact ⟨wdO1, htO1⟩
  · rw [p2e]; exact ⟨wdO2, htO2⟩
  · rw [p1e]; exact pokO1
  · rw [p2e]; exact pokO2
  · intro hne
    rw [p1e, p2e]
    exact gameOverPhase_alive_imp tO sdO1 sdO2 hne
  · rw [p1e]; exact gnO1
  · rw [p2e]; exact gnO2
  · intro _
    rw [p1e, p2e]
    exact ⟨wcO1, wcO2⟩
  · rw [p1e]; exact bdO1
  · rw [p2e]; exact bdO2
  · rw [mse]
    exact fun m hm => (mO m hm).1
  · rw [mse]
    exact fun m hm => (mO m hm).2.1
  · rw [mse]
    exact fun m hm => (mO m hm).2.2
  · rw [bue, nide]
    exact buO
  · rw [dre]
    exact drO
  · rw [gre]
    exact grO
  · rw [ebe]
    exact ebO
  · intro hm
    refine bhz1 ?_
    intro m hmm hme
    rw [a7] at hmm
    exact hm m hmm ⟨hme.1, hme.2.trans a1.2.1⟩
  · intro hm
    refine bhz2 ?_
    intro m hmm hme
    rw [a7] at hmm
    exact hm m hmm ⟨hme.1, hme.2.trans a4.2.1⟩
  · rw [bue]
    exact btO

-- startNewRound -----------------------------------------------------------

theorem deployGrenadesLoop_spec (env : Env) (side : Side) :
    ∀ (n : ℕ) (s : GState),
      (deployGrenadesLoop env side n s).p1 = s.p1
      ∧ (deployGrenadesLoop env side n s).p2 = s.p2
      ∧ (deployGrenadesLoop env side n s).monsters = s.monsters
      ∧ (deployGrenadesLoop env side n s).bullets = s.bullets
      ∧ (deployGrenadesLoop env side n s).enemyBullets = s.enemyBullets
      ∧ (deployGrenadesLoop env side n s).goldDrops = s.goldDrops
      ∧ (deployGrenadesLoop env side n s).nextBulletId = s.nextBulletId
      ∧ (deployGrenadesLoop env side n s).state = s.state
      ∧ ((∀ g ∈ s.grenades, GOk g) →
          ∀ g ∈ (deployGrenadesLoop env side n s).grenades, GOk g) := by
  intro n
  induction n with
  | zero =>
    intro s
    exact ⟨rfl, rfl, rfl, rfl, ⟨rfl, rfl, rfl, rfl, fun h => h⟩⟩
  | succ k ih =>
    intro s
    refine ⟨(ih _).1, (ih _).2.1, (ih _).2.2.1, (ih _).2.2.2.1,
      (ih _).2.2.2.2.1, (ih _).2.2.2.2.2.1, (ih _).2.2.2.2.2.2.1,
      (ih _).2.2.2.2.2.2.2.1, ?_⟩
    intro h
    refine (ih _).2.2.2.2.2.2.2.2 ?_
    intro g hg
    rcases List.mem_append.mp hg with h' | h'
    · exact h g h'
    · rw [List.mem_singleton.mp h']
      exact ⟨rfl, rfl⟩

theorem deployGrenadesSide_spec (env : Env) (side : Side) (s : GState) :
    (deployGrenadesSide env side s).p1 = s.p1
    ∧ (deployGrenadesSide env side s).p2 = s.p2
    ∧ (deployGrenadesSide env side s).monsters = s.monsters
    ∧ (deployGrenadesSide env side s).bullets = s.bullets
    ∧ (deployGrenadesSide env side s).enemyBullets = s.enemyBullets
    ∧ (deployGrenadesSide env side s).goldDrops = s.goldDrops
    ∧ (deployGrenadesSide env side s).nextBulletId = s.nextBulletId
    ∧ (deployGrenadesSide env side s).state = s.state
    ∧ ((∀ g ∈ s.grenades, GOk g) →
        ∀ g ∈ (deployGrenadesSide env side s).grenades, GOk g) := by
  obtain ⟨q1, q2, q3, q4, q5, q6, q7, q8, q9⟩ :=
    deployGrenadesLoop_spec env side (s.pendingGrenades.get side) s
  exact ⟨q1, q2, q3, q4, q5, q6, q7, q8, q9⟩

/-- `startNewRound` re-enters PLAYING with the players unchanged, the
wave-scoped collections cleared, and only configured grenades deployed. -/
theorem startNewRound_spec (env : Env) (s : GState) :
    (startNewRound env s).p1 = s.p1
    ∧ (startNewRound env s).p2 = s.p2
    ∧ (startNewRound env s).monsters = []
    ∧ (startNewRound env s).bullets = []
    ∧ (startNewRound env s).enemyBullets = []
    ∧ (startNewRound env s).goldDrops = []
    ∧ (startNewRound env s).state = Phase.playing
    ∧ ∀ g ∈ (startNewRound env s).grenades, GOk g := by
  unfold startNewRound
  dsimp only
  set T0 : GState := { s with
    state := Phase.playing
    winner := none
    waveLeft := WAVE_TIME
    monsters := []
    bullets := []
    enemyBullets := []
    grenades := []
    goldDrops := []
    hearts := []
    spawnWarnings := [] } with hT0
  set TL := deployGrenadesSide env Side.left T0 with hTL
  set TR := deployGrenadesSide env Side.right TL with hTR
  obtain ⟨u1, u2, u3, u4, u5, u6, u7, u8, u9⟩ :=
    deployGrenadesSide_spec env Side.left T0
  obtain ⟨v1, v2, v3, v4, v5, v6, v7, v8, v9⟩ :=
    deployGrenadesSide_spec env Side.right TL
  have hg : ∀ g ∈ TR.grenades, GOk g :=
    v9 (u9 (fun g hg' => absurd hg' (List.not_mem_nil g)))
  refine ⟨?_, ?_, ?_, ?_, ⟨?_, ?_, ?_, ?_⟩⟩
  · exact v1.trans u1
  · exact v2.trans u2
  · exact v3.trans u3
  · exact v4.trans u4
  · exact v5.trans u5
  · exact v6.trans u6
  · exact v8.trans u8
  · exact hg

/-- `startNewRound` preserves the invariant when the entering state has
two live, weapon-equipped players with legal fields. -/
theorem startNewRound_inv (env : Env) {s : GState}
    (hsd : s.p1.side = Side.left ∧ s.p2.side = Side.right)
    (hid : s.p1.id = 1 ∧ s.p2.id = 2)
    (hdm : (s.p1.width = 32 ∧ s.p1.height = 32)
      ∧ (s.p2.width = 32 ∧ s.p2.height = 32))
    (hpok : POk s.p1 ∧ POk s.p2)
    (hgold : 0 ≤ s.p1.gold ∧ 0 ≤ s.p2.gold)
    (hbd : inBoundsP s.p1 ∧ inBoundsP s.p2)
    (hav : 0 < s.p1.hp ∧ 0 < s.p2.hp)
    (hwc : s.p1.weaponChosen = true ∧ s.p2.weaponChosen = true) :
    Inv (startNewRound env s) := by
  obtain ⟨r1, r2, r3, r4, r5, r6, r7, r8⟩ := startNewRound_spec env s
  refine
    { sideL := ?_, sideR := ?_, id1 := ?_, id2 := ?_, dims1 := ?_,
      dims2 := ?_, hp1 := ?_, hp2 := ?_, alive := ?_, gold1 := ?_,
      gold2 := ?_, weapons := ?_, pB1 := ?_, pB2 := ?_, mAlive := ?_,
      mRad := ?_, mB := ?_, bIds := ?_, dropAmt := ?_, gren := ?_,
      ebDmg := ?_ }
  · rw [r1]; exact hsd.1
  · rw [r2]; exact hsd.2
  · rw [r1]; exact hid.1
  · rw [r2]; exact hid.2
  · rw [r1]; exact hdm.1
  · rw [r2]; exact hdm.2
  · rw [r1]; exact hpok.1
  · rw [r2]; exact hpok.2
  · intro _
    rw [r1, r2]
    exact hav
  · rw [r1]; exact hgold.1
  · rw [r2]; exact hgold.2
  · intro _
    rw [r1, r2]
    exact hwc
  · rw [r1]; exact hbd.1
  · rw [r2]; exact hbd.2
  · rw [r3]
    exact fun m hm => absurd hm (List.not_mem_nil m)
  · rw [r3]
    exact fun m hm => absurd hm (List.not_mem_nil m)
  · rw [r3]
    exact fun m hm => absurd hm (List.not_mem_nil m)
  · rw [r4]
    exact fun b hb => absurd hb (List.not_mem_nil b)
  · rw [r6]
    exact fun g hg => absurd hg (List.not_mem_nil g)
  · exact r8
  · rw [r5]
    exact fun e he => absurd he (List.not_mem_nil e)

-- Shop and weapon-select ticks --------------------------------------------

/-- A SHOP tick preserves the invariant. -/
theorem updateShop_inv (env : Env) (dt : ℚ) {s : GState} (hI : Inv s)
    (hst : s.state = Phase.shop) : Inv (updateShop env dt s) := by
  have hal := hI.alive (by rw [hst]; decide)
  have hwc := hI.weapons (Or.inr hst)
  unfold updateShop
  dsimp only
  split_ifs with h1 h2
  · exact startNewRound_inv env ⟨hI.sideL, hI.sideR⟩ ⟨hI.id1, hI.id2⟩
      ⟨hI.dims1, hI.dims2⟩ ⟨hI.hp1, hI.hp2⟩ ⟨hI.gold1, hI.gold2⟩
      ⟨hI.pB1, hI.pB2⟩ hal hwc
  · exact startNewRound_inv env ⟨hI.sideL, hI.sideR⟩ ⟨hI.id1, hI.id2⟩
      ⟨hI.dims1, hI.dims2⟩ ⟨hI.hp1, hI.hp2⟩ ⟨hI.gold1, hI.gold2⟩
      ⟨hI.pB1, hI.pB2⟩ hal hwc
  · exact ⟨hI.sideL, hI.sideR, hI.id1, hI.id2, hI.dims1, hI.dims2, hI.hp1,
      hI.hp2, hI.alive, hI.gold1, hI.gold2, hI.weapons, hI.pB1, hI.pB2,
      hI.mAlive, hI.mRad, hI.mB, hI.bIds, hI.dropAmt, hI.gren, hI.ebDmg⟩

/-- A WEAPON_SELECT tick preserves the invariant. -/
theorem updateWeaponSelect_inv (env : Env) (dt : ℚ) {s : GState} (hI : Inv s)
    (hst : s.state = Phase.weaponSelect) : Inv (updateWeaponSelect env dt s) := by
  have hal := hI.alive (by rw [hst]; decide)
  have hu1 := update_pcore s.p1 dt
  have hu2 := update_pcore s.p2 dt
  have hpok1 : POk (s.p1.update dt) := pok_of_pcore hu1 (update_hp s.p1 dt) hI.hp1
  have hpok2 : POk (s.p2.update dt) := pok_of_pcore hu2 (update_hp s.p2 dt) hI.hp2
  unfold updateWeaponSelect
  dsimp only
  split_ifs with h
  · rw [Bool.and_eq_true] at h
    obtain ⟨hl, hr⟩ := h
    rw [Bool.or_eq_true] at hl hr
    have hw1 : (s.p1.update dt).weaponChosen = true := by
      rcases hl with h' | h'
      · rw [Bool.and_eq_true] at h'
        exact h'.2
      · rw [Bool.and_eq_true] at h'
        have hside := of_decide_eq_true h'.1
        rw [update_side, hI.sideR] at hside
        exact absurd hside (by decide)
    have hw2 : (s.p2.update dt).weaponChosen = true := by
      rcases hr with h' | h'
      · rw [Bool.and_eq_true] at h'
        have hside := of_decide_eq_true h'.1
        rw [update_side, hI.sideL] at hside
        exact absurd hside (by decide)
      · rw [Bool.and_eq_true] at h'
        exact h'.2
    refine startNewRound_inv env ?_ ?_ ?_ ?_ ?_ ?_ ?_ ?_
    · exact ⟨(update_side s.p1 dt).trans hI.sideL,
        (update_side s.p2 dt).trans hI.sideR⟩
    · exact ⟨hu1.1.trans hI.id1, hu2.1.trans hI.id2⟩
    · exact ⟨⟨hu1.2.2.1.trans hI.dims1.1, hu1.2.2.2.1.trans hI.dims1.2⟩,
        ⟨hu2.2.2.1.trans hI.dims2.1, hu2.2.2.2.1.trans hI.dims2.2⟩⟩
    · exact ⟨hpok1, hpok2⟩
    · exact ⟨by rw [update_gold]; exact hI.gold1,
        by rw [update_gold]; exact hI.gold2⟩
    · exact ⟨inBoundsP_of_pcore hu1 hI.pB1, inBoundsP_of_pcore hu2 hI.pB2⟩
    · exact ⟨by rw [update_hp]; exact hal.1, by rw [update_hp]; exact hal.2⟩
    · exact ⟨hw1, hw2⟩
  · refine ⟨(update_side s.p1 dt).trans hI.sideL,
      (update_side s.p2 dt).trans hI.sideR,
      hu1.1.trans hI.id1, hu2.1.trans hI.id2,
      ⟨hu1.2.2.1.trans hI.dims1.1, hu1.2.2.2.1.trans hI.dims1.2⟩,
      ⟨hu2.2.2.1.trans hI.dims2.1, hu2.2.2.2.1.trans hI.dims2.2⟩,
      hpok1, hpok2, ?_, by rw [update_gold]; exact hI.gold1,
      by rw [update_gold]; exact hI.gold2, ?_,
      inBoundsP_of_pcore hu1 hI.pB1, inBoundsP_of_pcore hu2 hI.pB2,
      hI.mAlive, hI.mRad, hI.mB, hI.bIds, hI.dropAmt, hI.gren, hI.ebDmg⟩
    · intro _
      rw [update_hp, update_hp]
      exact hal
    · intro hps
      rcases hps with h' | h' <;>
        (rw [hst] at h'
         exact Phase.noConfusion h')

-- Handlers ----------------------------------------------------------------

theorem pok_of_eq {p q : Player} (hhp : q.hp = p.hp) (hmx : q.maxHp = p.maxHp)
    (h : POk p) : POk q := by
  unfold POk at h ⊢
  rw [hhp, hmx]
  exact h

theorem inBoundsP_of_eq {p q : Player} (hs : q.side = p.side)
    (hw : q.width = p.width) (hh : q.height = p.height) (hx : q.x = p.x)
    (hy : q.y = p.y) (hb : inBoundsP p) : inBoundsP q := by
  unfold inBoundsP pMinX pMaxX at hb ⊢
  rw [hs, hw, hh, hx, hy]
  exact hb

theorem setWeapon_frame (p : Player) (wt : Option WeaponType) :
    (p.setWeapon wt).id = p.id ∧ (p.setWeapon wt).side = p.side
    ∧ (p.setWeapon wt).width = p.width ∧ (p.setWeapon wt).height = p.height
    ∧ (p.setWeapon wt).maxHp = p.maxHp ∧ (p.setWeapon wt).hp = p.hp
    ∧ (p.setWeapon wt).gold = p.gold ∧ (p.setWeapon wt).x = p.x
    ∧ (p.setWeapon wt).y = p.y := by
  unfold Player.setWeapon
  cases wt <;> exact ⟨rfl, rfl, rfl, rfl, ⟨rfl, rfl, ⟨rfl, rfl, rfl⟩⟩⟩

theorem upgradeWeapon_frame (p : Player) :
    p.upgradeWeapon.id = p.id ∧ p.upgradeWeapon.side = p.side
    ∧ p.upgradeWeapon.width = p.width ∧ p.upgradeWeapon.height = p.height
    ∧ p.upgradeWeapon.maxHp = p.maxHp
    ∧ p.upgradeWeapon.weaponChosen = p.weaponChosen
    ∧ p.upgradeWeapon.x = p.x ∧ p.upgradeWeapon.y = p.y
    ∧ p.upgradeWeapon.hp = p.hp ∧ p.upgradeWeapon.gold = p.gold := by
  unfold Player.upgradeWeapon
  cases p.weaponType <;>
    exact ⟨rfl, rfl, rfl, rfl, ⟨rfl, rfl, rfl, ⟨rfl, rfl, rfl⟩⟩⟩

theorem heal_pos {p : Player} {a : ℚ} (h : 0 < p.hp) (hmx : p.hp ≤ p.maxHp)
    (ha : 0 ≤ a) : 0 < (p.heal a).hp := by
  unfold Player.heal clamp
  dsimp only
  refine lt_max_iff.mpr (Or.inr ?_)
  exact lt_min (lt_of_lt_of_le h hmx) (by linarith)

theorem getPlayer_facts {s : GState} {q : Player} {pid : ℕ} (hI : Inv s)
    (hq : s.getPlayer pid = some q) : POk q ∧ 0 ≤ q.gold := by
  unfold GState.getPlayer at hq
  split_ifs at hq with g1 g2
  · cases Option.some.inj hq
    exact ⟨hI.hp1, hI.gold1⟩
  · cases Option.some.inj hq
    exact ⟨hI.hp2, hI.gold2⟩

/-- Reading back after a write: `updatePlayer` followed by `getPlayer` on
the same id returns the mutated player, provided the mutation keeps the
id. -/
theorem getPlayer_update {s : GState} {p : Player} {pid : ℕ}
    {f : Player → Player} (hq : s.getPlayer pid = some p)
    (hid : (f p).id = p.id) :
    (s.updatePlayer pid f).getPlayer pid = some (f p) := by
  unfold GState.getPlayer at hq
  unfold GState.updatePlayer GState.getPlayer
  split_ifs at hq with g1 g2
  · cases Option.some.inj hq
    rw [if_pos g1]
    dsimp only
    rw [if_pos (hid.trans g1)]
  · cases Option.some.inj hq
    rw [if_neg g1, if_pos g2]
    dsimp only
    rw [if_neg g1, if_pos (hid.trans g2)]

/-- Writing back a player mutation that keeps the invariant-relevant fields
keeps the whole invariant. -/
theorem updatePlayer_inv_of {s : GState} (hI : Inv s) (pid : ℕ)
    (f : Player → Player)
    (hf : ∀ q : Player, s.getPlayer pid = some q →
      (f q).id = q.id ∧ (f q).side = q.side ∧ (f q).width = q.width
      ∧ (f q).height = q.height ∧ (f q).maxHp = q.maxHp
      ∧ ((s.state = Phase.playing ∨ s.state = Phase.shop) →
          (f q).weaponChosen = q.weaponChosen)
      ∧ (f q).x = q.x ∧ (f q).y = q.y
      ∧ (POk q → POk (f q)) ∧ (0 < q.hp → 0 < (f q).hp)
      ∧ 0 ≤ (f q).gold) :
    Inv (s.updatePlayer pid f) := by
  unfold GState.updatePlayer
  try dsimp only
  split_ifs with g1 g2
  · obtain ⟨e1, e2, e3, e4, e5, e6, e7, e8, e9, e10, e11⟩ :=
      hf s.p1 (by unfold GState.getPlayer; rw [if_pos g1])
    refine ⟨e2.trans hI.sideL, hI.sideR, e1.trans hI.id1, hI.id2,
      ⟨e3.trans hI.dims1.1, e4.trans hI.dims1.2⟩, hI.dims2,
      e9 hI.hp1, hI.hp2, ?_, e11, hI.gold2, ?_,
      inBoundsP_of_eq e2 e3 e4 e7 e8 hI.pB1, hI.pB2,
      hI.mAlive, hI.mRad, hI.mB, hI.bIds, hI.dropAmt, hI.gren, hI.ebDmg⟩
    · intro hne
      have hv := hI.alive hne
      exact ⟨e10 hv.1, hv.2⟩
    · intro hps
      have hv := hI.weapons hps
      exact ⟨(e6 hps).trans hv.1, hv.2⟩
  · obtain ⟨e1, e2, e3, e4, e5, e6, e7, e8, e9, e10, e11⟩ :=
      hf s.p2 (by unfold GState.getPlayer; rw [if_neg g1, if_pos g2])
    refine ⟨hI.sideL, e2.trans hI.sideR, hI.id1, e1.trans hI.id2,
      hI.dims1, ⟨e3.trans hI.dims2.1, e4.trans hI.dims2.2⟩,
      hI.hp1, e9 hI.hp2, ?_, hI.gold1, e11, ?_,
      hI.pB1, inBoundsP_of_eq e2 e3 e4 e7 e8 hI.pB2,
      hI.mAlive, hI.mRad, hI.mB, hI.bIds, hI.dropAmt, hI.gren, hI.ebDmg⟩
    · intro hne
      have hv := hI.alive hne
      exact ⟨hv.1, e10 hv.2⟩
    · intro hps
      have hv := hI.weapons hps
      exact ⟨hv.1, (e6 hps).trans hv.2⟩
  · exact ⟨hI.sideL, hI.sideR, hI.id1, hI.id2, hI.dims1, hI.dims2, hI.hp1,
      hI.hp2, hI.alive, hI.gold1, hI.gold2, hI.weapons, hI.pB1, hI.pB2,
      hI.mAlive, hI.mRad, hI.mB, hI.bIds, hI.dropAmt, hI.gren, hI.ebDmg⟩

/-- `handleWeaponChoice` preserves the invariant. -/
theorem handleWeaponChoice_inv (pid : ℕ) (wt : Option WeaponType) {s : GState}
    (hI : Inv s) : Inv (handleWeaponChoice pid wt s) := by
  unfold handleWeaponChoice
  try dsimp only
  split_ifs with h1 h2
  · exact hI
  · exact hI
  · have hstw : s.state = Phase.weaponSelect := not_not.mp h1
    refine updatePlayer_inv_of hI pid _ ?_
    intro q hq
    obtain ⟨w1, w2, w3, w4, w5, w6, w7, w8, w9⟩ := setWeapon_frame q wt
    refine ⟨w1, w2, w3, w4, w5, ?_, w8, w9, fun h => pok_of_eq w6 w5 h,
      fun h => by rw [w6]; exact h, by rw [w7]; exact (getPlayer_facts hI hq).2⟩
    intro hps
    rw [hstw] at hps
    rcases hps with hcon | hcon <;> exact Phase.noConfusion hcon

/-- `handleShopAction` preserves the invariant. -/
theorem handleShopAction_inv (pid : ℕ) (a : ShopAction) {s : GState}
    (hI : Inv s) : Inv (handleShopAction pid a s) := by
  unfold handleShopAction
  try dsimp only
  split_ifs with h1
  · exact hI
  · cases hgp : s.getPlayer pid with
    | none => exact hI
    | some p =>
      dsimp only
      obtain ⟨hpok, hpg⟩ := getPlayer_facts hI hgp
      cases a with
      | upgradeWeapon =>
        dsimp only
        split_ifs with hc
        · refine updatePlayer_inv_of hI pid _ ?_
          intro q hq
          cases Option.some.inj (hgp.symm.trans hq)
          obtain ⟨w1, w2, w3, w4, w5, w6, w7, w8, w9, w10⟩ :=
            upgradeWeapon_frame { p with gold := p.gold - UPGRADE_COST }
          refine ⟨w1, w2, w3, w4, w5, fun _ => w6, w7, w8,
            fun h => pok_of_eq w9 w5 h, fun h => by rw [w9]; exact h, ?_⟩
          rw [w10]
          show 0 ≤ p.gold - UPGRADE_COST
          linarith [hc]
        · exact hI
      | heal =>
        dsimp only
        split_ifs with hc
        · refine updatePlayer_inv_of hI pid _ ?_
          intro q hq
          cases Option.some.inj (hgp.symm.trans hq)
          obtain ⟨w1, w2, w3, w4, w5, w6, w7, w8⟩ :=
            heal_pcore { p with gold := p.gold - HEAL_COST } HEAL_AMOUNT
          refine ⟨w1, w2, w3, w4, w5, fun _ => w6, w7, w8,
            fun h => pok_heal h HEAL_AMOUNT,
            fun h => heal_pos h hpok.2 (by unfold HEAL_AMOUNT; norm_num), ?_⟩
          rw [heal_gold]
          show 0 ≤ p.gold - HEAL_COST
          linarith [hc]
        · exact hI
      | send mob =>
        dsimp only
        split_ifs with hc hs2
        · exact hI
        all_goals
          have hI' := updatePlayer_inv_of hI pid
            (fun q => { q with gold := q.gold - SEND_MOB_COST mob })
            (fun q hq => by
              cases Option.some.inj (hgp.symm.trans hq)
              refine ⟨rfl, rfl, rfl, rfl, rfl, fun _ => rfl, rfl, rfl,
                fun h => h, fun h => h, ?_⟩
              show 0 ≤ p.gold - SEND_MOB_COST mob
              have hle := le_of_not_lt hc
              linarith [hle])
        all_goals
          exact ⟨hI'.sideL, hI'.sideR, hI'.id1, hI'.id2, hI'.dims1,
            hI'.dims2, hI'.hp1, hI'.hp2, hI'.alive, hI'.gold1, hI'.gold2,
            hI'.weapons, hI'.pB1, hI'.pB2, hI'.mAlive, hI'.mRad, hI'.mB,
            hI'.bIds, hI'.dropAmt, hI'.gren, hI'.ebDmg⟩
      | sendUnknown => exact hI
      | sendBoss =>
        dsimp only
        split_ifs with hc hs2
        · exact hI
        all_goals
          have hI' := updatePlayer_inv_of hI pid
            (fun q => { q with gold := q.gold - SEND_BOSS_COST })
            (fun q hq => by
              cases Option.some.inj (hgp.symm.trans hq)
              refine ⟨rfl, rfl, rfl, rfl, rfl, fun _ => rfl, rfl, rfl,
                fun h => h, fun h => h, ?_⟩
              show 0 ≤ p.gold - SEND_BOSS_COST
              have hle := le_of_not_lt hc
              linarith [hle])
        all_goals
          exact ⟨hI'.sideL, hI'.sideR, hI'.id1, hI'.id2, hI'.dims1,
            hI'.dims2, hI'.hp1, hI'.hp2, hI'.alive, hI'.gold1, hI'.gold2,
            hI'.weapons, hI'.pB1, hI'.pB2, hI'.mAlive, hI'.mRad, hI'.mB,
            hI'.bIds, hI'.dropAmt, hI'.gren, hI'.ebDmg⟩
      | sendGrenade =>
        dsimp only
        split_ifs with hc1 hc2 hs2
        · exact hI
        · exact hI
        all_goals
          have hI' := updatePlayer_inv_of hI pid
            (fun q => { q with gold := q.gold - GRENADE_COST,
                               grenadesBoughtThisRound :=
                                 q.grenadesBoughtThisRound + 1 })
            (fun q hq => by
              cases Option.some.inj (hgp.symm.trans hq)
              refine ⟨rfl, rfl, rfl, rfl, rfl, fun _ => rfl, rfl, rfl,
                fun h => h, fun h => h, ?_⟩
              show 0 ≤ p.gold - GRENADE_COST
              have hle := le_of_not_lt hc2
              linarith [hle])
        all_goals
          exact ⟨hI'.sideL, hI'.sideR, hI'.id1, hI'.id2, hI'.dims1,
            hI'.dims2, hI'.hp1, hI'.hp2, hI'.alive, hI'.gold1, hI'.gold2,
            hI'.weapons, hI'.pB1, hI'.pB2, hI'.mAlive, hI'.mRad, hI'.mB,
            hI'.bIds, hI'.dropAmt, hI'.gren, hI'.ebDmg⟩
      | startRound =>
        dsimp only
        split_ifs with hsd
        · exact ⟨hI.sideL, hI.sideR, hI.id1, hI.id2, hI.dims1, hI.dims2,
            hI.hp1, hI.hp2, hI.alive, hI.gold1, hI.gold2, hI.weapons,
            hI.pB1, hI.pB2, hI.mAlive, hI.mRad, hI.mB, hI.bIds, hI.dropAmt,
            hI.gren, hI.ebDmg⟩
        · exact ⟨hI.sideL, hI.sideR, hI.id1, hI.id2, hI.dims1, hI.dims2,
            hI.hp1, hI.hp2, hI.alive, hI.gold1, hI.gold2, hI.weapons,
            hI.pB1, hI.pB2, hI.mAlive, hI.mRad, hI.mB, hI.bIds, hI.dropAmt,
            hI.gren, hI.ebDmg⟩
      | other => exact hI

/-- `handleReady` preserves the invariant. -/
theorem handleReady_inv (pid : ℕ) {s : GState} (hI : Inv s) :
    Inv (handleReady pid s) := by
  unfold handleReady
  try dsimp only
  split_ifs with h1
  · exact hI
  · cases hgp : s.getPlayer pid with
    | none => exact hI
    | some p =>
      dsimp only
      split_ifs with hsd
      · exact ⟨hI.sideL, hI.sideR, hI.id1, hI.id2, hI.dims1, hI.dims2,
          hI.hp1, hI.hp2, hI.alive, hI.gold1, hI.gold2, hI.weapons,
          hI.pB1, hI.pB2, hI.mAlive, hI.mRad, hI.mB, hI.bIds, hI.dropAmt,
          hI.gren, hI.ebDmg⟩
      · exact ⟨hI.sideL, hI.sideR, hI.id1, hI.id2, hI.dims1, hI.dims2,
          hI.hp1, hI.hp2, hI.alive, hI.gold1, hI.gold2, hI.weapons,
          hI.pB1, hI.pB2, hI.mAlive, hI.mRad, hI.mB, hI.bIds, hI.dropAmt,
          hI.gren, hI.ebDmg⟩

/-- The freshly constructed core satisfies the invariant. -/
theorem inv_initState : Inv initState := by
  refine
    { sideL := rfl, sideR := rfl, id1 := rfl, id2 := rfl,
      dims1 := ⟨rfl, rfl⟩, dims2 := ⟨rfl, rfl⟩, hp1 := ?_, hp2 := ?_,
      alive := ?_, gold1 := ?_, gold2 := ?_, weapons := ?_, pB1 := ?_,
      pB2 := ?_, mAlive := ?_, mRad := ?_, mB := ?_, bIds := ?_,
      dropAmt := ?_, gren := ?_, ebDmg := ?_ }
  · constructor <;> norm_num [initState, mkPlayer, PLAYER_MAX_HP, POk]
  · constructor <;> norm_num [initState, mkPlayer, PLAYER_MAX_HP, POk]
  · intro _
    constructor <;> norm_num [initState, mkPlayer, PLAYER_MAX_HP]
  · norm_num [initState, mkPlayer]
  · norm_num [initState, mkPlayer]
  · intro hps
    rcases hps with h' | h' <;> exact Phase.noConfusion h'
  · unfold inBoundsP pMinX pMaxX
    norm_num [initState, mkPlayer, ARENA_PADDING, FENCE_X, SCREEN_WIDTH,
      SCREEN_HEIGHT]
  · unfold inBoundsP pMinX pMaxX
    norm_num [initState, mkPlayer, ARENA_PADDING, FENCE_X, SCREEN_WIDTH,
      SCREEN_HEIGHT]
    split_ifs with hx <;> norm_num
  · exact fun m hm => absurd hm (List.not_mem_nil m)
  · exact fun m hm => absurd hm (List.not_mem_nil m)
  · exact fun m hm => absurd hm (List.not_mem_nil m)
  · exact fun b hb => absurd hb (List.not_mem_nil b)
  · exact fun g hg => absurd hg (List.not_mem_nil g)
  · exact fun g hg => absurd hg (List.not_mem_nil g)
  · exact fun e he => absurd he (List.not_mem_nil e)

/-- `handleRestart` preserves the invariant. -/
theorem handleRestart_inv {s : GState} (hI : Inv s) :
    Inv (handleRestart s) := by
  unfold handleRestart
  dsimp only
  split_ifs with h1
  · exact hI
  · have h0 := inv_initState
    exact ⟨h0.sideL, h0.sideR, h0.id1, h0.id2, h0.dims1, h0.dims2, h0.hp1,
      h0.hp2, h0.alive, h0.gold1, h0.gold2, h0.weapons, h0.pB1, h0.pB2,
      h0.mAlive, h0.mRad, h0.mB, h0.bIds, h0.dropAmt, h0.gren, h0.ebDmg⟩

/-- One server tick preserves the invariant. -/
theorem step_inv (env : Env) (dt : ℚ) (inputs : ℕ → Input) {s : GState}
    (hI : Inv s) : Inv (step env dt inputs s) := by
  unfold step
  cases hst : s.state with
  | weaponSelect => exact updateWeaponSelect_inv env dt hI hst
  | playing => exact (updatePlaying_inv env dt inputs hI hst).1
  | shop => exact updateShop_inv env dt hI hst
  | gameOver => exact hI

/-- Every reachable state satisfies the inductive invariant. -/
theorem reachable_inv {s : GState} (h : Reachable s) : Inv s := by
  induction h with
  | init => exact inv_initState
  | tick env dt inputs hdt h ih => exact step_inv env dt inputs ih
  | weapon pid wt h ih => exact handleWeaponChoice_inv pid wt ih
  | shopAct pid a h ih => exact handleShopAction_inv pid a ih
  | readySig pid h ih => exact handleReady_inv pid ih
  | restart h ih => exact handleRestart_inv ih

-- Claim C5 ----------------------------------------------------------------

/-- **C5.** In every reachable state (in particular after every `step`
call), each player's position lies within their own half's padded bounds
and every monster's position lies within its side's padded bounds; in
particular no player or monster crosses the centerline `x = FENCE_X = 500`
or exits the padded arena bounds. -/
theorem bounds_invariant {s : GState} (h : Reachable s) :
    (inBoundsP s.p1 ∧ inBoundsP s.p2 ∧ ∀ m ∈ s.monsters, inBoundsM m)
    ∧ (s.p1.x < FENCE_X ∧ FENCE_X < s.p2.x)
    ∧ ∀ m ∈ s.monsters, (m.side = Side.left → m.x < FENCE_X)
        ∧ (m.side = Side.right → FENCE_X < m.x) := by
  have hI := reachable_inv h
  have hpad : ARENA_PADDING = 40 := rfl
  refine ⟨⟨hI.pB1, hI.pB2, hI.mB⟩, ⟨?_, ?_⟩, ?_⟩
  · have h1 : s.p1.x ≤ pMaxX s.p1 := hI.pB1.2.1
    have h2 : pMaxX s.p1 = FENCE_X - ARENA_PADDING - s.p1.width / 2 := by
      unfold pMaxX
      simp [hI.sideL]
    have h3 : s.p1.width = 32 := hI.dims1.1
    linarith
  · have h1 : pMinX s.p2 ≤ s.p2.x := hI.pB2.1
    have h2 : pMinX s.p2 = FENCE_X + ARENA_PADDING + s.p2.width / 2 := by
      unfold pMinX
      simp [hI.sideR]
    have h3 : s.p2.width = 32 := hI.dims2.1
    linarith
  · intro m hm
    have hb := hI.mB m hm
    have hr := hI.mRad m hm
    constructor
    · intro hside
      have h1 : m.x ≤ mMaxX m := hb.2.1
      have h2 : mMaxX m = FENCE_X - ARENA_PADDING - m.radius := by
        unfold mMaxX
        simp [hside]
      rcases hr with h5 | h5 <;> linarith
    · intro hside
      have h1 : mMinX m ≤ m.x := hb.1
      have h2 : mMinX m = FENCE_X + ARENA_PADDING + m.radius := by
        unfold mMinX
        simp [hside]
      rcases hr with h5 | h5 <;> linarith

theorem bounds_invariant_witness :
    (inBoundsP initState.p1 ∧ inBoundsP initState.p2
      ∧ ∀ m ∈ initState.monsters, inBoundsM m)
    ∧ (initState.p1.x < FENCE_X ∧ FENCE_X < initState.p2.x)
    ∧ ∀ m ∈ initState.monsters, (m.side = Side.left → m.x < FENCE_X)
        ∧ (m.side = Side.right → FENCE_X < m.x) :=
  bounds_invariant Reachable.init

-- Claim C6 ----------------------------------------------------------------

/-- **C6.** In every reachable state (in particular after every `step`
call), both players satisfy `0 ≤ hp ≤ maxHp`, and every monster still
present in the monsters collection has strictly positive hp. -/
theorem hp_invariant {s : GState} (h : Reachable s) :
    (0 ≤ s.p1.hp ∧ s.p1.hp ≤ s.p1.maxHp)
    ∧ (0 ≤ s.p2.hp ∧ s.p2.hp ≤ s.p2.maxHp)
    ∧ ∀ m ∈ s.monsters, 0 < m.hp := by
  have hI := reachable_inv h
  exact ⟨hI.hp1, hI.hp2, hI.mAlive⟩

theorem hp_invariant_witness :
    (0 ≤ initState.p1.hp ∧ initState.p1.hp ≤ initState.p1.maxHp)
    ∧ (0 ≤ initState.p2.hp ∧ initState.p2.hp ≤ initState.p2.maxHp)
    ∧ ∀ m ∈ initState.monsters, 0 < m.hp :=
  hp_invariant Reachable.init

-- Claim C1 ----------------------------------------------------------------

/-- **C1.** Shop economy, as the code actually implements it: (i) a
purchase action whose cost exceeds the acting player's gold leaves the
whole game state unchanged (silent no-op, no partial purchase); (ii) an
affordable purchase deducts exactly the cost from the acting player's
gold — for `send_grenade` only under the additional per-round grenade cap
check, which the handler tests before the gold check; (iii) in every
reachable state no player's gold is negative. -/
theorem shop_economy :
    (∀ (pid : ℕ) (a : ShopAction) (c : ℚ) (p : Player) (s : GState),
        s.state = Phase.shop → s.getPlayer pid = some p →
        actionCost a = some c → p.gold < c →
        handleShopAction pid a s = s)
    ∧ (∀ (pid : ℕ) (a : ShopAction) (c : ℚ) (p : Player) (s : GState),
        s.state = Phase.shop → s.getPlayer pid = some p →
        actionCost a = some c → c ≤ p.gold →
        (a = ShopAction.sendGrenade →
          p.grenadesBoughtThisRound < GRENADE_MAX_PER_ROUND) →
        ∃ p', (handleShopAction pid a s).getPlayer pid = some p'
          ∧ p'.gold = p.gold - c)
    ∧ (∀ s : GState, Reachable s → 0 ≤ s.p1.gold ∧ 0 ≤ s.p2.gold) := by
  refine ⟨?_, ?_, ?_⟩
  · intro pid a c p s hst hgp hc hlt
    unfold handleShopAction
    rw [if_neg (fun h => h hst), hgp]
    dsimp only
    cases a with
    | upgradeWeapon =>
      have hce : c = UPGRADE_COST := (Option.some.inj hc).symm
      subst hce
      dsimp only
      rw [if_neg (not_le.mpr hlt)]
    | heal =>
      have hce : c = HEAL_COST := (Option.some.inj hc).symm
      subst hce
      dsimp only
      rw [if_neg (not_le.mpr hlt)]
    | send mob =>
      have hce : c = SEND_MOB_COST mob := (Option.some.inj hc).symm
      subst hce
      dsimp only
      rw [if_pos hlt]
    | sendUnknown => exact Option.noConfusion hc
    | sendBoss =>
      have hce : c = SEND_BOSS_COST := (Option.some.inj hc).symm
      subst hce
      dsimp only
      rw [if_pos hlt]
    | sendGrenade =>
      have hce : c = GRENADE_COST := (Option.some.inj hc).symm
      subst hce
      dsimp only
      by_cases hcap : GRENADE_MAX_PER_ROUND ≤ p.grenadesBoughtThisRound
      · rw [if_pos hcap]
      · rw [if_neg hcap, if_pos hlt]
    | startRound => exact Option.noConfusion hc
    | other => exact Option.noConfusion hc
  · intro pid a c p s hst hgp hc hge hcap
    unfold handleShopAction
    rw [if_neg (fun h => h hst), hgp]
    dsimp only
    cases a with
    | upgradeWeapon =>
      have hce : c = UPGRADE_COST := (Option.some.inj hc).symm
      subst hce
      dsimp only
      rw [if_pos hge]
      exact ⟨_, getPlayer_update hgp (upgradeWeapon_frame _).1,
        (upgradeWeapon_frame _).2.2.2.2.2.2.2.2.2⟩
    | heal =>
      have hce : c = HEAL_COST := (Option.some.inj hc).symm
      subst hce
      dsimp only
      rw [if_pos hge]
      exact ⟨_, getPlayer_update hgp (heal_pcore _ _).1, heal_gold _ _⟩
    | send mob =>
      have hce : c = SEND_MOB_COST mob := (Option.some.inj hc).symm
      subst hce
      dsimp only
      rw [if_neg (not_lt.mpr hge)]
      exact ⟨_, getPlayer_update hgp rfl, rfl⟩
    | sendUnknown => exact Option.noConfusion hc
    | sendBoss =>
      have hce : c = SEND_BOSS_COST := (Option.some.inj hc).symm
      subst hce
      dsimp only
      rw [if_neg (not_lt.mpr hge)]
      exact ⟨_, getPlayer_update hgp rfl, rfl⟩
    | sendGrenade =>
      have hce : c = GRENADE_COST := (Option.some.inj hc).symm
      subst hce
      dsimp only
      rw [if_neg (not_le.mpr (hcap rfl)), if_neg (not_lt.mpr hge)]
      exact ⟨_, getPlayer_update hgp rfl, rfl⟩
    | startRound => exact Option.noConfusion hc
    | other => exact Option.noConfusion hc
  · intro s h
    exact ⟨(reachable_inv h).gold1, (reachable_inv h).gold2⟩

theorem shop_economy_witness :
    (shopState.state = Phase.shop
      ∧ shopState.getPlayer 1 = some shopState.p1
      ∧ actionCost ShopAction.heal = some HEAL_COST
      ∧ shopState.p1.gold < HEAL_COST
      ∧ handleShopAction 1 ShopAction.heal shopState = shopState)
    ∧ (shopGold20.state = Phase.shop
      ∧ shopGold20.getPlayer 1 = some shopGold20.p1
      ∧ HEAL_COST ≤ shopGold20.p1.gold
      ∧ ∃ p', (handleShopAction 1 ShopAction.heal shopGold20).getPlayer 1
            = some p' ∧ p'.gold = shopGold20.p1.gold - HEAL_COST)
    ∧ (0 ≤ initState.p1.gold ∧ 0 ≤ initState.p2.gold) := by
  have h1 : shopState.p1.gold < HEAL_COST := by
    show (0 : ℚ) < 8
    norm_num
  have h2 : HEAL_COST ≤ shopGold20.p1.gold := by
    show (8 : ℚ) ≤ 20
    norm_num
  exact ⟨⟨rfl, rfl, rfl, h1,
      shop_economy.1 1 ShopAction.heal HEAL_COST shopState.p1 shopState
        rfl rfl rfl h1⟩,
    ⟨rfl, rfl, h2,
      shop_economy.2.1 1 ShopAction.heal HEAL_COST shopGold20.p1 shopGold20
        rfl rfl rfl h2 (fun h => ShopAction.noConfusion h)⟩,
    shop_economy.2.2 initState Reachable.init⟩

/-- **C1 counterexample.** The claim "if gold is at least the cost exactly
that cost is deducted" fails for `send_grenade`: the handler checks the
per-round grenade cap before the gold check, so a player with plenty of
gold who has already bought the maximum number of grenades gets a silent
no-op and no gold is deducted. -/
theorem shop_economy_cex :
    grenCapState.state = Phase.shop
    ∧ grenCapState.getPlayer 1 = some grenCapState.p1
    ∧ actionCost ShopAction.sendGrenade = some GRENADE_COST
    ∧ GRENADE_COST ≤ grenCapState.p1.gold
    ∧ handleShopAction 1 ShopAction.sendGrenade grenCapState = grenCapState
    ∧ ¬ ∃ p',
        (handleShopAction 1 ShopAction.sendGrenade grenCapState).getPlayer 1
          = some p' ∧ p'.gold = grenCapState.p1.gold - GRENADE_COST := by
  refine ⟨rfl, rfl, rfl, ?_, rfl, ?_⟩
  · show (25 : ℚ) ≤ 100
    norm_num
  · rintro ⟨p', hp', hg⟩
    have hpe : grenCapState.p1 = p' := Option.some.inj hp'
    rw [← hpe] at hg
    have hq : (100 : ℚ) = 100 - 25 := hg
    norm_num at hq

-- Claim C4 ----------------------------------------------------------------

/-- **C4.** No premature fire: in a PLAYING tick from a reachable state, a
player with no living monster on their own side spawns no bullet — every
bullet of the post-tick state owned by that player carries the id and
owner of a bullet already present before the tick; and from a reachable
state where a player has not yet chosen a weapon, a tick leaves the
bullets list unchanged (nobody fires at all). -/
theorem no_premature_fire :
    (∀ (env : Env) (dt : ℚ) (inputs : ℕ → Input) (s : GState),
        Reachable s → s.state = Phase.playing →
        (∀ m ∈ s.monsters, ¬(m.isAlive = true ∧ m.side = s.p1.side)) →
        ∀ b ∈ (step env dt inputs s).bullets, b.ownerId = s.p1.id →
          ∃ b0 ∈ s.bullets, b.id = b0.id ∧ b.ownerId = b0.ownerId)
    ∧ (∀ (env : Env) (dt : ℚ) (inputs : ℕ → Input) (s : GState),
        Reachable s → s.state = Phase.playing →
        (∀ m ∈ s.monsters, ¬(m.isAlive = true ∧ m.side = s.p2.side)) →
        ∀ b ∈ (step env dt inputs s).bullets, b.ownerId = s.p2.id →
          ∃ b0 ∈ s.bullets, b.id = b0.id ∧ b.ownerId = b0.ownerId)
    ∧ (∀ (env : Env) (dt : ℚ) (inputs : ℕ → Input) (s : GState),
        Reachable s →
        (s.p1.weaponChosen = false ∨ s.p2.weaponChosen = false) →
        (step env dt inputs s).bullets = s.bullets) := by
  refine ⟨?_, ?_, ?_⟩
  · intro env dt inputs s h hst hm b hb hown
    have hI := reachable_inv h
    have hstep : step env dt inputs s = updatePlaying env dt inputs s := by
      unfold step
      rw [hst]
    rw [hstep] at hb
    obtain ⟨nb1, nb2, ho1, ho2, hz1, hz2, htr⟩ :=
      (updatePlaying_inv env dt inputs hI hst).2
    obtain ⟨b0, hb0, hid, hown0⟩ := htr b hb
    rcases hb0 with hb0 | hb0 | hb0
    · exact ⟨b0, hb0, hid, hown0⟩
    · rw [hz1 hm] at hb0
      exact absurd hb0 (List.not_mem_nil b0)
    · exfalso
      have h12 : s.p1.id = s.p2.id :=
        (hown.symm.trans hown0).trans (ho2 b0 hb0)
      rw [hI.id1, hI.id2] at h12
      exact absurd h12 (by decide)
  · intro env dt inputs s h hst hm b hb hown
    have hI := reachable_inv h
    have hstep : step env dt inputs s = updatePlaying env dt inputs s := by
      unfold step
      rw [hst]
    rw [hstep] at hb
    obtain ⟨nb1, nb2, ho1, ho2, hz1, hz2, htr⟩ :=
      (updatePlaying_inv env dt inputs hI hst).2
    obtain ⟨b0, hb0, hid, hown0⟩ := htr b hb
    rcases hb0 with hb0 | hb0 | hb0
    · exact ⟨b0, hb0, hid, hown0⟩
    · exfalso
      have h12 : s.p2.id = s.p1.id :=
        (hown.symm.trans hown0).trans (ho1 b0 hb0)
      rw [hI.id1, hI.id2] at h12
      exact absurd h12 (by decide)
    · rw [hz2 hm] at hb0
      exact absurd hb0 (List.not_mem_nil b0)
  · intro env dt inputs s h hw
    have hI := reachable_inv h
    unfold step
    cases hst : s.state with
    | weaponSelect =>
      show (updateWeaponSelect env dt s).bullets = s.bullets
      unfold updateWeaponSelect
      dsimp only
      split_ifs with hcc
      · exfalso
        have u1 := update_pcore s.p1 dt
        have u2 := update_pcore s.p2 dt
        rw [u1.2.1, u2.2.1, hI.sideL, hI.sideR, u1.2.2.2.2.2.1,
          u2.2.2.2.2.2.1] at hcc
        rcases hw with hw | hw <;> rw [hw] at hcc <;> simp at hcc
      · rfl
    | playing =>
      rcases hw with hw | hw
      · rw [(hI.weapons (Or.inl hst)).1] at hw
        exact absurd hw (by decide)
      · rw [(hI.weapons (Or.inl hst)).2] at hw
        exact absurd hw (by decide)
    | shop =>
      rcases hw with hw | hw
      · rw [(hI.weapons (Or.inr hst)).1] at hw
        exact absurd hw (by decide)
      · rw [(hI.weapons (Or.inr hst)).2] at hw
        exact absurd hw (by decide)
    | gameOver => rfl

theorem no_premature_fire_witness :
    initState.p1.weaponChosen = false
    ∧ (step zeroEnv 1 noInput initState).bullets = initState.bullets :=
  ⟨rfl, no_premature_fire.2.2 zeroEnv 1 noInput initState Reachable.init
    (Or.inl rfl)⟩

end FF
